import Mathlib

/-!
Verification of the EnglishEar diagnostic scripts.

The repository consists of four standalone Python scripts
(`check_api_usage.py`, `test_api.py`, `test_gpt35.py`, `test_realtime_api.py`)
that read an OpenAI credential from a fixed `.env` file, issue HTTP or
WebSocket requests, and print human-readable diagnostics.

This development gives a shallow embedding of those scripts:

* Python strings are modelled as `String` (or `List Char` where character
  level splitting matters, as in `load_api_key`).
* JSON values are modelled by the inductive `JVal`.
* A script is a function in the monad `PyM`: state is the list of
  observable effects (`Eff`: console prints, HTTP requests, WebSocket
  operations, file reads/writes, sleeps) performed so far, and exceptions
  are modelled with `Except PyErr`.  Network nondeterminism is an explicit
  input (`ReqOutcome`, `ConnOutcome`, `RecvOutcome`).
* The unbounded `while True` event loop of the realtime script is given a
  fuel parameter; running out of fuel produces the distinguished error
  `PyErr.fuel`, which no `except` clause of the model catches.  A run
  ending in `PyErr.fuel` corresponds to a real execution that has not yet
  finished after `fuel` reads.
-/

/-! ## Python string primitives (character level) -/

/-- Whitespace characters removed by Python's `str.strip()`. -/
def isPySpace (c : Char) : Bool :=
  c == ' ' || c == '\t' || c == '\n' || c == '\r' || c == '\x0b' || c == '\x0c'

/-- Python `str.strip()`: remove leading and trailing whitespace. -/
def pyStrip (s : List Char) : List Char :=
  ((s.dropWhile isPySpace).reverse.dropWhile isPySpace).reverse

/-- The marker `OPENAI_API_KEY=` that `load_api_key` looks for. -/
def keyMarker : List Char := "OPENAI_API_KEY=".data

/-- `load_api_key` from the scripts (identical in all three copies): scan the
lines of the `.env` file; on the first line starting with `OPENAI_API_KEY=`
return `line.split('=')[1].strip()`; return `None` when no line matches.
Note that Python's `split('=')` splits on **every** `'='`, so index `[1]` is
the text between the first and second `'='` of the line. -/
def load_api_key : List (List Char) → Option (List Char)
  | [] => none
  | line :: rest =>
    if keyMarker.isPrefixOf line then
      match (line.splitOn '=').get? 1 with
      | some fld => some (pyStrip fld)
      | none => none
    else load_api_key rest

/-! ## Claim C1 -/

/-- Helper: splitting `"OPENAI_API_KEY=" ++ token` on `'='` when the token
itself contains no `'='`. -/
theorem splitOn_keyMarker_append (token : List Char) (h : '=' ∉ token) :
    (keyMarker ++ token).splitOn '=' = ["OPENAI_API_KEY".data, token] := by
  have h0 : keyMarker = "OPENAI_API_KEY".data ++ ['='] := by decide
  have h1 : keyMarker ++ token = "OPENAI_API_KEY".data ++ '=' :: token := by
    rw [h0, List.append_assoc]
    rfl
  rw [h1]
  unfold List.splitOn
  have hno : ∀ x ∈ "OPENAI_API_KEY".data, ¬ (x == '=') = true := by decide
  rw [List.splitOnP_first _ _ hno '=' (by simp) token]
  have htok : ∀ x ∈ token, ¬ (x == '=') = true := by
    intro x hx hbeq
    have hxeq : x = '=' := by simpa using hbeq
    subst hxeq
    exact h hx
  rw [List.splitOnP_eq_single _ _ htok]

/-- Claim C1, counterexample: for a token containing `'='` the function does
not return the whole token.  With the line `OPENAI_API_KEY=a=b`,
`load_api_key` returns `"a"`, not the stripped token `"a=b"`. -/
theorem c1_counterexample :
    load_api_key ["OPENAI_API_KEY=a=b".data] ≠ some (pyStrip "a=b".data) := by
  decide

/-- Claim C1 (amended): for every credential file whose first line beginning
with `OPENAI_API_KEY=` carries a token containing no further `'='`,
`load_api_key` returns exactly that token with surrounding whitespace
stripped.  (For tokens containing `'='` only the part before the next `'='`
is returned, as the counterexample shows.) -/
theorem c1_amended (pre post : List (List Char)) (token : List Char)
    (hpre : ∀ l ∈ pre, keyMarker.isPrefixOf l = false) (h : '=' ∉ token) :
    load_api_key (pre ++ (keyMarker ++ token) :: post) = some (pyStrip token) := by
  induction pre with
  | nil =>
      have hp : keyMarker.isPrefixOf (keyMarker ++ token) = true := by
        rw [List.isPrefixOf_iff_prefix]
        exact List.prefix_append _ _
      simp only [List.nil_append, load_api_key, hp, if_true,
        splitOn_keyMarker_append token h]
      rfl
  | cons l ls ih =>
      have hl : keyMarker.isPrefixOf l = false := hpre l (List.mem_cons_self l ls)
      simp only [List.cons_append, load_api_key, hl, Bool.false_eq_true, if_false]
      exact ih (fun x hx => hpre x (List.mem_cons_of_mem l hx))

/-- Witness for `c1_amended` at a concrete file. -/
theorem c1_amended_witness :
    load_api_key [" # comment".data, (keyMarker ++ " sk-test123 ".data)] =
      some (pyStrip " sk-test123 ".data) := by
  exact c1_amended [" # comment".data] [] " sk-test123 ".data
    (by decide) (by decide)

/-! ## JSON values -/

/-- JSON values as produced by `json.loads` / `response.json()`. -/
inductive JVal where
  | obj (fields : List (String × JVal))
  | arr (elems : List JVal)
  | str (s : String)
  | num (n : Int)
  | real (q : ℚ)
  | null
deriving Inhabited

/-- Python `==` between a value and a string literal: true exactly when the
value is that string (comparing a string with a non-string yields `False`). -/
def tyEq (v : JVal) (s : String) : Bool :=
  match v with
  | .str t => t == s
  | _ => false

/-- Rendering of a value interpolated into an f-string.  Strings, `None` and
numbers render as in Python; containers are rendered abstractly (no claim
depends on the rendering of a container). -/
def pyStr : JVal → String
  | .str s => s
  | .null => "None"
  | .num n => toString n
  | .real q => toString q
  | .obj _ => "<dict>"
  | .arr _ => "<list>"

/-! ## Effects, errors and the script monad -/

/-- Observable effects of a script run, in order. -/
inductive Eff where
  | print (line : String)
  | get (url : String) (auth : String)
  | post (url : String) (auth : String) (body : JVal)
  | wsConnect (uri : String) (auth : String)
  | wsSend (msg : JVal)
  | wsRecv (timeoutSecs : Nat)
  | fileRead (path : String)
  | fileWrite (path : String)
  | sleep

/-- Python exceptions relevant to the scripts, plus the fuel marker for the
realtime event loop (`.fuel` models an execution that has not terminated
yet; it is raised by no Python code and caught by no handler). -/
inductive PyErr where
  | invalidStatusCode (code : Nat)
  | timeoutError
  | exn (msg : String)
  | fuel
deriving DecidableEq

/-- The script monad: a state of emitted effects plus Python exceptions. -/
def PyM (α : Type) : Type := List Eff → Except PyErr α × List Eff

def PyM.pure {α : Type} (a : α) : PyM α := fun t => (.ok a, t)

def PyM.bind {α β : Type} (m : PyM α) (f : α → PyM β) : PyM β := fun t =>
  match m t with
  | (.ok a, t') => f a t'
  | (.error e, t') => (.error e, t')

instance : Monad PyM where
  pure := PyM.pure
  bind := PyM.bind

/-- Emit one effect. -/
def emit (e : Eff) : PyM Unit := fun t => (.ok () , t ++ [e])

/-- Raise a Python exception. -/
def pyThrow {α : Type} (e : PyErr) : PyM α := fun t => (.error e, t)

/-- Python `try:` / `except:`; the model's handlers inspect the `PyErr` to
mirror the scripts' chains of `except` clauses. -/
def pyTry {α : Type} (body : PyM α) (handler : PyErr → PyM α) : PyM α := fun t =>
  match body t with
  | (.ok a, t') => (.ok a, t')
  | (.error e, t') => handler e t'

/-- Python `print(...)` (one call per effect; `end=''` is not distinguished). -/
def pyPrint (s : String) : PyM Unit := emit (.print s)

/-- A sequence of `print` statements with constant text. -/
def pyPrintAll : List String → PyM Unit
  | [] => PyM.pure ()
  | s :: rest => PyM.bind (pyPrint s) (fun _ => pyPrintAll rest)

/-! ### Run lemmas -/

@[simp] theorem run_pure {α : Type} (a : α) (t : List Eff) :
    (@Pure.pure PyM _ α a) t = (.ok a, t) := rfl

@[simp] theorem run_pure' {α : Type} (a : α) (t : List Eff) :
    (PyM.pure a) t = (.ok a, t) := rfl

@[simp] theorem run_bind {α β : Type} (m : PyM α) (f : α → PyM β) (t : List Eff) :
    (m >>= f) t =
      match m t with
      | (.ok a, t') => f a t'
      | (.error e, t') => (.error e, t') := rfl

@[simp] theorem run_bind' {α β : Type} (m : PyM α) (f : α → PyM β) (t : List Eff) :
    (PyM.bind m f) t =
      match m t with
      | (.ok a, t') => f a t'
      | (.error e, t') => (.error e, t') := rfl

@[simp] theorem run_emit (e : Eff) (t : List Eff) : emit e t = (.ok (), t ++ [e]) := rfl

@[simp] theorem run_pyThrow {α : Type} (e : PyErr) (t : List Eff) :
    (@pyThrow α e) t = (.error e, t) := rfl

@[simp] theorem run_pyTry {α : Type} (body : PyM α) (handler : PyErr → PyM α) (t : List Eff) :
    pyTry body handler t =
      match body t with
      | (.ok a, t') => (.ok a, t')
      | (.error e, t') => handler e t' := rfl

@[simp] theorem run_pyPrint (s : String) (t : List Eff) :
    pyPrint s t = (.ok (), t ++ [.print s]) := rfl

/-! ## Python data-access primitives -/

/-- Lookup of a key in a JSON object; `none` for non-objects. (Pure helper
used to state hypotheses; the monadic access operations are below.) -/
def jlook (v : JVal) (k : String) : Option JVal :=
  match v with
  | .obj fs => fs.lookup k
  | _ => none

/-- Python `v[k]` for a string key: `KeyError` when the key is missing,
`TypeError` when `v` is not a dict. -/
def pySubscript (v : JVal) (k : String) : PyM JVal :=
  match v with
  | .obj fs =>
    match fs.lookup k with
    | some x => PyM.pure x
    | none => pyThrow (.exn "KeyError")
  | _ => pyThrow (.exn "TypeError")

/-- Python `v.get(k, dflt)`: `AttributeError` when `v` is not a dict. -/
def pyGet (v : JVal) (k : String) (dflt : JVal) : PyM JVal :=
  match v with
  | .obj fs =>
    match fs.lookup k with
    | some x => PyM.pure x
    | none => PyM.pure dflt
  | _ => pyThrow (.exn "AttributeError")

/-- Python `v[i]` for a nonnegative integer index. -/
def pyIdx (v : JVal) (i : Nat) : PyM JVal :=
  match v with
  | .arr xs =>
    match xs[i]? with
    | some x => PyM.pure x
    | none => pyThrow (.exn "IndexError")
  | .str s =>
    match s.data[i]? with
    | some c => PyM.pure (.str (String.mk [c]))
    | none => pyThrow (.exn "IndexError")
  | _ => pyThrow (.exn "TypeError")

/-- Python `len(v)`. -/
def pyLen (v : JVal) : PyM Nat :=
  match v with
  | .arr xs => PyM.pure xs.length
  | .obj fs => PyM.pure fs.length
  | .str s => PyM.pure s.length
  | _ => pyThrow (.exn "TypeError")

/-- Python iteration `for m in v`: elements of a list, keys of a dict,
characters of a string; `TypeError` otherwise. -/
def pyIter (v : JVal) : PyM (List JVal) :=
  match v with
  | .arr xs => PyM.pure xs
  | .obj fs => PyM.pure (fs.map (fun p => JVal.str p.1))
  | .str s => PyM.pure (s.data.map (fun c => JVal.str (String.mk [c])))
  | _ => pyThrow (.exn "TypeError")

/-- The list comprehension `[m['id'] for m in ms]`. -/
def mapSubscript (k : String) : List JVal → PyM (List JVal)
  | [] => PyM.pure []
  | v :: vs =>
    PyM.bind (pySubscript v k) (fun x =>
      PyM.bind (mapSubscript k vs) (fun rest =>
        PyM.pure (x :: rest)))

/-- Python `s in xs` where `s` is a string literal and `xs` a list of JSON
values (elementwise `==`). -/
def jContains (xs : List JVal) (s : String) : Bool := xs.any (fun v => tyEq v s)

/-- Python `v[:n]` used on an AI response before printing: slicing works on
strings and lists (the latter rendered abstractly) and raises `TypeError` on
anything else. -/
def pySliceTo (v : JVal) (n : Nat) : PyM String :=
  match v with
  | .str s => PyM.pure (String.mk (s.data.take n))
  | .arr _ => PyM.pure "<list>"
  | _ => pyThrow (.exn "TypeError")

/-- `json.loads(response.text)` / `response.json()`: the parse result is part
of the modelled response; `none` stands for malformed JSON and raises. -/
def jsonLoad (j : Option JVal) : PyM JVal :=
  match j with
  | some v => PyM.pure v
  | none => pyThrow (.exn "JSONDecodeError")

/-! ## HTTP model -/

/-- A received HTTP response: status code, headers, body text, the result of
parsing the body as JSON (`none` when malformed), and the byte length of the
raw content. -/
structure HttpResponse where
  status_code : Nat
  headers : List (String × String)
  text : String
  jsonVal : Option JVal
  contentLen : Nat

/-- Outcome of one `requests.get`/`requests.post` call: a response, or a
raised exception (connection error, timeout, ...). -/
inductive ReqOutcome where
  | resp (r : HttpResponse)
  | exn (msg : String)

/-- Python `response.headers.get(k, dflt)`. -/
def headerGet (hs : List (String × String)) (k dflt : String) : String :=
  (hs.lookup k).getD dflt

/-- `requests.get(url, headers=...)`. -/
def requestGet (o : ReqOutcome) (url auth : String) : PyM HttpResponse :=
  PyM.bind (emit (.get url auth)) (fun _ =>
    match o with
    | .resp r => PyM.pure r
    | .exn m => pyThrow (.exn m))

/-- `requests.post(url, headers=..., json=body)`. -/
def requestPost (o : ReqOutcome) (url auth : String) (body : JVal) : PyM HttpResponse :=
  PyM.bind (emit (.post url auth body)) (fun _ =>
    match o with
    | .resp r => PyM.pure r
    | .exn m => pyThrow (.exn m))

/-- The rendering of the exception in an f-string `f"...{e}"`. -/
def errMsgStr : PyErr → String
  | .exn m => m
  | .timeoutError => ""
  | .invalidStatusCode c => toString c
  | .fuel => "<fuel>"

/-! ## Shared script-level helpers -/

/-- Python `"=" * n` and similar separator lines. -/
def sepLine (n : Nat) : String := String.mk (List.replicate n '=')

/-- The fixed `.env` path used by all scripts. -/
def envPath : String := "/Users/user/Desktop/EnglishEar/english_ear_app/.env"

/-- The credential as the scripts compute it: `API_KEY = load_api_key()`. -/
def keyOpt (lines : List (List Char)) : Option String :=
  (load_api_key lines).map (fun cs => String.mk cs)

/-- Python truthiness test `not API_KEY` (true for `None` and for `""`). -/
def pyFalsy : Option String → Bool
  | none => true
  | some s => s == ""

/-- The f-string `f"Bearer {API_KEY}"` (note: `None` renders as `"None"`). -/
def authHeader (k : Option String) : String :=
  "Bearer " ++ (match k with | some s => s | none => "None")

/-- Python `s[:n]`. -/
def pyTake (s : String) (n : Nat) : String := String.mk (s.data.take n)

/-- Python `s[-n:]`. -/
def pyTakeLast (s : String) (n : Nat) : String :=
  String.mk (s.data.drop (s.data.length - n))

/-! ## Trace observations -/

/-- Console output of a trace. -/
def outputOf (t : List Eff) : List String :=
  t.filterMap (fun e => match e with | .print s => some s | _ => none)

/-- The URL of an HTTP request effect, if any. -/
def httpUrlOf : Eff → Option String
  | .get u _ => some u
  | .post u _ _ => some u
  | _ => none

/-- URLs of the HTTP requests of a trace, in order. -/
def httpUrls (t : List Eff) : List String := t.filterMap httpUrlOf

/-- The URI of a WebSocket connection attempt, if any. -/
def wsConnUrlOf : Eff → Option String
  | .wsConnect u _ => some u
  | _ => none

/-- WebSocket connection attempts of a trace. -/
def wsConnects (t : List Eff) : List String := t.filterMap wsConnUrlOf

/-- The path of a file read, if any. -/
def fileReadOf : Eff → Option String
  | .fileRead p => some p
  | _ => none

/-- File reads of a trace. -/
def fileReads (t : List Eff) : List String := t.filterMap fileReadOf

/-- The path of a file write, if any. -/
def fileWriteOf : Eff → Option String
  | .fileWrite p => some p
  | _ => none

/-- File writes of a trace. -/
def fileWrites (t : List Eff) : List String := t.filterMap fileWriteOf

/-- The authorization header carried by a network effect, if any. -/
def reqAuth : Eff → Option String
  | .get _ a => some a
  | .post _ a _ => some a
  | .wsConnect _ a => some a
  | _ => none

def isPrintEff : Eff → Bool | .print _ => true | _ => false

def isFileWrite : Eff → Bool | .fileWrite _ => true | _ => false

def isFileRead : Eff → Bool | .fileRead _ => true | _ => false

def isWsConnectEff : Eff → Bool | .wsConnect _ _ => true | _ => false

def isWsSendEff : Eff → Bool | .wsSend _ => true | _ => false

/-- The WebSocket-level actions of a trace (connects, sends, receives). -/
def wsActs (t : List Eff) : List Eff :=
  t.filter (fun e =>
    match e with
    | .wsConnect _ _ => true
    | .wsSend _ => true
    | .wsRecv _ => true
    | _ => false)

/-- The timeout of a WebSocket read, if any. -/
def recvTmOf : Eff → Option Nat
  | .wsRecv n => some n
  | _ => none

/-- The timeouts of the WebSocket reads of a trace, in order. -/
def recvTimeouts (t : List Eff) : List Nat := t.filterMap recvTmOf

/-- The authorization headers carried by the network effects of a trace. -/
def reqAuths (t : List Eff) : List String := t.filterMap reqAuth

/-- Number of effects of a trace matched by `P`. -/
def countP (P : Eff → Bool) (t : List Eff) : Nat := (t.filter P).length

/-- A run result with no escaped Python exception (`.fuel` marks a run that
is still inside the realtime event loop, not an escaped exception). -/
def isClean {α : Type} : Except PyErr α → Bool
  | .ok _ => true
  | .error .fuel => true
  | .error _ => false

/-! ## Compositional reasoning kit

Predicates on `PyM` computations that compose over `bind`, `try` and `if`,
used to establish trace and result invariants of whole scripts without
enumerating all combinations of network outcomes. -/

/-- The computation only appends to the trace. -/
def Appends {α : Type} (m : PyM α) : Prop := ∀ t, ∃ ext, (m t).2 = t ++ ext

/-- The computation emits no effect at all. -/
def Silent {α : Type} (m : PyM α) : Prop := ∀ t, (m t).2 = t

/-- Every effect the computation adds (beyond the incoming trace)
satisfies `P`. -/
def EffsOk {α : Type} (P : Eff → Prop) (m : PyM α) : Prop :=
  ∀ t, ∀ e ∈ (m t).2, e ∈ t ∨ P e

/-- The computation adds at most `k` effects matched by `P`. -/
def EmitBound {α : Type} (P : Eff → Bool) (m : PyM α) (k : Nat) : Prop :=
  ∀ t, countP P (m t).2 ≤ countP P t + k

/-- The computation always succeeds. -/
def NoThrow {α : Type} (m : PyM α) : Prop := ∀ t, ∃ a, (m t).1 = .ok a

/-- The computation never ends in an escaped Python exception. -/
def Clean {α : Type} (m : PyM α) : Prop := ∀ t, isClean (m t).1 = true

theorem countP_append (P : Eff → Bool) (t t' : List Eff) :
    countP P (t ++ t') = countP P t + countP P t' := by
  simp [countP, List.filter_append]

/-! ### Silent computations -/

theorem silent_pure {α : Type} (a : α) : Silent (PyM.pure a) := fun _ => rfl

theorem silent_pyThrow {α : Type} (e : PyErr) : Silent (@pyThrow α e) := fun _ => rfl

theorem silent_pySubscript (v : JVal) (k : String) : Silent (pySubscript v k) := by
  intro t
  unfold pySubscript
  cases v <;> simp
  case obj fs => cases fs.lookup k <;> simp

theorem silent_pyGet (v : JVal) (k : String) (d : JVal) : Silent (pyGet v k d) := by
  intro t
  unfold pyGet
  cases v <;> simp
  case obj fs => cases fs.lookup k <;> simp

theorem silent_pyIdx (v : JVal) (i : Nat) : Silent (pyIdx v i) := by
  intro t
  cases v <;> try rfl
  case arr xs => cases h : xs[i]? <;> simp [pyIdx, h]
  case str s => cases h : s.data[i]? <;> simp [pyIdx, h]

theorem silent_pyLen (v : JVal) : Silent (pyLen v) := by
  intro t; unfold pyLen; cases v <;> simp

theorem silent_pyIter (v : JVal) : Silent (pyIter v) := by
  intro t; unfold pyIter; cases v <;> simp

theorem silent_pySliceTo (v : JVal) (n : Nat) : Silent (pySliceTo v n) := by
  intro t; unfold pySliceTo; cases v <;> simp

theorem silent_jsonLoad (j : Option JVal) : Silent (jsonLoad j) := by
  intro t; unfold jsonLoad; cases j <;> simp

theorem silent_bind {α β : Type} {m : PyM α} {f : α → PyM β}
    (hm : Silent m) (hf : ∀ a, Silent (f a)) : Silent (PyM.bind m f) := by
  intro t
  unfold PyM.bind
  cases h : m t with
  | mk r t' =>
    have ht' : t' = t := by have := hm t; rw [h] at this; exact this
    cases r with
    | ok a => simpa [ht'] using hf a t
    | error e => simpa using ht'

theorem silent_mapSubscript (k : String) (vs : List JVal) : Silent (mapSubscript k vs) := by
  induction vs with
  | nil => exact silent_pure []
  | cons v vs ih =>
      exact silent_bind (silent_pySubscript v k)
        (fun x => silent_bind ih (fun rest => silent_pure _))

theorem silent_appends {α : Type} {m : PyM α} (h : Silent m) : Appends m :=
  fun t => ⟨[], by simpa using h t⟩

/-! ### Appends -/

theorem appends_pure {α : Type} (a : α) : Appends (PyM.pure a) :=
  silent_appends (silent_pure a)

theorem appends_pyThrow {α : Type} (e : PyErr) : Appends (@pyThrow α e) :=
  silent_appends (silent_pyThrow e)

theorem appends_emit (e : Eff) : Appends (emit e) := fun t => ⟨[e], rfl⟩

theorem appends_pyPrint (s : String) : Appends (pyPrint s) := appends_emit _

theorem appends_bind {α β : Type} {m : PyM α} {f : α → PyM β}
    (hm : Appends m) (hf : ∀ a, Appends (f a)) : Appends (PyM.bind m f) := by
  intro t
  obtain ⟨ext, hext⟩ := hm t
  cases h : m t with
  | mk r t' =>
    have ht' : t' = t ++ ext := by rw [← hext, h]
    cases r with
    | ok a =>
        have hrun : PyM.bind m f t = f a t' := by unfold PyM.bind; rw [h]
        obtain ⟨ext2, hext2⟩ := hf a t'
        refine ⟨ext ++ ext2, ?_⟩
        rw [hrun, hext2, ht', List.append_assoc]
    | error e =>
        have hrun : PyM.bind m f t = (.error e, t') := by unfold PyM.bind; rw [h]
        refine ⟨ext, ?_⟩
        rw [hrun]
        exact ht'

theorem appends_pyTry {α : Type} {body : PyM α} {h : PyErr → PyM α}
    (hb : Appends body) (hh : ∀ e, Appends (h e)) : Appends (pyTry body h) := by
  intro t
  obtain ⟨ext, hext⟩ := hb t
  cases hb' : body t with
  | mk r t' =>
    have ht' : t' = t ++ ext := by rw [← hext, hb']
    cases r with
    | ok a =>
        have hrun : pyTry body h t = (.ok a, t') := by unfold pyTry; rw [hb']
        refine ⟨ext, ?_⟩
        rw [hrun]
        exact ht'
    | error e =>
        have hrun : pyTry body h t = h e t' := by unfold pyTry; rw [hb']
        obtain ⟨ext2, hext2⟩ := hh e t'
        refine ⟨ext ++ ext2, ?_⟩
        rw [hrun, hext2, ht', List.append_assoc]

theorem appends_ite {α : Type} {c : Prop} [Decidable c] {m₁ m₂ : PyM α}
    (h₁ : Appends m₁) (h₂ : Appends m₂) : Appends (if c then m₁ else m₂) := by
  by_cases h : c <;> simp [h] <;> assumption

theorem appends_pyPrintAll (L : List String) : Appends (pyPrintAll L) := by
  induction L with
  | nil => exact appends_pure ()
  | cons s rest ih => exact appends_bind (appends_pyPrint s) (fun _ => ih)

theorem appends_requestGet (o : ReqOutcome) (u a : String) : Appends (requestGet o u a) := by
  unfold requestGet
  refine appends_bind (appends_emit _) (fun _ => ?_)
  cases o
  · exact appends_pure _
  · exact appends_pyThrow _

theorem appends_requestPost (o : ReqOutcome) (u a : String) (b : JVal) :
    Appends (requestPost o u a b) := by
  unfold requestPost
  refine appends_bind (appends_emit _) (fun _ => ?_)
  cases o
  · exact appends_pure _
  · exact appends_pyThrow _

/-! ### EffsOk -/

theorem effsOk_silent {α : Type} {P : Eff → Prop} {m : PyM α} (h : Silent m) :
    EffsOk P m := by
  intro t e he
  rw [h t] at he
  exact Or.inl he

theorem effsOk_pure {α : Type} {P : Eff → Prop} (a : α) : EffsOk P (PyM.pure a) :=
  effsOk_silent (silent_pure a)

theorem effsOk_pyThrow {α : Type} {P : Eff → Prop} (e : PyErr) :
    EffsOk P (@pyThrow α e) :=
  effsOk_silent (silent_pyThrow e)

theorem effsOk_emit {P : Eff → Prop} {e : Eff} (he : P e) : EffsOk P (emit e) := by
  intro t e' he'
  simp only [run_emit, List.mem_append, List.mem_singleton] at he'
  rcases he' with h | h
  · exact Or.inl h
  · rw [h]; exact Or.inr he

theorem effsOk_pyPrint {P : Eff → Prop} {s : String} (hs : P (.print s)) :
    EffsOk P (pyPrint s) := effsOk_emit hs

theorem effsOk_bind {α β : Type} {P : Eff → Prop} {m : PyM α} {f : α → PyM β}
    (hm : EffsOk P m) (hf : ∀ a, EffsOk P (f a)) : EffsOk P (PyM.bind m f) := by
  intro t e he
  unfold PyM.bind at he
  cases h : m t with
  | mk r t' =>
    rw [h] at he
    have ht' : ∀ x, x ∈ t' → x ∈ t ∨ P x := by
      intro x hx
      exact hm t x (by rw [h]; exact hx)
    cases r with
    | ok a =>
        simp only at he
        rcases hf a t' e he with h1 | h1
        · exact ht' e h1
        · exact Or.inr h1
    | error err =>
        simp only at he
        exact ht' e he

theorem effsOk_pyTry {α : Type} {P : Eff → Prop} {body : PyM α} {h : PyErr → PyM α}
    (hb : EffsOk P body) (hh : ∀ e, EffsOk P (h e)) : EffsOk P (pyTry body h) := by
  intro t e he
  unfold pyTry at he
  cases hb' : body t with
  | mk r t' =>
    rw [hb'] at he
    have ht' : ∀ x, x ∈ t' → x ∈ t ∨ P x := by
      intro x hx
      exact hb t x (by rw [hb']; exact hx)
    cases r with
    | ok a => exact ht' e he
    | error err =>
        rcases hh err t' e he with h1 | h1
        · exact ht' e h1
        · exact Or.inr h1

theorem effsOk_ite {α : Type} {P : Eff → Prop} {c : Prop} [Decidable c] {m₁ m₂ : PyM α}
    (h₁ : EffsOk P m₁) (h₂ : EffsOk P m₂) : EffsOk P (if c then m₁ else m₂) := by
  by_cases h : c <;> simp [h] <;> assumption

theorem effsOk_pyPrintAll {P : Eff → Prop} {L : List String}
    (hL : ∀ s ∈ L, P (.print s)) : EffsOk P (pyPrintAll L) := by
  induction L with
  | nil => exact effsOk_pure ()
  | cons s rest ih =>
      exact effsOk_bind (effsOk_pyPrint (hL s (List.mem_cons_self s rest)))
        (fun _ => ih (fun x hx => hL x (List.mem_cons_of_mem s hx)))

theorem effsOk_requestGet {P : Eff → Prop} {o : ReqOutcome} {u a : String}
    (h : P (.get u a)) : EffsOk P (requestGet o u a) := by
  unfold requestGet
  refine effsOk_bind (effsOk_emit h) (fun _ => ?_)
  cases o
  · exact effsOk_pure _
  · exact effsOk_pyThrow _

theorem effsOk_requestPost {P : Eff → Prop} {o : ReqOutcome} {u a : String} {b : JVal}
    (h : P (.post u a b)) : EffsOk P (requestPost o u a b) := by
  unfold requestPost
  refine effsOk_bind (effsOk_emit h) (fun _ => ?_)
  cases o
  · exact effsOk_pure _
  · exact effsOk_pyThrow _

/-! ### EmitBound -/

theorem emitBound_silent {α : Type} {P : Eff → Bool} {m : PyM α} (h : Silent m) :
    EmitBound P m 0 := by
  intro t
  rw [h t]
  omega

theorem emitBound_emit_le {P : Eff → Bool} (e : Eff) : EmitBound P (emit e) 1 := by
  intro t
  simp only [run_emit, countP_append]
  have : countP P [e] ≤ 1 := by
    unfold countP
    cases hP : P e <;> simp [List.filter, hP]
  omega

theorem emitBound_emit_miss {P : Eff → Bool} {e : Eff} (he : P e = false) :
    EmitBound P (emit e) 0 := by
  intro t
  simp [run_emit, countP_append, countP, List.filter, he]

theorem emitBound_mono {α : Type} {P : Eff → Bool} {m : PyM α} {k k' : Nat}
    (h : EmitBound P m k) (hk : k ≤ k') : EmitBound P m k' := by
  intro t
  exact le_trans (h t) (by omega)

theorem emitBound_bind {α β : Type} {P : Eff → Bool} {m : PyM α} {f : α → PyM β}
    {k₁ k₂ : Nat} (hm : EmitBound P m k₁) (hf : ∀ a, EmitBound P (f a) k₂) :
    EmitBound P (PyM.bind m f) (k₁ + k₂) := by
  intro t
  unfold PyM.bind
  cases h : m t with
  | mk r t' =>
    have h1 : countP P t' ≤ countP P t + k₁ := by
      have := hm t; rw [h] at this; exact this
    cases r with
    | ok a =>
        simp only
        have h2 := hf a t'
        omega
    | error e =>
        simp only
        omega

theorem emitBound_pyTry {α : Type} {P : Eff → Bool} {body : PyM α} {h : PyErr → PyM α}
    {k₁ k₂ : Nat} (hb : EmitBound P body k₁) (hh : ∀ e, EmitBound P (h e) k₂) :
    EmitBound P (pyTry body h) (k₁ + k₂) := by
  intro t
  unfold pyTry
  cases hb' : body t with
  | mk r t' =>
    have h1 : countP P t' ≤ countP P t + k₁ := by
      have := hb t; rw [hb'] at this; exact this
    cases r with
    | ok a => simp only; omega
    | error e =>
        simp only
        have h2 := hh e t'
        omega

theorem emitBound_ite {α : Type} {P : Eff → Bool} {c : Prop} [Decidable c]
    {m₁ m₂ : PyM α} {k : Nat} (h₁ : EmitBound P m₁ k) (h₂ : EmitBound P m₂ k) :
    EmitBound P (if c then m₁ else m₂) k := by
  by_cases h : c <;> simp [h] <;> assumption

theorem emitBound_pyPrint {P : Eff → Bool} (hP : ∀ s, P (.print s) = false) (s : String) :
    EmitBound P (pyPrint s) 0 := emitBound_emit_miss (hP s)

theorem emitBound_pyPrintAll {P : Eff → Bool} (hP : ∀ s, P (.print s) = false)
    (L : List String) : EmitBound P (pyPrintAll L) 0 := by
  induction L with
  | nil => exact emitBound_silent (silent_pure ())
  | cons s rest ih =>
      have := emitBound_bind (emitBound_pyPrint hP s) (fun _ => ih)
      simpa using this

/-! ### NoThrow and Clean -/

theorem noThrow_pure {α : Type} (a : α) : NoThrow (PyM.pure a) := fun _ => ⟨a, rfl⟩

theorem noThrow_emit (e : Eff) : NoThrow (emit e) := fun _ => ⟨(), rfl⟩

theorem noThrow_pyPrint (s : String) : NoThrow (pyPrint s) := noThrow_emit _

theorem noThrow_bind {α β : Type} {m : PyM α} {f : α → PyM β}
    (hm : NoThrow m) (hf : ∀ a, NoThrow (f a)) : NoThrow (PyM.bind m f) := by
  intro t
  unfold PyM.bind
  cases h : m t with
  | mk r t' =>
    obtain ⟨a, ha⟩ := hm t
    rw [h] at ha
    cases r with
    | ok a' => exact hf a' t'
    | error e => simp at ha

theorem noThrow_ite {α : Type} {c : Prop} [Decidable c] {m₁ m₂ : PyM α}
    (h₁ : NoThrow m₁) (h₂ : NoThrow m₂) : NoThrow (if c then m₁ else m₂) := by
  by_cases h : c <;> simp [h] <;> assumption

theorem noThrow_pyPrintAll (L : List String) : NoThrow (pyPrintAll L) := by
  induction L with
  | nil => exact noThrow_pure ()
  | cons s rest ih => exact noThrow_bind (noThrow_pyPrint s) (fun _ => ih)

theorem clean_of_noThrow {α : Type} {m : PyM α} (h : NoThrow m) : Clean m := by
  intro t
  obtain ⟨a, ha⟩ := h t
  rw [ha]
  rfl

theorem clean_bind {α β : Type} {m : PyM α} {f : α → PyM β}
    (hm : NoThrow m) (hf : ∀ a, Clean (f a)) : Clean (PyM.bind m f) := by
  intro t
  unfold PyM.bind
  cases h : m t with
  | mk r t' =>
    obtain ⟨a, ha⟩ := hm t
    rw [h] at ha
    cases r with
    | ok a' => exact hf a' t'
    | error e => simp at ha

theorem clean_pyTry {α : Type} {body : PyM α} {h : PyErr → PyM α}
    (hh : ∀ e, Clean (h e)) : Clean (pyTry body h) := by
  intro t
  unfold pyTry
  cases hb : body t with
  | mk r t' =>
    cases r with
    | ok a => rfl
    | error e => exact hh e t'

theorem clean_ite {α : Type} {c : Prop} [Decidable c] {m₁ m₂ : PyM α}
    (h₁ : Clean m₁) (h₂ : Clean m₂) : Clean (if c then m₁ else m₂) := by
  by_cases h : c <;> simp [h] <;> assumption

/-- The first `print` of a script is in the output of any run that starts
with it. -/
theorem mem_output_bind_print {β : Type} (s : String) (k : Unit → PyM β) (t : List Eff)
    (hk : Appends (k ())) :
    s ∈ outputOf ((PyM.bind (pyPrint s) k) t).2 := by
  unfold PyM.bind
  simp only [run_pyPrint]
  obtain ⟨ext, hext⟩ := hk (t ++ [.print s])
  rw [hext]
  simp [outputOf, List.filterMap_append]

/-! ## `check_api_usage.py` -/

def modelUrl : String := "https://api.openai.com/v1/models/gpt-3.5-turbo"

def modelsUrl : String := "https://api.openai.com/v1/models"

def validMsg : String := "   ✅ API Key is valid and active"

def invalidKeyMsg : String := "   ❌ Invalid API Key"

def rateLimitMsg : String := "   ⚠️ Rate limit or quota exceeded"

/-- The constant block printed after the status branch of `check_api_limits`
(lines 61-71 of `check_api_usage.py`). -/
def quotaBlock : List String :=
  ["\n💡 Possible Reasons for Quota Exceeded:",
   "   1. Free trial credits exhausted",
   "   2. Monthly spending limit reached ($20)",
   "   3. API key was used extensively in other projects",
   "   4. Billing issue or payment method problem",
   "\n🔧 How to Fix:",
   "   1. Check usage at: https://platform.openai.com/usage",
   "   2. Check billing at: https://platform.openai.com/billing",
   "   3. Increase usage limits in billing settings",
   "   4. Add payment method if using free tier"]

/-- Rate-limit-header block inside the 429 branch of `check_api_limits`. -/
def calRateHeaders (r : HttpResponse) : PyM Unit :=
  if (r.headers.lookup "x-ratelimit-limit-requests").isSome then
    PyM.bind (pyPrint "\n📈 Rate Limits:") (fun _ =>
    PyM.bind (pyPrint ("   Request Limit: " ++
        headerGet r.headers "x-ratelimit-limit-requests" "N/A")) (fun _ =>
    PyM.bind (pyPrint ("   Remaining Requests: " ++
        headerGet r.headers "x-ratelimit-remaining-requests" "N/A")) (fun _ =>
    PyM.bind (pyPrint ("   Token Limit: " ++
        headerGet r.headers "x-ratelimit-limit-tokens" "N/A")) (fun _ =>
    pyPrint ("   Remaining Tokens: " ++
        headerGet r.headers "x-ratelimit-remaining-tokens" "N/A")))))
  else PyM.pure ()

/-- Error-details block inside the 429 branch of `check_api_limits`
(`if response.text: error_data = json.loads(response.text); ...`). -/
def calErrDetails (r : HttpResponse) : PyM Unit :=
  if r.text != "" then
    PyM.bind (jsonLoad r.jsonVal) (fun errorData =>
    PyM.bind (pyGet errorData "error" (.obj [])) (fun errObj =>
    PyM.bind (pyGet errObj "message" (.str "")) (fun errorMsg =>
    PyM.bind (pyPrint "\n❌ Error Details:") (fun _ =>
    pyPrint ("   " ++ pyStr errorMsg)))))
  else PyM.pure ()

/-- Second half of `check_api_limits`: the constant advice blocks and the
minimal `GET /v1/models` test request. -/
def calTail (key : Option String) (o2 : ReqOutcome) : PyM Unit :=
  PyM.bind (pyPrintAll quotaBlock) (fun _ =>
  PyM.bind (pyPrint "\n🧪 Testing Minimal API Request...") (fun _ =>
  PyM.bind (requestGet o2 modelsUrl (authHeader key)) (fun testResponse =>
  if testResponse.status_code == 200 then
    PyM.bind (jsonLoad testResponse.jsonVal) (fun models =>
    PyM.bind (pyGet models "data" (.arr [])) (fun dataField =>
    PyM.bind (pyLen dataField) (fun n =>
    PyM.bind (pyPrint ("   ✅ Can list models (found " ++ toString n ++ " models)")) (fun _ =>
    pyPrint "   → API key works, but may have usage limits"))))
  else
    pyPrint ("   ❌ Cannot even list models (Status: " ++
      toString testResponse.status_code ++ ")"))))

/-- `check_api_limits` of `check_api_usage.py`. -/
def check_api_limits (key : Option String) (o1 o2 : ReqOutcome) : PyM Unit :=
  PyM.bind (pyPrint "\n🔍 Checking API Usage and Limits...") (fun _ =>
  PyM.bind (pyPrint (sepLine 60)) (fun _ =>
  pyTry
    (PyM.bind (requestGet o1 modelUrl (authHeader key)) (fun response =>
     PyM.bind (pyPrint "\n📊 API Response Status:") (fun _ =>
     PyM.bind (pyPrint ("   Status Code: " ++ toString response.status_code)) (fun _ =>
     PyM.bind
       (if response.status_code == 200 then
          pyPrint validMsg
        else if response.status_code == 401 then
          pyPrint invalidKeyMsg
        else if response.status_code == 429 then
          PyM.bind (pyPrint rateLimitMsg) (fun _ =>
          PyM.bind (calRateHeaders response) (fun _ =>
          calErrDetails response))
        else PyM.pure ()) (fun _ =>
     calTail key o2)))))
    (fun e => pyPrint ("❌ Error checking API: " ++ errMsgStr e))))

/-- `analyze_api_key` of `check_api_usage.py`. -/
def analyze_api_key (key : Option String) : PyM Unit :=
  PyM.bind (pyPrint "\n🔑 API Key Analysis:") (fun _ =>
  PyM.bind (pyPrint (sepLine 60)) (fun _ =>
  if pyFalsy key then
    pyPrint "❌ No API key found"
  else
    let k := key.getD ""
    PyM.bind
      (if k.startsWith "sk-proj-" then
         PyM.bind (pyPrint "   ✅ Project-specific API key (new format)") (fun _ =>
         pyPrint "   → This is a scoped key with specific permissions")
       else if k.startsWith "sk-" then
         pyPrint "   ✅ Standard API key"
       else
         pyPrint "   ⚠️ Unusual API key format") (fun _ =>
    PyM.bind (pyPrint ("   Key length: " ++ toString k.length ++ " characters")) (fun _ =>
    PyM.bind
      (if k.length > 100 then
         pyPrint "   → Long key format (post-2024)"
       else
         pyPrint "   → Standard key format") (fun _ =>
    pyPrint ("\n   Key preview: " ++ pyTake k 20 ++ "..." ++ pyTakeLast k 4))))))

/-- The constant output of `estimate_usage`. -/
def estimateBlock : List String :=
  ["\n💰 What Could Use $20 of API Credits:",
   sepLine 60,
   "\n📊 Estimated Usage for $20:",
   "   • GPT-4 Turbo: ~666,000 input tokens OR ~222,000 output tokens",
   "   • GPT-3.5 Turbo: ~20 million tokens",
   "   • Whisper: ~3,333 minutes of audio (~55 hours)",
   "   • TTS: ~1.3 million characters",
   "   • DALL-E 3: ~20 images (1024x1024)",
   "\n🤔 Possible Usage Scenarios:",
   "   1. Heavy testing with GPT-4 (lots of long conversations)",
   "   2. Image generation with DALL-E",
   "   3. Extensive audio processing",
   "   4. Another app/project using the same API key",
   "   5. Leaked API key being used by others",
   "\n⚠️ Important Notes:",
   "   • WebSocket Realtime API attempts could consume credits",
   "   • Failed requests still count towards rate limits",
   "   • Some models are more expensive than others"]

/-- `estimate_usage` of `check_api_usage.py` (prints only). -/
def estimate_usage : PyM Unit := pyPrintAll estimateBlock

/-- The recommended-actions block at the end of `main`. -/
def recommendBlock : List String :=
  ["\n" ++ sepLine 70,
   "📌 Recommended Actions:",
   sepLine 70,
   "1. Visit: https://platform.openai.com/usage",
   "2. Check your actual usage for today and this month",
   "3. Visit: https://platform.openai.com/billing",
   "4. Check if $20 limit was reached",
   "5. Consider:",
   "   • Increasing the usage limit",
   "   • Using GPT-3.5-turbo instead of GPT-4 for testing",
   "   • Creating a new API key for this project only",
   "\n💡 For testing, you can:",
   "   • Use GPT-3.5-turbo (much cheaper)",
   "   • Set up usage alerts",
   "   • Use playground for manual testing"]

/-- `main` of `check_api_usage.py` after the module-level credential read:
banner, key check, and the three check functions. -/
def check_api_usage_body (key : Option String) (now : String)
    (o1 o2 : ReqOutcome) : PyM Unit :=
  PyM.bind (pyPrint (sepLine 70)) (fun _ =>
  PyM.bind (pyPrint "🔍 OpenAI API Usage Checker") (fun _ =>
  PyM.bind (pyPrint ("📅 " ++ now)) (fun _ =>
  PyM.bind (pyPrint (sepLine 70)) (fun _ =>
  if pyFalsy key then
    pyPrint "❌ No API key found in .env file"
  else
    PyM.bind (analyze_api_key key) (fun _ =>
    PyM.bind (check_api_limits key o1 o2) (fun _ =>
    PyM.bind estimate_usage (fun _ =>
    pyPrintAll recommendBlock)))))))

/-- `check_api_usage.py` as a whole: the module-level
`API_KEY = load_api_key()` (one read of the fixed `.env` path) followed by
`main`.  `lines` is the contents of the `.env` file. -/
def check_api_usage_main (lines : List (List Char)) (now : String)
    (o1 o2 : ReqOutcome) : PyM Unit :=
  PyM.bind (emit (.fileRead envPath)) (fun _ =>
    check_api_usage_body (keyOpt lines) now o1 o2)

/-! ## `test_api.py` -/

def chatUrl : String := "https://api.openai.com/v1/chat/completions"

def speechUrl : String := "https://api.openai.com/v1/audio/speech"

def ttsPath : String := "/tmp/tts_test.mp3"

/-- The chat-completions payload of `test_chat_completion`. -/
def chatPayload : JVal := .obj
  [("model", .str "gpt-4-turbo-preview"),
   ("messages", .arr
     [.obj [("role", .str "system"),
            ("content", .str "You are an English conversation tutor. Be friendly and helpful.")],
      .obj [("role", .str "user"),
            ("content", .str "Hello, how are you today?")]]),
   ("temperature", .real (4 / 5)),
   ("max_tokens", .num 150)]

/-- Shared `except Exception` handler shape of the `test_api.py` checks:
print a prefixed message and return `False`. -/
def printFalse (prefixText : String) : PyErr → PyM Bool := fun e =>
  PyM.bind (pyPrint (prefixText ++ errMsgStr e)) (fun _ => PyM.pure false)

/-- The non-200 branch shared by the `test_api.py` checks: print the status
line and the response text, return `False`. -/
def httpFailLines (label : String) (response : HttpResponse) : PyM Bool :=
  PyM.bind (pyPrint (label ++ toString response.status_code)) (fun _ =>
  PyM.bind (pyPrint ("   Response: " ++ response.text)) (fun _ =>
  PyM.pure false))

/-- The 200 branch of `test_connection`. -/
def test_connection_ok (response : HttpResponse) : PyM Bool :=
  PyM.bind (pyPrint "✅ API Connection successful") (fun _ =>
  PyM.bind (jsonLoad response.jsonVal) (fun jv =>
  PyM.bind (pySubscript jv "data") (fun models =>
  PyM.bind (pyLen models) (fun n =>
  PyM.bind (pyPrint ("   Available models: " ++ toString n)) (fun _ =>
  PyM.bind (pyIter models) (fun ms =>
  PyM.bind (mapSubscript "id" ms) (fun modelIds =>
  PyM.bind
    (if jContains modelIds "whisper-1" then
       pyPrint "   ✅ Whisper model available"
     else PyM.pure ()) (fun _ =>
  PyM.bind
    (if jContains modelIds "gpt-4-turbo-preview" || jContains modelIds "gpt-4" then
       pyPrint "   ✅ GPT-4 model available"
     else PyM.pure ()) (fun _ =>
  PyM.bind
    (if jContains modelIds "tts-1-hd" || jContains modelIds "tts-1" then
       pyPrint "   ✅ TTS model available"
     else PyM.pure ()) (fun _ =>
  PyM.pure true))))))))))

/-- `test_connection` of `test_api.py`. -/
def test_connection (key : Option String) (o : ReqOutcome) : PyM Bool :=
  PyM.bind (pyPrint "\n🔍 Testing API Connection...") (fun _ =>
  pyTry
    (PyM.bind (requestGet o modelsUrl (authHeader key)) (fun response =>
     if response.status_code == 200 then
       test_connection_ok response
     else
       httpFailLines "❌ API Connection failed: " response))
    (printFalse "❌ Connection error: "))

/-- The 200 branch of `test_chat_completion`. -/
def test_chat_completion_ok (response : HttpResponse) (elapsed : String) : PyM Bool :=
  PyM.bind (jsonLoad response.jsonVal) (fun data =>
  PyM.bind (pySubscript data "choices") (fun choices =>
  PyM.bind (pyIdx choices 0) (fun c0 =>
  PyM.bind (pySubscript c0 "message") (fun msg =>
  PyM.bind (pySubscript msg "content") (fun aiResponse =>
  PyM.bind (pyGet data "usage" (.obj [])) (fun usage =>
  PyM.bind (pyGet usage "total_tokens" (.num 0)) (fun tokensUsed =>
  PyM.bind (pyPrint "✅ Chat completion successful") (fun _ =>
  PyM.bind (pyPrint ("   Response time: " ++ elapsed ++ "s")) (fun _ =>
  PyM.bind (pyPrint ("   Tokens used: " ++ pyStr tokensUsed)) (fun _ =>
  PyM.bind (pySliceTo aiResponse 100) (fun preview =>
  PyM.bind (pyPrint ("   AI Response: " ++ preview ++ "...")) (fun _ =>
  PyM.pure true))))))))))))

/-- `test_chat_completion` of `test_api.py`.  `elapsed` is the rendering of
the measured wall-clock time (not modelled further). -/
def test_chat_completion (key : Option String) (o : ReqOutcome) (elapsed : String) : PyM Bool :=
  PyM.bind (pyPrint "\n💬 Testing Chat Completion...") (fun _ =>
  pyTry
    (PyM.bind (requestPost o chatUrl (authHeader key) chatPayload) (fun response =>
     if response.status_code == 200 then
       test_chat_completion_ok response elapsed
     else
       httpFailLines "❌ Chat completion failed: " response))
    (printFalse "❌ Chat error: "))

/-- `test_whisper` of `test_api.py`: prints only, returns `True`
unconditionally. -/
def test_whisper : PyM Bool :=
  PyM.bind (pyPrint "\n🎤 Testing Whisper Speech-to-Text...") (fun _ =>
  PyM.bind (pyPrint "   Creating test audio...") (fun _ =>
  PyM.bind (pyPrint "   ⚠️ Whisper test requires actual audio file") (fun _ =>
  PyM.bind (pyPrint "   In production, this would transcribe audio to text") (fun _ =>
  PyM.pure true))))

/-- The TTS payload of `test_tts`. -/
def ttsPayload : JVal := .obj
  [("model", .str "tts-1-hd"),
   ("input", .str "Hello! This is a test of the text to speech system."),
   ("voice", .str "nova")]

/-- The 200 branch of `test_tts`: print the details and save the audio to
`/tmp/tts_test.mp3`. -/
def test_tts_ok (response : HttpResponse) (elapsed : String) : PyM Bool :=
  PyM.bind (pyPrint "✅ TTS generation successful") (fun _ =>
  PyM.bind (pyPrint ("   Response time: " ++ elapsed ++ "s")) (fun _ =>
  PyM.bind (pyPrint ("   Audio size: " ++ toString response.contentLen ++ " bytes")) (fun _ =>
  PyM.bind (emit (.fileWrite ttsPath)) (fun _ =>
  PyM.bind (pyPrint ("   Audio saved to: " ++ ttsPath)) (fun _ =>
  PyM.pure true)))))

/-- `test_tts` of `test_api.py`.  On a 200 response the script saves the
audio bytes to `/tmp/tts_test.mp3` (the `:,` thousands formatting of the
size is not modelled). -/
def test_tts (key : Option String) (o : ReqOutcome) (elapsed : String) : PyM Bool :=
  PyM.bind (pyPrint "\n🔊 Testing Text-to-Speech...") (fun _ =>
  pyTry
    (PyM.bind (requestPost o speechUrl (authHeader key) ttsPayload) (fun response =>
     if response.status_code == 200 then
       test_tts_ok response elapsed
     else
       httpFailLines "❌ TTS generation failed: " response))
    (printFalse "❌ TTS error: "))

/-- The steps of `test_complete_flow`. -/
def flowSteps : List (String × String) :=
  [("1. User speaks", "Simulating user speech input"),
   ("2. Convert to text", "Using Whisper API"),
   ("3. Process with GPT-4", "Generating response"),
   ("4. Convert to speech", "Using TTS API"),
   ("5. Play response", "Audio playback ready")]

def flowLoop : List (String × String) → PyM Unit
  | [] => PyM.pure ()
  | (step, desc) :: rest =>
    PyM.bind (pyPrint ("\n" ++ step)) (fun _ =>
    PyM.bind (pyPrint ("   " ++ desc)) (fun _ =>
    PyM.bind (emit .sleep) (fun _ =>
    PyM.bind (pyPrint "   ✅ Completed") (fun _ =>
    flowLoop rest))))

/-- `test_complete_flow` of `test_api.py`: prints and sleeps only, returns
`True` unconditionally. -/
def test_complete_flow : PyM Bool :=
  PyM.bind (pyPrint "\n🔄 Testing Complete Conversation Flow...") (fun _ =>
  PyM.bind (pyPrint (sepLine 50)) (fun _ =>
  PyM.bind (flowLoop flowSteps) (fun _ =>
  PyM.bind (pyPrint ("\n" ++ sepLine 50)) (fun _ =>
  PyM.bind (pyPrint "✅ Complete flow test finished") (fun _ =>
  PyM.pure true)))))

/-- The constant output of `calculate_costs`.  The numeric strings are the
values the script's IEEE-double arithmetic produces under `:.2f` / `:.4f`
formatting (`0.0035 * 1000 = 3.50`, etc.). -/
def costsBlock : List String :=
  ["\n💰 Estimated API Costs (per 1000 conversations):",
   sepLine 50,
   "   GPT-4 Chat: $3.50",
   "   Whisper STT: $0.50",
   "   TTS Generation: $7.50",
   "   ─────────────────────",
   "   Total: $11.50",
   "   Per conversation: $0.0115"]

/-- `calculate_costs` of `test_api.py` (prints only). -/
def calculate_costs : PyM Unit := pyPrintAll costsBlock

def bNat (b : Bool) : Nat := if b then 1 else 0

def passFail (b : Bool) : String := if b then "✅ PASS" else "❌ FAIL"

/-- The summary line `f"\n   Total: {total_passed}/{total_tests} passed
({success_rate:.0f}%)"`.  For `n` passed out of 5 the IEEE evaluation of
`n / 5 * 100` under `:.0f` prints exactly `n * 20`. -/
def totalLine (n : Nat) : String :=
  "\n   Total: " ++ toString n ++ "/5 passed (" ++ toString (n * 20) ++ "%)"

/-- The summary section of `main` of `test_api.py`.  The comparisons
`success_rate == 100` and `success_rate >= 80` on the IEEE value of
`n / 5 * 100` agree with the integer comparisons on `n * 20` for every
`n ≤ 5`. -/
def test_api_summary (r1 r2 r3 r4 r5 : Bool) : PyM Unit :=
  PyM.bind (pyPrint ("\n" ++ sepLine 60)) (fun _ =>
  PyM.bind (pyPrint "📊 Test Summary") (fun _ =>
  PyM.bind (pyPrint (sepLine 60)) (fun _ =>
  PyM.bind (pyPrint ("   Connection: " ++ passFail r1)) (fun _ =>
  PyM.bind (pyPrint ("   Chat Completion: " ++ passFail r2)) (fun _ =>
  PyM.bind (pyPrint ("   Whisper STT: " ++ passFail r3)) (fun _ =>
  PyM.bind (pyPrint ("   TTS Generation: " ++ passFail r4)) (fun _ =>
  PyM.bind (pyPrint ("   Complete Flow: " ++ passFail r5)) (fun _ =>
  let passed := bNat r1 + bNat r2 + bNat r3 + bNat r4 + bNat r5
  PyM.bind (pyPrint (totalLine passed)) (fun _ =>
  if passed * 20 == 100 then
    pyPrint "\n🎉 All tests passed! The app is ready to use."
  else if passed * 20 ≥ 80 then
    pyPrint "\n⚠️ Most tests passed. Check failed tests."
  else
    pyPrint "\n❌ Multiple tests failed. Please check your API configuration.")))))))))

/-- The test-running part of `main` of `test_api.py` (reached when the key
is present): key preview, the five tests in order, the cost estimate, and
the summary. -/
def test_api_suite (key : Option String) (e1 e2 : String)
    (o1 o2 o3 : ReqOutcome) : PyM Unit :=
  let k := key.getD ""
  PyM.bind (pyPrint ("🔑 API Key: " ++ pyTake k 20 ++ "..." ++ pyTakeLast k 4)) (fun _ =>
  PyM.bind (test_connection key o1) (fun r1 =>
  PyM.bind (test_chat_completion key o2 e1) (fun r2 =>
  PyM.bind test_whisper (fun r3 =>
  PyM.bind (test_tts key o3 e2) (fun r4 =>
  PyM.bind test_complete_flow (fun r5 =>
  PyM.bind calculate_costs (fun _ =>
  test_api_summary r1 r2 r3 r4 r5)))))))

/-- `main` of `test_api.py` after the module-level credential read. -/
def test_api_body (key : Option String) (now e1 e2 : String)
    (o1 o2 o3 : ReqOutcome) : PyM Unit :=
  PyM.bind (pyPrint (sepLine 60)) (fun _ =>
  PyM.bind (pyPrint "🚀 EnglishEar API Test Suite") (fun _ =>
  PyM.bind (pyPrint ("📅 " ++ now)) (fun _ =>
  PyM.bind (pyPrint (sepLine 60)) (fun _ =>
  if pyFalsy key then
    pyPrint "❌ API key not found in .env file"
  else
    test_api_suite key e1 e2 o1 o2 o3))))

/-- `test_api.py` as a whole: the module-level credential read followed by
`main`. -/
def test_api_main (lines : List (List Char)) (now e1 e2 : String)
    (o1 o2 o3 : ReqOutcome) : PyM Unit :=
  PyM.bind (emit (.fileRead envPath)) (fun _ =>
    test_api_body (keyOpt lines) now e1 e2 o1 o2 o3)

/-! ## `test_gpt35.py` -/

/-- The chat payload of `test_gpt35.py`. -/
def gpt35Payload : JVal := .obj
  [("model", .str "gpt-3.5-turbo"),
   ("messages", .arr
     [.obj [("role", .str "system"),
            ("content", .str "You are a helpful English tutor. Keep responses brief.")],
      .obj [("role", .str "user"),
            ("content", .str "Hello!")]]),
   ("temperature", .real (7 / 10)),
   ("max_tokens", .num 50)]

/-- `f"{tokens * 0.0000015:.6f}"` for an integer token count, in exact
decimal arithmetic (`tokens * 15 / 10^7`, rounded to six places).  The
script's IEEE evaluation agrees for all realistic token counts; no claim
depends on this string.  Multiplying a non-number by a float raises. -/
def costStr : JVal → PyM String
  | .num n =>
      let r := (n * 15 + 5) / 10
      let a := r.natAbs
      PyM.pure ((if r < 0 then "-" else "") ++ toString (a / 1000000) ++ "." ++
        (String.mk (List.replicate (6 - (toString (a % 1000000)).length) '0') ++
          toString (a % 1000000)))
  | .real q => PyM.pure (toString q)
  | _ => pyThrow (.exn "TypeError")

/-- The 200 branch of `test_gpt35.py`. -/
def gpt35_ok (response : HttpResponse) : PyM Unit :=
  PyM.bind (jsonLoad response.jsonVal) (fun data =>
  PyM.bind (pySubscript data "choices") (fun choices =>
  PyM.bind (pyIdx choices 0) (fun c0 =>
  PyM.bind (pySubscript c0 "message") (fun msg =>
  PyM.bind (pySubscript msg "content") (fun aiResponse =>
  PyM.bind (pySubscript data "usage") (fun usage =>
  PyM.bind (pySubscript usage "total_tokens") (fun tokens =>
  PyM.bind (pyPrint "✅ Success with GPT-3.5-turbo!") (fun _ =>
  PyM.bind (pyPrint ("Response: " ++ pyStr aiResponse)) (fun _ =>
  PyM.bind (pyPrint ("Tokens used: " ++ pyStr tokens)) (fun _ =>
  PyM.bind (costStr tokens) (fun cost =>
  pyPrint ("Estimated cost: $" ++ cost))))))))))))

/-- The non-200 branch of `test_gpt35.py`. -/
def gpt35_fail (response : HttpResponse) : PyM Unit :=
  PyM.bind (pyPrint ("❌ Failed: " ++ toString response.status_code)) (fun _ =>
  PyM.bind (jsonLoad response.jsonVal) (fun err =>
  PyM.bind (pySubscript err "error") (fun eo =>
  PyM.bind (pySubscript eo "message") (fun em =>
  pyPrint ("Error: " ++ pyStr em)))))

/-- The module body of `test_gpt35.py` after the credential read. -/
def gpt35_body (key : Option String) (o : ReqOutcome) : PyM Unit :=
  PyM.bind (pyPrint "🧪 Testing GPT-3.5-turbo (Cheaper Model)") (fun _ =>
  PyM.bind (pyPrint (sepLine 50)) (fun _ =>
  pyTry
    (PyM.bind (requestPost o chatUrl (authHeader key) gpt35Payload) (fun response =>
     if response.status_code == 200 then
       gpt35_ok response
     else
       gpt35_fail response))
    (fun e => pyPrint ("Error: " ++ errMsgStr e))))

/-- The module body of `test_gpt35.py` as a whole (the script runs at
import): the credential read followed by the request and its handling. -/
def gpt35_main (lines : List (List Char)) (o : ReqOutcome) : PyM Unit :=
  PyM.bind (emit (.fileRead envPath)) (fun _ =>
    gpt35_body (keyOpt lines) o)

/-! ## `test_realtime_api.py` -/

def realtimeUri : String :=
  "wss://api.openai.com/v1/realtime?model=gpt-4o-realtime-preview-2024-12-17"

/-- The `session.update` message sent right after connecting. -/
def session_update : JVal := .obj
  [("type", .str "session.update"),
   ("session", .obj
     [("modalities", .arr [.str "text", .str "audio"]),
      ("instructions", .str "You are a helpful assistant."),
      ("voice", .str "nova"),
      ("input_audio_format", .str "pcm16"),
      ("output_audio_format", .str "pcm16"),
      ("temperature", .real (4 / 5))])]

/-- The `conversation.item.create` test message. -/
def test_message : JVal := .obj
  [("type", .str "conversation.item.create"),
   ("item", .obj
     [("type", .str "message"),
      ("role", .str "user"),
      ("content", .arr
        [.obj [("type", .str "text"),
               ("text", .str "Hello, this is a test.")]])])]

/-- The `response.create` trigger message. -/
def create_response : JVal := .obj [("type", .str "response.create")]

/-- Outcome of `websockets.connect`. -/
inductive ConnOutcome where
  | ok
  | invalidStatus (code : Nat)
  | exn (msg : String)

/-- Outcome of one `await asyncio.wait_for(websocket.recv(), timeout=...)`:
a message (with its `json.loads` result, `none` when malformed), a timeout,
or another raised exception (e.g. the connection closing). -/
inductive RecvOutcome where
  | msg (parsed : Option JVal)
  | timeout
  | exn (msg : String)

/-- `websockets.connect(uri, additional_headers=..., ssl=...)`. -/
def wsConnectAct (co : ConnOutcome) (uri auth : String) : PyM Unit :=
  PyM.bind (emit (.wsConnect uri auth)) (fun _ =>
    match co with
    | .ok => PyM.pure ()
    | .invalidStatus c => pyThrow (.invalidStatusCode c)
    | .exn m => pyThrow (.exn m))

/-- `await websocket.send(json.dumps(msg))`. -/
def wsSendAct (m : JVal) : PyM Unit := emit (.wsSend m)

/-- `await asyncio.wait_for(websocket.recv(), timeout=tmo)` followed by
`json.loads` of the received text happening at the caller. -/
def wsRecvAct (o : RecvOutcome) (tmo : Nat) : PyM (Option JVal) :=
  PyM.bind (emit (.wsRecv tmo)) (fun _ =>
    match o with
    | .msg j => PyM.pure j
    | .timeout => pyThrow .timeoutError
    | .exn m => pyThrow (.exn m))

/-- The `while True` response loop of `test_realtime_connection` (lines
121-130), reading `f idx, f (idx+1), ...` with a 10-second timeout each.
The loop breaks on a `response.done` event and then the function returns
`True`; running out of fuel stands for an execution still in the loop. -/
def respLoop (f : Nat → RecvOutcome) : Nat → Nat → PyM Bool
  | 0, _ => pyThrow .fuel
  | fuel + 1, idx =>
    PyM.bind (wsRecvAct (f idx) 10) (fun resp =>
    PyM.bind (jsonLoad resp) (fun event =>
    PyM.bind (pySubscript event "type") (fun ty =>
    if tyEq ty "response.done" then
      PyM.bind (pyPrint "✅ AI response completed") (fun _ =>
      PyM.pure true)
    else if tyEq ty "response.text.delta" then
      PyM.bind (pyGet event "delta" (.str "")) (fun delta =>
      PyM.bind (pyPrint ("   AI: " ++ pyStr delta)) (fun _ =>
      respLoop f fuel (idx + 1)))
    else
      respLoop f fuel (idx + 1))))

/-- The `error` branch of the first-reply dispatch (lines 75-88). -/
def rtErrorBranch (event : JVal) : PyM Bool :=
  PyM.bind (pyGet event "error" (.obj [])) (fun err =>
  PyM.bind (pyPrint "\n❌ Error from server:") (fun _ =>
  PyM.bind (pyGet err "code" .null) (fun code =>
  PyM.bind (pyPrint ("   Code: " ++ pyStr code)) (fun _ =>
  PyM.bind (pyGet err "message" .null) (fun emsg =>
  PyM.bind (pyPrint ("   Message: " ++ pyStr emsg)) (fun _ =>
  PyM.bind (pyGet err "code" .null) (fun code2 =>
  PyM.bind
    (if tyEq code2 "invalid_api_key" then
       pyPrint "\n⚠️ API key is invalid"
     else if tyEq code2 "insufficient_quota" then
       pyPrint "\n⚠️ Insufficient quota - need to add credits"
     else if tyEq code2 "unauthorized" then
       pyPrint "\n⚠️ API key doesn't have Realtime API access"
     else PyM.pure ()) (fun _ =>
  PyM.pure false))))))))

/-- The `session.created` branch (lines 90-132): print the session details,
send the conversation item and the response trigger, then run the loop. -/
def rtCreatedBranch (event : JVal) (f : Nat → RecvOutcome) (fuel : Nat) : PyM Bool :=
  PyM.bind (pyGet event "session" (.obj [])) (fun session =>
  PyM.bind (pyPrint "\n✅ Session created successfully!") (fun _ =>
  PyM.bind (pyGet session "id" .null) (fun sid =>
  PyM.bind (pyPrint ("   Session ID: " ++ pyStr sid)) (fun _ =>
  PyM.bind (pyGet session "model" .null) (fun mdl =>
  PyM.bind (pyPrint ("   Model: " ++ pyStr mdl)) (fun _ =>
  PyM.bind (wsSendAct test_message) (fun _ =>
  PyM.bind (pyPrint "\n📤 Sent test message") (fun _ =>
  PyM.bind (wsSendAct create_response) (fun _ =>
  PyM.bind (pyPrint "⏳ Waiting for AI response...") (fun _ =>
  respLoop f fuel 1))))))))))

/-- The `except` chain of `test_realtime_connection` (lines 138-158):
`websockets.InvalidStatusCode`, then `asyncio.TimeoutError`, then
`Exception`.  The fuel marker is not a Python exception and passes through. -/
def rtHandler : PyErr → PyM Bool
  | .invalidStatusCode c =>
    PyM.bind (pyPrint ("\n❌ WebSocket connection failed with status code: " ++ toString c)) (fun _ =>
    PyM.bind
      (if c == 401 then pyPrint "   → Invalid API key"
       else if c == 403 then pyPrint "   → API key doesn't have Realtime API access"
       else if c == 429 then pyPrint "   → Rate limit exceeded or quota exhausted"
       else if c == 503 then pyPrint "   → Service temporarily unavailable"
       else PyM.pure ()) (fun _ =>
    PyM.pure false))
  | .timeoutError =>
    PyM.bind (pyPrint "\n⏱️ Connection timed out") (fun _ => PyM.pure false)
  | .exn m =>
    PyM.bind (pyPrint ("\n❌ Unexpected error: " ++ m)) (fun _ => PyM.pure false)
  | .fuel => pyThrow .fuel

/-- The body of the `try:` of `test_realtime_connection` (connect, send the
session update, read and dispatch the first reply). -/
def rtTryBody (k : String) (co : ConnOutcome) (f : Nat → RecvOutcome)
    (fuel : Nat) : PyM Bool :=
  PyM.bind (pyPrint "\n📡 Attempting WebSocket connection...") (fun _ =>
  PyM.bind (wsConnectAct co realtimeUri ("Bearer " ++ k)) (fun _ =>
  PyM.bind (pyPrint "✅ WebSocket connected successfully!") (fun _ =>
  PyM.bind (wsSendAct session_update) (fun _ =>
  PyM.bind (pyPrint "📤 Sent session configuration") (fun _ =>
  PyM.bind (wsRecvAct (f 0) 5) (fun resp =>
  PyM.bind (jsonLoad resp) (fun event =>
  PyM.bind (pySubscript event "type") (fun ty =>
  PyM.bind (pyPrint ("📥 Received event: " ++ pyStr ty)) (fun _ =>
  if tyEq ty "error" then
    rtErrorBranch event
  else if tyEq ty "session.created" then
    rtCreatedBranch event f fuel
  else
    PyM.bind (pyPrint ("Unexpected event type: " ++ pyStr ty)) (fun _ =>
    PyM.pure false))))))))))

/-- `test_realtime_connection` of `test_realtime_api.py`.  `f n` is the
outcome of the `n`-th receive (the first reply is `f 0`, loop reads start
at `f 1`). -/
def test_realtime_connection (key : Option String) (co : ConnOutcome)
    (f : Nat → RecvOutcome) (fuel : Nat) : PyM Bool :=
  PyM.bind (pyPrint "\n🔍 Testing OpenAI Realtime API Access...") (fun _ =>
  PyM.bind (pyPrint (sepLine 60)) (fun _ =>
  if pyFalsy key then
    PyM.bind (pyPrint "❌ No API key found in .env file") (fun _ =>
    PyM.pure false)
  else
    let k := key.getD ""
    PyM.bind (pyPrint ("🔑 Using API key: " ++ pyTake k 20 ++ "..." ++ pyTakeLast k 4)) (fun _ =>
    pyTry (rtTryBody k co f fuel) rtHandler)))

/-- The success block of `analyze_results`. -/
def accessYesBlock : List String :=
  ["\n🎉 SUCCESS: Your API key has Realtime API access!",
   "\n✅ You can:",
   "   • Use WebSocket streaming for real-time conversations",
   "   • Process audio in real-time with low latency",
   "   • Build voice-enabled applications",
   "\n💰 Pricing:",
   "   • Audio input: $0.06/minute",
   "   • Audio output: $0.24/minute",
   "   • Text: Standard GPT-4 rates"]

/-- The failure block of `analyze_results`. -/
def accessNoBlock : List String :=
  ["\n❌ FAILED: Cannot access Realtime API",
   "\n🔧 How to fix:",
   "   1. Check your credits at: https://platform.openai.com/usage",
   "   2. Add credits (minimum $5): https://platform.openai.com/billing",
   "   3. Verify API key is valid",
   "   4. Make sure you're using the latest API key",
   "\n💡 Alternative:",
   "   Use HTTP-based conversation with:",
   "   • Whisper API for speech-to-text",
   "   • GPT-3.5/4 for chat completions",
   "   • TTS API for text-to-speech"]

/-- `analyze_results` of `test_realtime_api.py` (prints only). -/
def analyze_results (hasAccess : Bool) : PyM Unit :=
  PyM.bind (pyPrint ("\n" ++ sepLine 60)) (fun _ =>
  PyM.bind (pyPrint "📊 Analysis Results") (fun _ =>
  PyM.bind (pyPrint (sepLine 60)) (fun _ =>
  if hasAccess then pyPrintAll accessYesBlock else pyPrintAll accessNoBlock)))

/-- `main` of `test_realtime_api.py` after the module-level credential
read. -/
def realtime_body (key : Option String) (co : ConnOutcome)
    (f : Nat → RecvOutcome) (fuel : Nat) : PyM Unit :=
  PyM.bind (pyPrint (sepLine 70)) (fun _ =>
  PyM.bind (pyPrint "🚀 OpenAI Realtime API Access Test") (fun _ =>
  PyM.bind (pyPrint (sepLine 70)) (fun _ =>
  PyM.bind (test_realtime_connection key co f fuel) (fun hasAccess =>
  PyM.bind (analyze_results hasAccess) (fun _ =>
  PyM.bind (pyPrint ("\n" ++ sepLine 70)) (fun _ =>
  PyM.bind
    (if hasAccess then
       pyPrint "✅ Realtime API is ready to use in your Flutter app!"
     else
       pyPrint "⚠️ Using HTTP fallback mode in your Flutter app") (fun _ =>
  pyPrint (sepLine 70))))))))

/-- `test_realtime_api.py` as a whole: the module-level credential read
followed by `main`. -/
def realtime_main (lines : List (List Char)) (co : ConnOutcome)
    (f : Nat → RecvOutcome) (fuel : Nat) : PyM Unit :=
  PyM.bind (emit (.fileRead envPath)) (fun _ =>
    realtime_body (keyOpt lines) co f fuel)

/-! ## Projection invariants

`ProjSub g m L` says: `m` only appends to the trace, and the `g`-projection
of what it appends is a sublist of `L`.  Instantiating `g` yields the claims
about request URLs, authorization headers, file reads and file writes. -/

def ProjSub {α σ : Type} (g : Eff → Option σ) (m : PyM α) (L : List σ) : Prop :=
  ∀ t, ∃ ext, (m t).2 = t ++ ext ∧ (ext.filterMap g).Sublist L

theorem projSub_silent {α σ : Type} {g : Eff → Option σ} {m : PyM α}
    (h : Silent m) : ProjSub g m [] := by
  intro t
  exact ⟨[], by simpa using h t, by simp⟩

theorem projSub_pure {α σ : Type} {g : Eff → Option σ} (a : α) :
    ProjSub g (PyM.pure a) [] := projSub_silent (silent_pure a)

theorem projSub_pyThrow {α σ : Type} {g : Eff → Option σ} (e : PyErr) :
    ProjSub g (@pyThrow α e) [] := projSub_silent (silent_pyThrow e)

theorem projSub_emit {σ : Type} {g : Eff → Option σ} (e : Eff) :
    ProjSub g (emit e) (g e).toList := by
  intro t
  refine ⟨[e], rfl, ?_⟩
  cases h : g e <;> simp [List.filterMap, h]

theorem projSub_weaken {α σ : Type} {g : Eff → Option σ} {m : PyM α} {L L' : List σ}
    (h : ProjSub g m L) (hLL : L.Sublist L') : ProjSub g m L' := by
  intro t
  obtain ⟨ext, h1, h2⟩ := h t
  exact ⟨ext, h1, h2.trans hLL⟩

theorem projSub_bind {α β σ : Type} {g : Eff → Option σ} {m : PyM α} {f : α → PyM β}
    {L₁ L₂ : List σ} (hm : ProjSub g m L₁) (hf : ∀ a, ProjSub g (f a) L₂) :
    ProjSub g (PyM.bind m f) (L₁ ++ L₂) := by
  intro t
  obtain ⟨ext, h1, h2⟩ := hm t
  cases h : m t with
  | mk r t' =>
    have ht' : t' = t ++ ext := by rw [← h1, h]
    cases r with
    | ok a =>
        have hrun : PyM.bind m f t = f a t' := by unfold PyM.bind; rw [h]
        obtain ⟨ext2, h3, h4⟩ := hf a t'
        refine ⟨ext ++ ext2, ?_, ?_⟩
        · rw [hrun, h3, ht', List.append_assoc]
        · rw [List.filterMap_append]
          exact List.Sublist.append h2 h4
    | error e =>
        have hrun : PyM.bind m f t = (.error e, t') := by unfold PyM.bind; rw [h]
        refine ⟨ext, ?_, ?_⟩
        · rw [hrun]; exact ht'
        · exact h2.trans (List.sublist_append_left L₁ L₂)

theorem projSub_pyTry {α σ : Type} {g : Eff → Option σ} {body : PyM α}
    {h : PyErr → PyM α} {L₁ L₂ : List σ} (hb : ProjSub g body L₁)
    (hh : ∀ e, ProjSub g (h e) L₂) : ProjSub g (pyTry body h) (L₁ ++ L₂) := by
  intro t
  obtain ⟨ext, h1, h2⟩ := hb t
  cases hb' : body t with
  | mk r t' =>
    have ht' : t' = t ++ ext := by rw [← h1, hb']
    cases r with
    | ok a =>
        have hrun : pyTry body h t = (.ok a, t') := by unfold pyTry; rw [hb']
        refine ⟨ext, ?_, ?_⟩
        · rw [hrun]; exact ht'
        · exact h2.trans (List.sublist_append_left L₁ L₂)
    | error e =>
        have hrun : pyTry body h t = h e t' := by unfold pyTry; rw [hb']
        obtain ⟨ext2, h3, h4⟩ := hh e t'
        refine ⟨ext ++ ext2, ?_, ?_⟩
        · rw [hrun, h3, ht', List.append_assoc]
        · rw [List.filterMap_append]
          exact List.Sublist.append h2 h4

theorem projSub_ite {α σ : Type} {g : Eff → Option σ} {c : Prop} [Decidable c]
    {m₁ m₂ : PyM α} {L : List σ} (h₁ : ProjSub g m₁ L) (h₂ : ProjSub g m₂ L) :
    ProjSub g (if c then m₁ else m₂) L := by
  by_cases h : c <;> simp [h] <;> assumption

theorem projSub_pyPrint {σ : Type} {g : Eff → Option σ}
    (hpr : ∀ s, g (.print s) = none) (s : String) : ProjSub g (pyPrint s) [] := by
  have h := @projSub_emit σ g (Eff.print s)
  rw [hpr s] at h
  exact h

theorem projSub_pyPrintAll {σ : Type} {g : Eff → Option σ}
    (hpr : ∀ s, g (.print s) = none) (L : List String) :
    ProjSub g (pyPrintAll L) [] := by
  induction L with
  | nil => exact projSub_pure ()
  | cons s rest ih =>
      have := projSub_bind (projSub_pyPrint hpr s) (fun _ => ih)
      simpa using this

theorem projSub_requestGet {σ : Type} {g : Eff → Option σ} (o : ReqOutcome)
    (u a : String) : ProjSub g (requestGet o u a) (g (.get u a)).toList := by
  unfold requestGet
  have hcont : ∀ x : Unit, ProjSub g
      (match o with
       | ReqOutcome.resp r => PyM.pure r
       | ReqOutcome.exn m => pyThrow (PyErr.exn m)) ([] : List σ) := by
    intro x
    cases o
    · exact projSub_pure _
    · exact projSub_pyThrow _
  have h := projSub_bind (@projSub_emit σ g (.get u a)) hcont
  simpa using h

theorem projSub_requestPost {σ : Type} {g : Eff → Option σ} (o : ReqOutcome)
    (u a : String) (b : JVal) :
    ProjSub g (requestPost o u a b) (g (.post u a b)).toList := by
  unfold requestPost
  have hcont : ∀ x : Unit, ProjSub g
      (match o with
       | ReqOutcome.resp r => PyM.pure r
       | ReqOutcome.exn m => pyThrow (PyErr.exn m)) ([] : List σ) := by
    intro x
    cases o
    · exact projSub_pure _
    · exact projSub_pyThrow _
  have h := projSub_bind (@projSub_emit σ g (.post u a b)) hcont
  simpa using h

theorem projSub_wsConnectAct {σ : Type} {g : Eff → Option σ} (co : ConnOutcome)
    (u a : String) : ProjSub g (wsConnectAct co u a) (g (.wsConnect u a)).toList := by
  unfold wsConnectAct
  have hcont : ∀ x : Unit, ProjSub g
      (match co with
       | ConnOutcome.ok => PyM.pure ()
       | ConnOutcome.invalidStatus c => pyThrow (PyErr.invalidStatusCode c)
       | ConnOutcome.exn m => pyThrow (PyErr.exn m)) ([] : List σ) := by
    intro x
    cases co
    · exact projSub_pure _
    · exact projSub_pyThrow _
    · exact projSub_pyThrow _
  have h := projSub_bind (@projSub_emit σ g (.wsConnect u a)) hcont
  simpa using h

theorem projSub_wsSendAct {σ : Type} {g : Eff → Option σ} (m : JVal) :
    ProjSub g (wsSendAct m) (g (.wsSend m)).toList := projSub_emit _

theorem projSub_wsRecvAct {σ : Type} {g : Eff → Option σ} (o : RecvOutcome)
    (tmo : Nat) : ProjSub g (wsRecvAct o tmo) (g (.wsRecv tmo)).toList := by
  unfold wsRecvAct
  have hcont : ∀ x : Unit, ProjSub g
      (match o with
       | RecvOutcome.msg j => PyM.pure j
       | RecvOutcome.timeout => pyThrow PyErr.timeoutError
       | RecvOutcome.exn m => pyThrow (PyErr.exn m)) ([] : List σ) := by
    intro x
    cases o
    · exact projSub_pure _
    · exact projSub_pyThrow _
    · exact projSub_pyThrow _
  have h := projSub_bind (@projSub_emit σ g (.wsRecv tmo)) hcont
  simpa using h

theorem projSub_appends {α σ : Type} {g : Eff → Option σ} {m : PyM α} {L : List σ}
    (h : ProjSub g m L) : Appends m := by
  intro t
  obtain ⟨ext, h1, _⟩ := h t
  exact ⟨ext, h1⟩

/-! ### ProjSub instances for the scripts -/

theorem sublist_of_eq {α : Type} {l₁ l₂ : List α} (h : l₁ = l₂) : l₁.Sublist l₂ := by
  rw [h]

theorem projSub_emit_none {σ : Type} {g : Eff → Option σ} {e : Eff}
    (he : g e = none) : ProjSub g (emit e) [] := by
  have h := @projSub_emit σ g e
  rw [he] at h
  exact h

theorem projSub_wsSendAct_none {σ : Type} {g : Eff → Option σ}
    (hws : ∀ m, g (.wsSend m) = none) (m : JVal) : ProjSub g (wsSendAct m) [] := by
  have h := @projSub_wsSendAct σ g m
  rw [hws m] at h
  exact h

theorem projSub_wsRecvAct_none {σ : Type} {g : Eff → Option σ}
    (hrv : ∀ n, g (.wsRecv n) = none) (o : RecvOutcome) (tmo : Nat) :
    ProjSub g (wsRecvAct o tmo) [] := by
  have h := @projSub_wsRecvAct σ g o tmo
  rw [hrv tmo] at h
  exact h

theorem projSub_calRateHeaders {σ : Type} {g : Eff → Option σ}
    (hpr : ∀ s, g (.print s) = none) (r : HttpResponse) :
    ProjSub g (calRateHeaders r) [] := by
  unfold calRateHeaders
  exact projSub_ite
    (projSub_bind (projSub_pyPrint hpr _) (fun _ =>
     projSub_bind (projSub_pyPrint hpr _) (fun _ =>
     projSub_bind (projSub_pyPrint hpr _) (fun _ =>
     projSub_bind (projSub_pyPrint hpr _) (fun _ => projSub_pyPrint hpr _)))))
    (projSub_pure _)

theorem projSub_calErrDetails {σ : Type} {g : Eff → Option σ}
    (hpr : ∀ s, g (.print s) = none) (r : HttpResponse) :
    ProjSub g (calErrDetails r) [] := by
  unfold calErrDetails
  exact projSub_ite
    (projSub_bind (projSub_silent (silent_jsonLoad _)) (fun a =>
     projSub_bind (projSub_silent (silent_pyGet _ _ _)) (fun b =>
     projSub_bind (projSub_silent (silent_pyGet _ _ _)) (fun c =>
     projSub_bind (projSub_pyPrint hpr _) (fun _ => projSub_pyPrint hpr _)))))
    (projSub_pure _)

theorem projSub_calTail {σ : Type} {g : Eff → Option σ}
    (hpr : ∀ s, g (.print s) = none) (key : Option String) (o2 : ReqOutcome) :
    ProjSub g (calTail key o2) (g (.get modelsUrl (authHeader key))).toList := by
  unfold calTail
  refine projSub_weaken
    (projSub_bind (projSub_pyPrintAll hpr _) (fun _ =>
     projSub_bind (projSub_pyPrint hpr _) (fun _ =>
     projSub_bind (projSub_requestGet o2 _ _) (fun tr =>
     projSub_ite
       (projSub_bind (projSub_silent (silent_jsonLoad _)) (fun _ =>
        projSub_bind (projSub_silent (silent_pyGet _ _ _)) (fun _ =>
        projSub_bind (projSub_silent (silent_pyLen _)) (fun _ =>
        projSub_bind (projSub_pyPrint hpr _) (fun _ => projSub_pyPrint hpr _)))))
       (projSub_pyPrint hpr _)))))
    (sublist_of_eq (by simp))

theorem projSub_check_api_limits {σ : Type} {g : Eff → Option σ}
    (hpr : ∀ s, g (.print s) = none) (key : Option String) (o1 o2 : ReqOutcome) :
    ProjSub g (check_api_limits key o1 o2)
      ((g (.get modelUrl (authHeader key))).toList ++
        (g (.get modelsUrl (authHeader key))).toList) := by
  unfold check_api_limits
  refine projSub_weaken
    (projSub_bind (projSub_pyPrint hpr _) (fun _ =>
     projSub_bind (projSub_pyPrint hpr _) (fun _ =>
     projSub_pyTry
       (projSub_bind (projSub_requestGet o1 _ _) (fun r =>
        projSub_bind (projSub_pyPrint hpr _) (fun _ =>
        projSub_bind (projSub_pyPrint hpr _) (fun _ =>
        projSub_bind
          (projSub_ite (projSub_pyPrint hpr _)
            (projSub_ite (projSub_pyPrint hpr _)
              (projSub_ite
                (projSub_bind (projSub_pyPrint hpr _) (fun _ =>
                 projSub_bind (projSub_calRateHeaders hpr _) (fun _ =>
                 projSub_calErrDetails hpr _)))
                (projSub_pure _))))
          (fun _ => projSub_calTail hpr key o2)))))
       (fun e => projSub_pyPrint hpr _))))
    (sublist_of_eq (by simp))

theorem projSub_analyze_api_key {σ : Type} {g : Eff → Option σ}
    (hpr : ∀ s, g (.print s) = none) (key : Option String) :
    ProjSub g (analyze_api_key key) [] := by
  unfold analyze_api_key
  exact projSub_bind (projSub_pyPrint hpr _) (fun _ =>
    projSub_bind (projSub_pyPrint hpr _) (fun _ =>
    projSub_ite (projSub_pyPrint hpr _)
      (projSub_bind
        (projSub_ite
          (projSub_bind (projSub_pyPrint hpr _) (fun _ => projSub_pyPrint hpr _))
          (projSub_ite (projSub_pyPrint hpr _) (projSub_pyPrint hpr _)))
        (fun _ =>
         projSub_bind (projSub_pyPrint hpr _) (fun _ =>
         projSub_bind
           (projSub_ite (projSub_pyPrint hpr _) (projSub_pyPrint hpr _))
           (fun _ => projSub_pyPrint hpr _))))))

theorem projSub_estimate_usage {σ : Type} {g : Eff → Option σ}
    (hpr : ∀ s, g (.print s) = none) : ProjSub g estimate_usage [] :=
  projSub_pyPrintAll hpr _

theorem projSub_check_api_usage_body {σ : Type} {g : Eff → Option σ}
    (hpr : ∀ s, g (.print s) = none) (key : Option String) (now : String)
    (o1 o2 : ReqOutcome) :
    ProjSub g (check_api_usage_body key now o1 o2)
      ((g (.get modelUrl (authHeader key))).toList ++
        (g (.get modelsUrl (authHeader key))).toList) := by
  unfold check_api_usage_body
  refine projSub_weaken
    (projSub_bind (projSub_pyPrint hpr _) (fun _ =>
     projSub_bind (projSub_pyPrint hpr _) (fun _ =>
     projSub_bind (projSub_pyPrint hpr _) (fun _ =>
     projSub_bind (projSub_pyPrint hpr _) (fun _ =>
     projSub_ite
       (projSub_weaken (projSub_pyPrint hpr _) (List.nil_sublist _))
       (projSub_bind (projSub_analyze_api_key hpr _) (fun _ =>
        projSub_bind (projSub_check_api_limits hpr key o1 o2) (fun _ =>
        projSub_bind (projSub_estimate_usage hpr) (fun _ =>
        projSub_pyPrintAll hpr _)))))))))
    (sublist_of_eq (by simp))

theorem projSub_check_api_usage_main {σ : Type} {g : Eff → Option σ}
    (hpr : ∀ s, g (.print s) = none) (lines : List (List Char)) (now : String)
    (o1 o2 : ReqOutcome) :
    ProjSub g (check_api_usage_main lines now o1 o2)
      ((g (.fileRead envPath)).toList ++
        ((g (.get modelUrl (authHeader (keyOpt lines)))).toList ++
          (g (.get modelsUrl (authHeader (keyOpt lines)))).toList)) := by
  unfold check_api_usage_main
  exact projSub_bind (projSub_emit _) (fun _ =>
    projSub_check_api_usage_body hpr _ now o1 o2)

theorem projSub_printFalse {σ : Type} {g : Eff → Option σ}
    (hpr : ∀ s, g (.print s) = none) (p : String) (e : PyErr) :
    ProjSub g (printFalse p e) [] := by
  unfold printFalse
  exact projSub_bind (projSub_pyPrint hpr _) (fun _ => projSub_pure _)

theorem projSub_httpFailLines {σ : Type} {g : Eff → Option σ}
    (hpr : ∀ s, g (.print s) = none) (label : String) (r : HttpResponse) :
    ProjSub g (httpFailLines label r) [] := by
  unfold httpFailLines
  exact projSub_bind (projSub_pyPrint hpr _) (fun _ =>
    projSub_bind (projSub_pyPrint hpr _) (fun _ => projSub_pure _))

theorem projSub_test_connection_ok {σ : Type} {g : Eff → Option σ}
    (hpr : ∀ s, g (.print s) = none) (r : HttpResponse) :
    ProjSub g (test_connection_ok r) [] := by
  unfold test_connection_ok
  exact projSub_bind (projSub_pyPrint hpr _) (fun _ =>
    projSub_bind (projSub_silent (silent_jsonLoad _)) (fun jv =>
    projSub_bind (projSub_silent (silent_pySubscript _ _)) (fun models =>
    projSub_bind (projSub_silent (silent_pyLen _)) (fun n =>
    projSub_bind (projSub_pyPrint hpr _) (fun _ =>
    projSub_bind (projSub_silent (silent_pyIter _)) (fun ms =>
    projSub_bind (projSub_silent (silent_mapSubscript _ _)) (fun ids =>
    projSub_bind (projSub_ite (projSub_pyPrint hpr _) (projSub_pure _)) (fun _ =>
    projSub_bind (projSub_ite (projSub_pyPrint hpr _) (projSub_pure _)) (fun _ =>
    projSub_bind (projSub_ite (projSub_pyPrint hpr _) (projSub_pure _)) (fun _ =>
    projSub_pure _))))))))))

theorem projSub_test_connection {σ : Type} {g : Eff → Option σ}
    (hpr : ∀ s, g (.print s) = none) (key : Option String) (o : ReqOutcome) :
    ProjSub g (test_connection key o)
      (g (.get modelsUrl (authHeader key))).toList := by
  unfold test_connection
  refine projSub_weaken
    (projSub_bind (projSub_pyPrint hpr _) (fun _ =>
     projSub_pyTry
       (projSub_bind (projSub_requestGet o _ _) (fun r =>
        projSub_ite (projSub_test_connection_ok hpr r)
          (projSub_httpFailLines hpr _ r)))
       (fun e => projSub_printFalse hpr _ e)))
    (sublist_of_eq (by simp))

theorem projSub_test_chat_completion_ok {σ : Type} {g : Eff → Option σ}
    (hpr : ∀ s, g (.print s) = none) (r : HttpResponse) (e1 : String) :
    ProjSub g (test_chat_completion_ok r e1) [] := by
  unfold test_chat_completion_ok
  exact projSub_bind (projSub_silent (silent_jsonLoad _)) (fun data =>
    projSub_bind (projSub_silent (silent_pySubscript _ _)) (fun choices =>
    projSub_bind (projSub_silent (silent_pyIdx _ _)) (fun c0 =>
    projSub_bind (projSub_silent (silent_pySubscript _ _)) (fun msg =>
    projSub_bind (projSub_silent (silent_pySubscript _ _)) (fun ai =>
    projSub_bind (projSub_silent (silent_pyGet _ _ _)) (fun usage =>
    projSub_bind (projSub_silent (silent_pyGet _ _ _)) (fun tok =>
    projSub_bind (projSub_pyPrint hpr _) (fun _ =>
    projSub_bind (projSub_pyPrint hpr _) (fun _ =>
    projSub_bind (projSub_pyPrint hpr _) (fun _ =>
    projSub_bind (projSub_silent (silent_pySliceTo _ _)) (fun preview =>
    projSub_bind (projSub_pyPrint hpr _) (fun _ =>
    projSub_pure _))))))))))))

theorem projSub_test_chat_completion {σ : Type} {g : Eff → Option σ}
    (hpr : ∀ s, g (.print s) = none) (key : Option String) (o : ReqOutcome)
    (e1 : String) :
    ProjSub g (test_chat_completion key o e1)
      (g (.post chatUrl (authHeader key) chatPayload)).toList := by
  unfold test_chat_completion
  refine projSub_weaken
    (projSub_bind (projSub_pyPrint hpr _) (fun _ =>
     projSub_pyTry
       (projSub_bind (projSub_requestPost o _ _ _) (fun r =>
        projSub_ite (projSub_test_chat_completion_ok hpr r e1)
          (projSub_httpFailLines hpr _ r)))
       (fun e => projSub_printFalse hpr _ e)))
    (sublist_of_eq (by simp))

theorem projSub_test_whisper {σ : Type} {g : Eff → Option σ}
    (hpr : ∀ s, g (.print s) = none) : ProjSub g test_whisper [] := by
  unfold test_whisper
  exact projSub_bind (projSub_pyPrint hpr _) (fun _ =>
    projSub_bind (projSub_pyPrint hpr _) (fun _ =>
    projSub_bind (projSub_pyPrint hpr _) (fun _ =>
    projSub_bind (projSub_pyPrint hpr _) (fun _ => projSub_pure _))))

theorem projSub_test_tts_ok {σ : Type} {g : Eff → Option σ}
    (hpr : ∀ s, g (.print s) = none) (r : HttpResponse) (e2 : String) :
    ProjSub g (test_tts_ok r e2) (g (.fileWrite ttsPath)).toList := by
  unfold test_tts_ok
  refine projSub_weaken
    (projSub_bind (projSub_pyPrint hpr _) (fun _ =>
     projSub_bind (projSub_pyPrint hpr _) (fun _ =>
     projSub_bind (projSub_pyPrint hpr _) (fun _ =>
     projSub_bind (projSub_emit _) (fun _ =>
     projSub_bind (projSub_pyPrint hpr _) (fun _ => projSub_pure _))))))
    (sublist_of_eq (by simp))

theorem projSub_test_tts {σ : Type} {g : Eff → Option σ}
    (hpr : ∀ s, g (.print s) = none) (key : Option String) (o : ReqOutcome)
    (e2 : String) :
    ProjSub g (test_tts key o e2)
      ((g (.post speechUrl (authHeader key) ttsPayload)).toList ++
        (g (.fileWrite ttsPath)).toList) := by
  unfold test_tts
  have hif : ∀ r : HttpResponse, ProjSub g
      (if r.status_code == 200 then test_tts_ok r e2
       else httpFailLines "❌ TTS generation failed: " r)
      (g (Eff.fileWrite ttsPath)).toList := fun r =>
    projSub_ite (projSub_test_tts_ok hpr r e2)
      (projSub_weaken (projSub_httpFailLines hpr _ r) (List.nil_sublist _))
  have h := projSub_bind (projSub_pyPrint hpr "\n🔊 Testing Text-to-Speech...") (fun _ =>
    projSub_pyTry
      (projSub_bind (projSub_requestPost o speechUrl (authHeader key) ttsPayload) hif)
      (fun e => projSub_printFalse hpr "❌ TTS error: " e))
  exact projSub_weaken h (sublist_of_eq (by simp))

theorem projSub_flowLoop {σ : Type} {g : Eff → Option σ}
    (hpr : ∀ s, g (.print s) = none) (hsl : g .sleep = none)
    (steps : List (String × String)) : ProjSub g (flowLoop steps) [] := by
  induction steps with
  | nil => exact projSub_pure ()
  | cons p rest ih =>
      cases p with
      | mk step desc =>
        exact projSub_bind (projSub_pyPrint hpr _) (fun _ =>
          projSub_bind (projSub_pyPrint hpr _) (fun _ =>
          projSub_bind (projSub_emit_none hsl) (fun _ =>
          projSub_bind (projSub_pyPrint hpr _) (fun _ => ih))))

theorem projSub_test_complete_flow {σ : Type} {g : Eff → Option σ}
    (hpr : ∀ s, g (.print s) = none) (hsl : g .sleep = none) :
    ProjSub g test_complete_flow [] := by
  unfold test_complete_flow
  exact projSub_bind (projSub_pyPrint hpr _) (fun _ =>
    projSub_bind (projSub_pyPrint hpr _) (fun _ =>
    projSub_bind (projSub_flowLoop hpr hsl _) (fun _ =>
    projSub_bind (projSub_pyPrint hpr _) (fun _ =>
    projSub_bind (projSub_pyPrint hpr _) (fun _ => projSub_pure _)))))

theorem projSub_calculate_costs {σ : Type} {g : Eff → Option σ}
    (hpr : ∀ s, g (.print s) = none) : ProjSub g calculate_costs [] :=
  projSub_pyPrintAll hpr _

theorem projSub_test_api_summary {σ : Type} {g : Eff → Option σ}
    (hpr : ∀ s, g (.print s) = none) (r1 r2 r3 r4 r5 : Bool) :
    ProjSub g (test_api_summary r1 r2 r3 r4 r5) [] := by
  unfold test_api_summary
  exact projSub_bind (projSub_pyPrint hpr _) (fun _ =>
    projSub_bind (projSub_pyPrint hpr _) (fun _ =>
    projSub_bind (projSub_pyPrint hpr _) (fun _ =>
    projSub_bind (projSub_pyPrint hpr _) (fun _ =>
    projSub_bind (projSub_pyPrint hpr _) (fun _ =>
    projSub_bind (projSub_pyPrint hpr _) (fun _ =>
    projSub_bind (projSub_pyPrint hpr _) (fun _ =>
    projSub_bind (projSub_pyPrint hpr _) (fun _ =>
    projSub_bind (projSub_pyPrint hpr _) (fun _ =>
    projSub_ite (projSub_pyPrint hpr _)
      (projSub_ite (projSub_pyPrint hpr _) (projSub_pyPrint hpr _)))))))))))

theorem projSub_test_api_suite {σ : Type} {g : Eff → Option σ}
    (hpr : ∀ s, g (.print s) = none) (hsl : g .sleep = none)
    (key : Option String) (e1 e2 : String) (o1 o2 o3 : ReqOutcome) :
    ProjSub g (test_api_suite key e1 e2 o1 o2 o3)
      ((g (.get modelsUrl (authHeader key))).toList ++
        ((g (.post chatUrl (authHeader key) chatPayload)).toList ++
          ((g (.post speechUrl (authHeader key) ttsPayload)).toList ++
            (g (.fileWrite ttsPath)).toList))) := by
  unfold test_api_suite
  refine projSub_weaken
    (projSub_bind (projSub_pyPrint hpr _) (fun _ =>
     projSub_bind (projSub_test_connection hpr key o1) (fun r1 =>
     projSub_bind (projSub_test_chat_completion hpr key o2 e1) (fun r2 =>
     projSub_bind (projSub_test_whisper hpr) (fun r3 =>
     projSub_bind (projSub_test_tts hpr key o3 e2) (fun r4 =>
     projSub_bind (projSub_test_complete_flow hpr hsl) (fun r5 =>
     projSub_bind (projSub_calculate_costs hpr) (fun _ =>
     projSub_test_api_summary hpr r1 r2 r3 r4 r5))))))))
    (sublist_of_eq (by simp))

theorem projSub_test_api_body {σ : Type} {g : Eff → Option σ}
    (hpr : ∀ s, g (.print s) = none) (hsl : g .sleep = none)
    (key : Option String) (now e1 e2 : String) (o1 o2 o3 : ReqOutcome) :
    ProjSub g (test_api_body key now e1 e2 o1 o2 o3)
      ((g (.get modelsUrl (authHeader key))).toList ++
        ((g (.post chatUrl (authHeader key) chatPayload)).toList ++
          ((g (.post speechUrl (authHeader key) ttsPayload)).toList ++
            (g (.fileWrite ttsPath)).toList))) := by
  unfold test_api_body
  refine projSub_weaken
    (projSub_bind (projSub_pyPrint hpr _) (fun _ =>
     projSub_bind (projSub_pyPrint hpr _) (fun _ =>
     projSub_bind (projSub_pyPrint hpr _) (fun _ =>
     projSub_bind (projSub_pyPrint hpr _) (fun _ =>
     projSub_ite
       (projSub_weaken (projSub_pyPrint hpr _) (List.nil_sublist _))
       (projSub_test_api_suite hpr hsl key e1 e2 o1 o2 o3))))))
    (sublist_of_eq (by simp))

theorem projSub_test_api_main {σ : Type} {g : Eff → Option σ}
    (hpr : ∀ s, g (.print s) = none) (hsl : g .sleep = none)
    (lines : List (List Char)) (now e1 e2 : String) (o1 o2 o3 : ReqOutcome) :
    ProjSub g (test_api_main lines now e1 e2 o1 o2 o3)
      ((g (.fileRead envPath)).toList ++
        ((g (.get modelsUrl (authHeader (keyOpt lines)))).toList ++
          ((g (.post chatUrl (authHeader (keyOpt lines)) chatPayload)).toList ++
            ((g (.post speechUrl (authHeader (keyOpt lines)) ttsPayload)).toList ++
              (g (.fileWrite ttsPath)).toList)))) := by
  unfold test_api_main
  exact projSub_bind (projSub_emit _) (fun _ =>
    projSub_test_api_body hpr hsl _ now e1 e2 o1 o2 o3)

theorem silent_costStr (v : JVal) : Silent (costStr v) := by
  intro t
  cases v <;> rfl

theorem projSub_gpt35_ok {σ : Type} {g : Eff → Option σ}
    (hpr : ∀ s, g (.print s) = none) (r : HttpResponse) :
    ProjSub g (gpt35_ok r) [] := by
  unfold gpt35_ok
  exact projSub_bind (projSub_silent (silent_jsonLoad _)) (fun data =>
    projSub_bind (projSub_silent (silent_pySubscript _ _)) (fun choices =>
    projSub_bind (projSub_silent (silent_pyIdx _ _)) (fun c0 =>
    projSub_bind (projSub_silent (silent_pySubscript _ _)) (fun msg =>
    projSub_bind (projSub_silent (silent_pySubscript _ _)) (fun ai =>
    projSub_bind (projSub_silent (silent_pySubscript _ _)) (fun usage =>
    projSub_bind (projSub_silent (silent_pySubscript _ _)) (fun tokens =>
    projSub_bind (projSub_pyPrint hpr _) (fun _ =>
    projSub_bind (projSub_pyPrint hpr _) (fun _ =>
    projSub_bind (projSub_pyPrint hpr _) (fun _ =>
    projSub_bind (projSub_silent (silent_costStr _)) (fun cost =>
    projSub_pyPrint hpr _)))))))))))

theorem projSub_gpt35_fail {σ : Type} {g : Eff → Option σ}
    (hpr : ∀ s, g (.print s) = none) (r : HttpResponse) :
    ProjSub g (gpt35_fail r) [] := by
  unfold gpt35_fail
  exact projSub_bind (projSub_pyPrint hpr _) (fun _ =>
    projSub_bind (projSub_silent (silent_jsonLoad _)) (fun err =>
    projSub_bind (projSub_silent (silent_pySubscript _ _)) (fun eo =>
    projSub_bind (projSub_silent (silent_pySubscript _ _)) (fun em =>
    projSub_pyPrint hpr _))))

theorem projSub_gpt35_body {σ : Type} {g : Eff → Option σ}
    (hpr : ∀ s, g (.print s) = none) (key : Option String) (o : ReqOutcome) :
    ProjSub g (gpt35_body key o)
      (g (.post chatUrl (authHeader key) gpt35Payload)).toList := by
  unfold gpt35_body
  refine projSub_weaken
    (projSub_bind (projSub_pyPrint hpr _) (fun _ =>
     projSub_bind (projSub_pyPrint hpr _) (fun _ =>
     projSub_pyTry
       (projSub_bind (projSub_requestPost o _ _ _) (fun r =>
        projSub_ite (projSub_gpt35_ok hpr r) (projSub_gpt35_fail hpr r)))
       (fun e => projSub_pyPrint hpr _))))
    (sublist_of_eq (by simp))

theorem projSub_gpt35_main {σ : Type} {g : Eff → Option σ}
    (hpr : ∀ s, g (.print s) = none) (lines : List (List Char)) (o : ReqOutcome) :
    ProjSub g (gpt35_main lines o)
      ((g (.fileRead envPath)).toList ++
        (g (.post chatUrl (authHeader (keyOpt lines)) gpt35Payload)).toList) := by
  unfold gpt35_main
  exact projSub_bind (projSub_emit _) (fun _ => projSub_gpt35_body hpr _ o)

theorem projSub_respLoop {σ : Type} {g : Eff → Option σ}
    (hpr : ∀ s, g (.print s) = none) (hrv : ∀ n, g (.wsRecv n) = none)
    (f : Nat → RecvOutcome) :
    ∀ fuel idx, ProjSub g (respLoop f fuel idx) [] := by
  intro fuel
  induction fuel with
  | zero => intro idx; exact projSub_pyThrow _
  | succ fuel ih =>
      intro idx
      rw [respLoop]
      exact projSub_bind (projSub_wsRecvAct_none hrv _ _) (fun resp =>
        projSub_bind (projSub_silent (silent_jsonLoad _)) (fun event =>
        projSub_bind (projSub_silent (silent_pySubscript _ _)) (fun ty =>
        projSub_ite
          (projSub_bind (projSub_pyPrint hpr _) (fun _ => projSub_pure _))
          (projSub_ite
            (projSub_bind (projSub_silent (silent_pyGet _ _ _)) (fun delta =>
             projSub_bind (projSub_pyPrint hpr _) (fun _ => ih (idx + 1))))
            (ih (idx + 1))))))

theorem projSub_rtErrorBranch {σ : Type} {g : Eff → Option σ}
    (hpr : ∀ s, g (.print s) = none) (event : JVal) :
    ProjSub g (rtErrorBranch event) [] := by
  unfold rtErrorBranch
  exact projSub_bind (projSub_silent (silent_pyGet _ _ _)) (fun err =>
    projSub_bind (projSub_pyPrint hpr _) (fun _ =>
    projSub_bind (projSub_silent (silent_pyGet _ _ _)) (fun code =>
    projSub_bind (projSub_pyPrint hpr _) (fun _ =>
    projSub_bind (projSub_silent (silent_pyGet _ _ _)) (fun emsg =>
    projSub_bind (projSub_pyPrint hpr _) (fun _ =>
    projSub_bind (projSub_silent (silent_pyGet _ _ _)) (fun code2 =>
    projSub_bind
      (projSub_ite (projSub_pyPrint hpr _)
        (projSub_ite (projSub_pyPrint hpr _)
          (projSub_ite (projSub_pyPrint hpr _) (projSub_pure _))))
      (fun _ => projSub_pure _))))))))

theorem projSub_rtCreatedBranch {σ : Type} {g : Eff → Option σ}
    (hpr : ∀ s, g (.print s) = none) (hws : ∀ m, g (.wsSend m) = none)
    (hrv : ∀ n, g (.wsRecv n) = none) (event : JVal) (f : Nat → RecvOutcome)
    (fuel : Nat) : ProjSub g (rtCreatedBranch event f fuel) [] := by
  unfold rtCreatedBranch
  exact projSub_bind (projSub_silent (silent_pyGet _ _ _)) (fun session =>
    projSub_bind (projSub_pyPrint hpr _) (fun _ =>
    projSub_bind (projSub_silent (silent_pyGet _ _ _)) (fun sid =>
    projSub_bind (projSub_pyPrint hpr _) (fun _ =>
    projSub_bind (projSub_silent (silent_pyGet _ _ _)) (fun mdl =>
    projSub_bind (projSub_pyPrint hpr _) (fun _ =>
    projSub_bind (projSub_wsSendAct_none hws _) (fun _ =>
    projSub_bind (projSub_pyPrint hpr _) (fun _ =>
    projSub_bind (projSub_wsSendAct_none hws _) (fun _ =>
    projSub_bind (projSub_pyPrint hpr _) (fun _ =>
    projSub_respLoop hpr hrv f fuel 1))))))))))

theorem projSub_rtHandler {σ : Type} {g : Eff → Option σ}
    (hpr : ∀ s, g (.print s) = none) (e : PyErr) : ProjSub g (rtHandler e) [] := by
  cases e with
  | invalidStatusCode c =>
      exact projSub_bind (projSub_pyPrint hpr _) (fun _ =>
        projSub_bind
          (projSub_ite (projSub_pyPrint hpr _)
            (projSub_ite (projSub_pyPrint hpr _)
              (projSub_ite (projSub_pyPrint hpr _)
                (projSub_ite (projSub_pyPrint hpr _) (projSub_pure _)))))
          (fun _ => projSub_pure _))
  | timeoutError =>
      exact projSub_bind (projSub_pyPrint hpr _) (fun _ => projSub_pure _)
  | exn m =>
      exact projSub_bind (projSub_pyPrint hpr _) (fun _ => projSub_pure _)
  | fuel => exact projSub_pyThrow _

theorem projSub_rtTryBody {σ : Type} {g : Eff → Option σ}
    (hpr : ∀ s, g (.print s) = none) (hws : ∀ m, g (.wsSend m) = none)
    (hrv : ∀ n, g (.wsRecv n) = none) (k : String) (co : ConnOutcome)
    (f : Nat → RecvOutcome) (fuel : Nat) :
    ProjSub g (rtTryBody k co f fuel)
      (g (.wsConnect realtimeUri ("Bearer " ++ k))).toList := by
  unfold rtTryBody
  refine projSub_weaken
    (projSub_bind (projSub_pyPrint hpr _) (fun _ =>
     projSub_bind (projSub_wsConnectAct co _ _) (fun _ =>
     projSub_bind (projSub_pyPrint hpr _) (fun _ =>
     projSub_bind (projSub_wsSendAct_none hws _) (fun _ =>
     projSub_bind (projSub_pyPrint hpr _) (fun _ =>
     projSub_bind (projSub_wsRecvAct_none hrv _ _) (fun resp =>
     projSub_bind (projSub_silent (silent_jsonLoad _)) (fun event =>
     projSub_bind (projSub_silent (silent_pySubscript _ _)) (fun ty =>
     projSub_bind (projSub_pyPrint hpr _) (fun _ =>
     projSub_ite (projSub_rtErrorBranch hpr _)
       (projSub_ite (projSub_rtCreatedBranch hpr hws hrv _ f fuel)
         (projSub_bind (projSub_pyPrint hpr _) (fun _ => projSub_pure _)))))))))))))
    (sublist_of_eq (by simp))

theorem projSub_test_realtime_connection {σ : Type} {g : Eff → Option σ}
    (hpr : ∀ s, g (.print s) = none) (hws : ∀ m, g (.wsSend m) = none)
    (hrv : ∀ n, g (.wsRecv n) = none) (key : Option String) (co : ConnOutcome)
    (f : Nat → RecvOutcome) (fuel : Nat) :
    ProjSub g (test_realtime_connection key co f fuel)
      (g (.wsConnect realtimeUri ("Bearer " ++ key.getD ""))).toList := by
  unfold test_realtime_connection
  have hif : ProjSub g
      (if pyFalsy key then
         PyM.bind (pyPrint "❌ No API key found in .env file") (fun _ => PyM.pure false)
       else
         let k := key.getD ""
         PyM.bind (pyPrint ("🔑 Using API key: " ++ pyTake k 20 ++ "..." ++ pyTakeLast k 4)) (fun _ =>
         pyTry (rtTryBody k co f fuel) rtHandler))
      (g (Eff.wsConnect realtimeUri ("Bearer " ++ key.getD ""))).toList := by
    cases hk : pyFalsy key with
    | true =>
        simp only [hk, if_true]
        exact projSub_weaken
          (projSub_bind (projSub_pyPrint hpr _) (fun _ => projSub_pure false))
          (List.nil_sublist _)
    | false =>
        simp only [hk, Bool.false_eq_true, if_false]
        have h := projSub_bind
          (projSub_pyPrint hpr
            ("🔑 Using API key: " ++ pyTake (key.getD "") 20 ++ "..." ++ pyTakeLast (key.getD "") 4))
          (fun _ =>
           projSub_pyTry (projSub_rtTryBody hpr hws hrv (key.getD "") co f fuel)
             (fun e => projSub_rtHandler hpr e))
        exact projSub_weaken h (sublist_of_eq (by simp))
  have h := projSub_bind (projSub_pyPrint hpr "\n🔍 Testing OpenAI Realtime API Access...") (fun _ =>
    projSub_bind (projSub_pyPrint hpr (sepLine 60)) (fun _ => hif))
  exact projSub_weaken h (sublist_of_eq (by simp))

theorem projSub_analyze_results {σ : Type} {g : Eff → Option σ}
    (hpr : ∀ s, g (.print s) = none) (b : Bool) : ProjSub g (analyze_results b) [] := by
  unfold analyze_results
  exact projSub_bind (projSub_pyPrint hpr _) (fun _ =>
    projSub_bind (projSub_pyPrint hpr _) (fun _ =>
    projSub_bind (projSub_pyPrint hpr _) (fun _ =>
    projSub_ite (projSub_pyPrintAll hpr _) (projSub_pyPrintAll hpr _))))

theorem projSub_realtime_body {σ : Type} {g : Eff → Option σ}
    (hpr : ∀ s, g (.print s) = none) (hws : ∀ m, g (.wsSend m) = none)
    (hrv : ∀ n, g (.wsRecv n) = none) (key : Option String) (co : ConnOutcome)
    (f : Nat → RecvOutcome) (fuel : Nat) :
    ProjSub g (realtime_body key co f fuel)
      (g (.wsConnect realtimeUri ("Bearer " ++ key.getD ""))).toList := by
  unfold realtime_body
  refine projSub_weaken
    (projSub_bind (projSub_pyPrint hpr _) (fun _ =>
     projSub_bind (projSub_pyPrint hpr _) (fun _ =>
     projSub_bind (projSub_pyPrint hpr _) (fun _ =>
     projSub_bind (projSub_test_realtime_connection hpr hws hrv key co f fuel)
       (fun hasAccess =>
        projSub_bind (projSub_analyze_results hpr _) (fun _ =>
        projSub_bind (projSub_pyPrint hpr _) (fun _ =>
        projSub_bind (projSub_ite (projSub_pyPrint hpr _) (projSub_pyPrint hpr _))
          (fun _ => projSub_pyPrint hpr _))))))))
    (sublist_of_eq (by simp))

theorem projSub_realtime_main {σ : Type} {g : Eff → Option σ}
    (hpr : ∀ s, g (.print s) = none) (hws : ∀ m, g (.wsSend m) = none)
    (hrv : ∀ n, g (.wsRecv n) = none) (lines : List (List Char)) (co : ConnOutcome)
    (f : Nat → RecvOutcome) (fuel : Nat) :
    ProjSub g (realtime_main lines co f fuel)
      ((g (.fileRead envPath)).toList ++
        (g (.wsConnect realtimeUri ("Bearer " ++ (keyOpt lines).getD ""))).toList) := by
  unfold realtime_main
  exact projSub_bind (projSub_emit _) (fun _ =>
    projSub_realtime_body hpr hws hrv _ co f fuel)

/-! ### From invariants to runs -/

/-- Running from the empty trace, a `ProjSub` invariant bounds the
projection of the whole trace. -/
theorem projSub_run {α σ : Type} {g : Eff → Option σ} {m : PyM α} {L : List σ}
    (h : ProjSub g m L) : (((m []).2).filterMap g).Sublist L := by
  obtain ⟨ext, h1, h2⟩ := h []
  rw [h1]
  simpa using h2

/-- `ProjExact g m L`: on every path the computation appends effects whose
`g`-projection is exactly `L` (used for the status-determined diagnostic of
`check_api_limits`). -/
def ProjExact {α σ : Type} (g : Eff → Option σ) (m : PyM α) (L : List σ) : Prop :=
  ∀ t, ∃ ext, (m t).2 = t ++ ext ∧ ext.filterMap g = L

theorem projExact_run {α σ : Type} {g : Eff → Option σ} {m : PyM α} {L : List σ}
    (h : ProjExact g m L) : ((m []).2).filterMap g = L := by
  obtain ⟨ext, h1, h2⟩ := h []
  rw [h1]
  simpa using h2

theorem projExact_of_projSub_nil {α σ : Type} {g : Eff → Option σ} {m : PyM α}
    (h : ProjSub g m []) : ProjExact g m [] := by
  intro t
  obtain ⟨ext, h1, h2⟩ := h t
  exact ⟨ext, h1, List.sublist_nil.mp h2⟩

theorem projExact_emit {σ : Type} {g : Eff → Option σ} (e : Eff) :
    ProjExact g (emit e) (g e).toList := by
  intro t
  refine ⟨[e], rfl, ?_⟩
  cases h : g e <;> simp [List.filterMap, h]

/-- Exactness is preserved by sequencing with a suffix that emits nothing
`g`-visible (the suffix may or may not run if the head throws). -/
theorem projExact_bind_right0 {α β σ : Type} {g : Eff → Option σ} {m : PyM α}
    {f : α → PyM β} {L : List σ} (hm : ProjExact g m L)
    (hf : ∀ a, ProjSub g (f a) []) : ProjExact g (PyM.bind m f) L := by
  intro t
  obtain ⟨ext, h1, h2⟩ := hm t
  cases h : m t with
  | mk r t' =>
    have ht' : t' = t ++ ext := by rw [← h1, h]
    cases r with
    | ok a =>
        have hrun : PyM.bind m f t = f a t' := by unfold PyM.bind; rw [h]
        obtain ⟨ext2, h3, h4⟩ := hf a t'
        have h5 : ext2.filterMap g = [] := List.sublist_nil.mp h4
        refine ⟨ext ++ ext2, ?_, ?_⟩
        · rw [hrun, h3, ht', List.append_assoc]
        · rw [List.filterMap_append, h2, h5, List.append_nil]
    | error e =>
        have hrun : PyM.bind m f t = (.error e, t') := by unfold PyM.bind; rw [h]
        exact ⟨ext, by rw [hrun]; exact ht', h2⟩

/-- Exactness is preserved by prefixing with a non-throwing, `g`-invisible
computation. -/
theorem projExact_bind_left0 {α β σ : Type} {g : Eff → Option σ} {m : PyM α}
    {f : α → PyM β} {L : List σ} (hm : ProjSub g m []) (hnt : NoThrow m)
    (hf : ∀ a, ProjExact g (f a) L) : ProjExact g (PyM.bind m f) L := by
  intro t
  obtain ⟨ext, h1, h2⟩ := hm t
  have h2' : ext.filterMap g = [] := List.sublist_nil.mp h2
  cases h : m t with
  | mk r t' =>
    have ht' : t' = t ++ ext := by rw [← h1, h]
    cases r with
    | ok a =>
        have hrun : PyM.bind m f t = f a t' := by unfold PyM.bind; rw [h]
        obtain ⟨ext2, h3, h4⟩ := hf a t'
        refine ⟨ext ++ ext2, ?_, ?_⟩
        · rw [hrun, h3, ht', List.append_assoc]
        · rw [List.filterMap_append, h2', h4, List.nil_append]
    | error e =>
        obtain ⟨a, ha⟩ := hnt t
        rw [h] at ha
        simp at ha

theorem projExact_pyTry {α σ : Type} {g : Eff → Option σ} {body : PyM α}
    {h : PyErr → PyM α} {L : List σ} (hb : ProjExact g body L)
    (hh : ∀ e, ProjSub g (h e) []) : ProjExact g (pyTry body h) L := by
  intro t
  obtain ⟨ext, h1, h2⟩ := hb t
  cases hb' : body t with
  | mk r t' =>
    have ht' : t' = t ++ ext := by rw [← h1, hb']
    cases r with
    | ok a =>
        have hrun : pyTry body h t = (.ok a, t') := by unfold pyTry; rw [hb']
        exact ⟨ext, by rw [hrun]; exact ht', h2⟩
    | error e =>
        have hrun : pyTry body h t = h e t' := by unfold pyTry; rw [hb']
        obtain ⟨ext2, h3, h4⟩ := hh e t'
        have h5 : ext2.filterMap g = [] := List.sublist_nil.mp h4
        refine ⟨ext ++ ext2, ?_, ?_⟩
        · rw [hrun, h3, ht', List.append_assoc]
        · rw [List.filterMap_append, h2, h5, List.append_nil]

theorem noThrow_requestGet_resp (r : HttpResponse) (u a : String) :
    NoThrow (requestGet (.resp r) u a) := by
  intro t
  exact ⟨r, rfl⟩

/-- `EffsOk` instance for the realtime response loop: it only appends
10-second reads and console prints. -/
theorem effsOk_respLoop {P : Eff → Prop} (hpr : ∀ s, P (.print s))
    (hrv : P (.wsRecv 10)) (f : Nat → RecvOutcome) :
    ∀ fuel idx, EffsOk P (respLoop f fuel idx) := by
  intro fuel
  induction fuel with
  | zero => intro idx; exact effsOk_silent (silent_pyThrow _)
  | succ fuel ih =>
      intro idx
      rw [respLoop]
      refine effsOk_bind ?_ (fun resp =>
        effsOk_bind (effsOk_silent (silent_jsonLoad _)) (fun event =>
        effsOk_bind (effsOk_silent (silent_pySubscript _ _)) (fun ty =>
        effsOk_ite
          (effsOk_bind (effsOk_pyPrint (hpr _)) (fun _ => effsOk_pure _))
          (effsOk_ite
            (effsOk_bind (effsOk_silent (silent_pyGet _ _ _)) (fun delta =>
             effsOk_bind (effsOk_pyPrint (hpr _)) (fun _ => ih (idx + 1))))
            (ih (idx + 1))))))
      unfold wsRecvAct
      refine effsOk_bind (effsOk_emit hrv) (fun _ => ?_)
      cases f idx
      · exact effsOk_pure _
      · exact effsOk_silent (silent_pyThrow _)
      · exact effsOk_silent (silent_pyThrow _)

/-- If every appended effect's `g`-projection is `none` or `some c`, the
projection of the appended part is a constant list. -/
theorem filterMap_const_of_effsOk {σ : Type} [DecidableEq σ] {g : Eff → Option σ}
    {c : σ} (ext : List Eff) (h : ∀ e ∈ ext, g e = none ∨ g e = some c) :
    ext.filterMap g = List.replicate (ext.filterMap g).length c := by
  induction ext with
  | nil => rfl
  | cons e rest ih =>
      have hrest := ih (fun x hx => h x (List.mem_cons_of_mem e hx))
      rcases h e (List.mem_cons_self e rest) with h1 | h1
      · rw [List.filterMap_cons, h1]
        exact hrest
      · rw [List.filterMap_cons, h1]
        simp only [List.length_cons, List.replicate_succ]
        exact congrArg (fun l => c :: l) hrest

/-! ## Claim C3 -/

/-- A successful TTS response used as a concrete input. -/
def ttsResp200 : HttpResponse := ⟨200, [], "", some (.obj []), 3⟩

/-- A concrete `.env` file with a key. -/
def envLines : List (List Char) := ["OPENAI_API_KEY=sk-test".data]

/-- Claim C3, counterexample: the claim says no script ever writes a file,
but `test_api.py` with a successful TTS response writes the audio file
`/tmp/tts_test.mp3`. -/
theorem c3_counterexample :
    fileWrites ((test_api_main envLines "2026-10-12" "0.10" "0.10"
      (.exn "connection refused") (.exn "connection refused") (.resp ttsResp200)) []).2 =
      [ttsPath] := by
  rfl

/-- Claim C3 (amended): console output is the only output of
`check_api_usage.py`, `test_gpt35.py` and `test_realtime_api.py`; the only
file `test_api.py` may write is the saved TTS audio `/tmp/tts_test.mp3`
(written on a successful TTS response). -/
theorem c3_amended :
    (∀ lines now o1 o2,
       fileWrites ((check_api_usage_main lines now o1 o2) []).2 = []) ∧
    (∀ lines o, fileWrites ((gpt35_main lines o) []).2 = []) ∧
    (∀ lines co f fuel,
       fileWrites ((realtime_main lines co f fuel) []).2 = []) ∧
    (∀ lines now e1 e2 o1 o2 o3,
       (fileWrites ((test_api_main lines now e1 e2 o1 o2 o3) []).2).Sublist
         [ttsPath]) := by
  refine ⟨?_, ?_, ?_, ?_⟩
  · intro lines now o1 o2
    have h := projSub_run
      (@projSub_check_api_usage_main String fileWriteOf (fun _ => rfl) lines now o1 o2)
    simp only [fileWriteOf, Option.toList, List.append_nil, List.nil_append] at h
    exact List.sublist_nil.mp h
  · intro lines o
    have h := projSub_run
      (@projSub_gpt35_main String fileWriteOf (fun _ => rfl) lines o)
    simp only [fileWriteOf, Option.toList, List.append_nil, List.nil_append] at h
    exact List.sublist_nil.mp h
  · intro lines co f fuel
    have h := projSub_run
      (@projSub_realtime_main String fileWriteOf (fun _ => rfl) (fun _ => rfl)
        (fun _ => rfl) lines co f fuel)
    simp only [fileWriteOf, Option.toList, List.append_nil, List.nil_append] at h
    exact List.sublist_nil.mp h
  · intro lines now e1 e2 o1 o2 o3
    have h := projSub_run
      (@projSub_test_api_main String fileWriteOf (fun _ => rfl) rfl lines now e1 e2 o1 o2 o3)
    simpa only [fileWriteOf, Option.toList, List.append_nil, List.nil_append] using h

/-! ## Claim C8 -/

/-- Claim C8: in every script, each HTTP request and each WebSocket
connection is attempted at most once per run: the request URLs of a run are
pairwise distinct (nothing is re-issued) and at most one WebSocket
connection is attempted. -/
theorem c8_no_retry :
    (∀ lines now o1 o2,
       (httpUrls ((check_api_usage_main lines now o1 o2) []).2).Nodup ∧
       (wsConnects ((check_api_usage_main lines now o1 o2) []).2).length ≤ 1) ∧
    (∀ lines now e1 e2 o1 o2 o3,
       (httpUrls ((test_api_main lines now e1 e2 o1 o2 o3) []).2).Nodup ∧
       (wsConnects ((test_api_main lines now e1 e2 o1 o2 o3) []).2).length ≤ 1) ∧
    (∀ lines o,
       (httpUrls ((gpt35_main lines o) []).2).Nodup ∧
       (wsConnects ((gpt35_main lines o) []).2).length ≤ 1) ∧
    (∀ lines co f fuel,
       (httpUrls ((realtime_main lines co f fuel) []).2).Nodup ∧
       (wsConnects ((realtime_main lines co f fuel) []).2).length ≤ 1) := by
  refine ⟨?_, ?_, ?_, ?_⟩
  · intro lines now o1 o2
    constructor
    · have h := projSub_run
        (@projSub_check_api_usage_main String httpUrlOf (fun _ => rfl) lines now o1 o2)
      simp only [httpUrlOf, Option.toList, List.nil_append] at h
      exact List.Nodup.sublist h (by decide)
    · have h := projSub_run
        (@projSub_check_api_usage_main String wsConnUrlOf (fun _ => rfl) lines now o1 o2)
      simp only [wsConnUrlOf, Option.toList, List.append_nil, List.nil_append] at h
      have := List.sublist_nil.mp h
      simp [wsConnects, this]
  · intro lines now e1 e2 o1 o2 o3
    constructor
    · have h := projSub_run
        (@projSub_test_api_main String httpUrlOf (fun _ => rfl) rfl lines now e1 e2 o1 o2 o3)
      simp only [httpUrlOf, Option.toList, List.append_nil, List.nil_append] at h
      exact List.Nodup.sublist h (by decide)
    · have h := projSub_run
        (@projSub_test_api_main String wsConnUrlOf (fun _ => rfl) rfl lines now e1 e2 o1 o2 o3)
      simp only [wsConnUrlOf, Option.toList, List.append_nil, List.nil_append] at h
      have := List.sublist_nil.mp h
      simp [wsConnects, this]
  · intro lines o
    constructor
    · have h := projSub_run
        (@projSub_gpt35_main String httpUrlOf (fun _ => rfl) lines o)
      simp only [httpUrlOf, Option.toList, List.nil_append] at h
      exact List.Nodup.sublist h (by decide)
    · have h := projSub_run
        (@projSub_gpt35_main String wsConnUrlOf (fun _ => rfl) lines o)
      simp only [wsConnUrlOf, Option.toList, List.append_nil, List.nil_append] at h
      have := List.sublist_nil.mp h
      simp [wsConnects, this]
  · intro lines co f fuel
    constructor
    · have h := projSub_run
        (@projSub_realtime_main String httpUrlOf (fun _ => rfl) (fun _ => rfl)
          (fun _ => rfl) lines co f fuel)
      simp only [httpUrlOf, Option.toList, List.append_nil, List.nil_append] at h
      have := List.sublist_nil.mp h
      simp [httpUrls, this]
    · have h := projSub_run
        (@projSub_realtime_main String wsConnUrlOf (fun _ => rfl) (fun _ => rfl)
          (fun _ => rfl) lines co f fuel)
      simp only [wsConnUrlOf, Option.toList, List.nil_append] at h
      exact le_trans h.length_le (by simp)

/-! ## Claim C9 -/

/-- Helper: a script of the form `read the credential file; body` where the
body reads no file performs exactly one read of the fixed `.env` path. -/
theorem fileReads_main_aux {body : PyM Unit} (h : ProjSub fileReadOf body []) :
    fileReads (((PyM.bind (emit (.fileRead envPath)) (fun _ => body)) []).2) =
      [envPath] := by
  obtain ⟨ext, h1, h2⟩ := h [Eff.fileRead envPath]
  have hrun : (PyM.bind (emit (.fileRead envPath)) (fun _ => body)) [] =
      body [Eff.fileRead envPath] := rfl
  have h3 : ext.filterMap fileReadOf = [] := List.sublist_nil.mp h2
  show (((PyM.bind (emit (.fileRead envPath)) (fun _ => body)) []).2).filterMap
    fileReadOf = [envPath]
  rw [hrun, h1, List.filterMap_append, h3]
  rfl

/-- Claim C9: every script reads the credential file exactly once per
invocation, and every request it issues carries the bearer header derived
from that single read (the credential is never changed afterwards).  For
the realtime script the header statement is conditional on a key being
present, since without one no connection is attempted. -/
theorem c9_credential_read_once :
    (∀ lines now o1 o2,
       fileReads ((check_api_usage_main lines now o1 o2) []).2 = [envPath] ∧
       ∀ a ∈ reqAuths ((check_api_usage_main lines now o1 o2) []).2,
         a = authHeader (keyOpt lines)) ∧
    (∀ lines now e1 e2 o1 o2 o3,
       fileReads ((test_api_main lines now e1 e2 o1 o2 o3) []).2 = [envPath] ∧
       ∀ a ∈ reqAuths ((test_api_main lines now e1 e2 o1 o2 o3) []).2,
         a = authHeader (keyOpt lines)) ∧
    (∀ lines o,
       fileReads ((gpt35_main lines o) []).2 = [envPath] ∧
       ∀ a ∈ reqAuths ((gpt35_main lines o) []).2,
         a = authHeader (keyOpt lines)) ∧
    (∀ lines co f fuel,
       fileReads ((realtime_main lines co f fuel) []).2 = [envPath] ∧
       (pyFalsy (keyOpt lines) = false →
         ∀ a ∈ reqAuths ((realtime_main lines co f fuel) []).2,
           a = authHeader (keyOpt lines))) := by
  refine ⟨?_, ?_, ?_, ?_⟩
  · intro lines now o1 o2
    constructor
    · exact fileReads_main_aux
        (@projSub_check_api_usage_body String fileReadOf (fun _ => rfl)
          (keyOpt lines) now o1 o2)
    · intro a ha
      have h := projSub_run
        (@projSub_check_api_usage_main String reqAuth (fun _ => rfl) lines now o1 o2)
      have hmem := h.subset ha
      simp only [reqAuth, Option.toList, List.nil_append] at hmem
      simpa using hmem
  · intro lines now e1 e2 o1 o2 o3
    constructor
    · exact fileReads_main_aux
        (@projSub_test_api_body String fileReadOf (fun _ => rfl) rfl
          (keyOpt lines) now e1 e2 o1 o2 o3)
    · intro a ha
      have h := projSub_run
        (@projSub_test_api_main String reqAuth (fun _ => rfl) rfl lines now e1 e2 o1 o2 o3)
      have hmem := h.subset ha
      simp only [reqAuth, Option.toList, List.nil_append] at hmem
      simpa using hmem
  · intro lines o
    constructor
    · exact fileReads_main_aux
        (@projSub_gpt35_body String fileReadOf (fun _ => rfl) (keyOpt lines) o)
    · intro a ha
      have h := projSub_run
        (@projSub_gpt35_main String reqAuth (fun _ => rfl) lines o)
      have hmem := h.subset ha
      simp only [reqAuth, Option.toList, List.nil_append] at hmem
      simpa using hmem
  · intro lines co f fuel
    constructor
    · exact fileReads_main_aux
        (@projSub_realtime_body String fileReadOf (fun _ => rfl) (fun _ => rfl)
          (fun _ => rfl) (keyOpt lines) co f fuel)
    · intro hk a ha
      have h := projSub_run
        (@projSub_realtime_main String reqAuth (fun _ => rfl) (fun _ => rfl)
          (fun _ => rfl) lines co f fuel)
      have hmem := h.subset ha
      simp only [reqAuth, Option.toList, List.nil_append] at hmem
      cases hko : keyOpt lines with
      | none => rw [hko] at hk; simp [pyFalsy] at hk
      | some k =>
          rw [hko] at hmem
          simp only [List.mem_singleton] at hmem
          rw [hmem]
          rfl

/-- Witness for `c9_credential_read_once`: a concrete realtime run with a
present key. -/
theorem c9_witness :
    fileReads ((realtime_main envLines .ok (fun _ => .timeout) 3) []).2 = [envPath] ∧
    ∀ a ∈ reqAuths ((realtime_main envLines .ok (fun _ => .timeout) 3) []).2,
      a = authHeader (keyOpt envLines) := by
  have h := c9_credential_read_once.2.2.2 envLines .ok (fun _ => .timeout) 3
  exact ⟨h.1, h.2 (by decide)⟩

/-! ## Claim C2: no exception escapes a check -/

theorem noThrow_printFalse (p : String) (e : PyErr) : NoThrow (printFalse p e) := by
  unfold printFalse
  exact noThrow_bind (noThrow_pyPrint _) (fun _ => noThrow_pure _)

theorem clean_check_api_limits (key : Option String) (o1 o2 : ReqOutcome) :
    Clean (check_api_limits key o1 o2) := by
  unfold check_api_limits
  refine clean_bind (noThrow_pyPrint _) (fun _ => ?_)
  refine clean_bind (noThrow_pyPrint _) (fun _ => ?_)
  exact clean_pyTry (fun e => clean_of_noThrow (noThrow_pyPrint _))

theorem clean_test_connection (key : Option String) (o : ReqOutcome) :
    Clean (test_connection key o) := by
  unfold test_connection
  refine clean_bind (noThrow_pyPrint _) (fun _ => ?_)
  exact clean_pyTry (fun e => clean_of_noThrow (noThrow_printFalse _ e))

theorem clean_test_chat_completion (key : Option String) (o : ReqOutcome)
    (e1 : String) : Clean (test_chat_completion key o e1) := by
  unfold test_chat_completion
  refine clean_bind (noThrow_pyPrint _) (fun _ => ?_)
  exact clean_pyTry (fun e => clean_of_noThrow (noThrow_printFalse _ e))

theorem clean_test_tts (key : Option String) (o : ReqOutcome) (e2 : String) :
    Clean (test_tts key o e2) := by
  unfold test_tts
  refine clean_bind (noThrow_pyPrint _) (fun _ => ?_)
  exact clean_pyTry (fun e => clean_of_noThrow (noThrow_printFalse _ e))

theorem clean_gpt35_body (key : Option String) (o : ReqOutcome) :
    Clean (gpt35_body key o) := by
  unfold gpt35_body
  refine clean_bind (noThrow_pyPrint _) (fun _ => ?_)
  refine clean_bind (noThrow_pyPrint _) (fun _ => ?_)
  exact clean_pyTry (fun e => clean_of_noThrow (noThrow_pyPrint _))

theorem noThrow_rtStatusAdvice (c : Nat) :
    NoThrow (if c == 401 then pyPrint "   → Invalid API key"
      else if c == 403 then pyPrint "   → API key doesn't have Realtime API access"
      else if c == 429 then pyPrint "   → Rate limit exceeded or quota exhausted"
      else if c == 503 then pyPrint "   → Service temporarily unavailable"
      else PyM.pure ()) := by
  refine noThrow_ite (noThrow_pyPrint _) ?_
  refine noThrow_ite (noThrow_pyPrint _) ?_
  refine noThrow_ite (noThrow_pyPrint _) ?_
  exact noThrow_ite (noThrow_pyPrint _) (noThrow_pure _)

theorem clean_rtHandler (e : PyErr) : Clean (rtHandler e) := by
  cases e with
  | invalidStatusCode c =>
      simp only [rtHandler]
      refine clean_of_noThrow ?_
      refine noThrow_bind (noThrow_pyPrint _) (fun _ => ?_)
      exact noThrow_bind (noThrow_rtStatusAdvice c) (fun _ => noThrow_pure _)
  | timeoutError =>
      simp only [rtHandler]
      exact clean_of_noThrow (noThrow_bind (noThrow_pyPrint _) (fun _ => noThrow_pure _))
  | exn m =>
      simp only [rtHandler]
      exact clean_of_noThrow (noThrow_bind (noThrow_pyPrint _) (fun _ => noThrow_pure _))
  | fuel => intro t; rfl

theorem clean_test_realtime_connection (key : Option String) (co : ConnOutcome)
    (f : Nat → RecvOutcome) (fuel : Nat) :
    Clean (test_realtime_connection key co f fuel) := by
  unfold test_realtime_connection
  refine clean_bind (noThrow_pyPrint _) (fun _ => ?_)
  refine clean_bind (noThrow_pyPrint _) (fun _ => ?_)
  refine clean_ite ?_ ?_
  · exact clean_of_noThrow (noThrow_bind (noThrow_pyPrint _) (fun _ => noThrow_pure _))
  · exact clean_bind (noThrow_pyPrint _) (fun _ => clean_pyTry clean_rtHandler)

/-- Claim C2: for every response or raised exception, every check returns
normally — no Python exception escapes (`isClean` also accepts the fuel
marker of a still-looping realtime run, which is not an exception) — and on
a raised request exception each check prints its failure diagnostic; no
check re-issues a request (its request URLs are pairwise distinct). -/
theorem c2_checks_catch_everything :
    ((∀ key o1 o2, isClean ((check_api_limits key o1 o2) []).1 = true) ∧
     (∀ key o, isClean ((test_connection key o) []).1 = true) ∧
     (∀ key o e1, isClean ((test_chat_completion key o e1) []).1 = true) ∧
     (∀ key o e2, isClean ((test_tts key o e2) []).1 = true) ∧
     (∀ key o, isClean ((gpt35_body key o) []).1 = true) ∧
     (∀ key co f fuel, isClean ((test_realtime_connection key co f fuel) []).1 = true)) ∧
    ((∀ key m o2, ("❌ Error checking API: " ++ m) ∈
        outputOf ((check_api_limits key (.exn m) o2) []).2) ∧
     (∀ key m, ("❌ Connection error: " ++ m) ∈
        outputOf ((test_connection key (.exn m)) []).2) ∧
     (∀ key m e1, ("❌ Chat error: " ++ m) ∈
        outputOf ((test_chat_completion key (.exn m) e1) []).2) ∧
     (∀ key m e2, ("❌ TTS error: " ++ m) ∈
        outputOf ((test_tts key (.exn m) e2) []).2) ∧
     (∀ key m, ("Error: " ++ m) ∈ outputOf ((gpt35_body key (.exn m)) []).2) ∧
     (∀ (k : String) (fuel : Nat), (k == "") = false →
        "\n⏱️ Connection timed out" ∈
          outputOf ((test_realtime_connection (some k) .ok
            (fun _ => RecvOutcome.timeout) fuel) []).2)) ∧
    ((∀ key o1 o2, (httpUrls ((check_api_limits key o1 o2) []).2).Nodup) ∧
     (∀ key o, (httpUrls ((test_connection key o) []).2).length ≤ 1) ∧
     (∀ key o e1, (httpUrls ((test_chat_completion key o e1) []).2).length ≤ 1) ∧
     (∀ key o e2, (httpUrls ((test_tts key o e2) []).2).length ≤ 1) ∧
     (∀ key o, (httpUrls ((gpt35_body key o) []).2).length ≤ 1)) := by
  refine ⟨⟨?_, ?_, ?_, ?_, ?_, ?_⟩, ⟨?_, ?_, ?_, ?_, ?_, ?_⟩, ?_, ?_, ?_, ?_, ?_⟩
  · intro key o1 o2; exact clean_check_api_limits key o1 o2 []
  · intro key o; exact clean_test_connection key o []
  · intro key o e1; exact clean_test_chat_completion key o e1 []
  · intro key o e2; exact clean_test_tts key o e2 []
  · intro key o; exact clean_gpt35_body key o []
  · intro key co f fuel; exact clean_test_realtime_connection key co f fuel []
  · intro key m o2
    simp [check_api_limits, requestGet, pyTry, PyM.bind, errMsgStr, outputOf]
  · intro key m
    simp [test_connection, requestGet, pyTry, PyM.bind, printFalse, errMsgStr, outputOf]
  · intro key m e1
    simp [test_chat_completion, requestPost, pyTry, PyM.bind, printFalse, errMsgStr, outputOf]
  · intro key m e2
    simp [test_tts, requestPost, pyTry, PyM.bind, printFalse, errMsgStr, outputOf]
  · intro key m
    simp [gpt35_body, requestPost, pyTry, PyM.bind, errMsgStr, outputOf]
  · intro k fuel hk
    simp [test_realtime_connection, rtTryBody, wsConnectAct, wsSendAct, wsRecvAct,
      rtHandler, pyFalsy, hk, pyTry, PyM.bind, outputOf]
  · intro key o1 o2
    have h := projSub_run (@projSub_check_api_limits String httpUrlOf (fun _ => rfl) key o1 o2)
    simp only [httpUrlOf, Option.toList] at h
    exact List.Nodup.sublist h (by decide)
  · intro key o
    have h := projSub_run (@projSub_test_connection String httpUrlOf (fun _ => rfl) key o)
    simp only [httpUrlOf, Option.toList] at h
    exact le_trans h.length_le (by simp)
  · intro key o e1
    have h := projSub_run (@projSub_test_chat_completion String httpUrlOf (fun _ => rfl) key o e1)
    simp only [httpUrlOf, Option.toList] at h
    exact le_trans h.length_le (by simp)
  · intro key o e2
    have h := projSub_run (@projSub_test_tts String httpUrlOf (fun _ => rfl) key o e2)
    simp only [httpUrlOf, Option.toList, List.append_nil] at h
    exact le_trans h.length_le (by simp)
  · intro key o
    have h := projSub_run (@projSub_gpt35_body String httpUrlOf (fun _ => rfl) key o)
    simp only [httpUrlOf, Option.toList] at h
    exact le_trans h.length_le (by simp)

/-- Witness for `c2_checks_catch_everything` at concrete inputs. -/
theorem c2_witness :
    "\n⏱️ Connection timed out" ∈
      outputOf ((test_realtime_connection (some "sk-test") .ok
        (fun _ => RecvOutcome.timeout) 3) []).2 := by
  exact c2_checks_catch_everything.2.1.2.2.2.2.2 "sk-test" 3 (by decide)

/-! ## Claim C10 -/

theorem run_bind_ok {α β : Type} {m : PyM α} {f : α → PyM β} {t : List Eff} {a : α}
    (h : (m t).1 = .ok a) : (PyM.bind m f) t = f a (m t).2 := by
  unfold PyM.bind
  cases hm : m t with
  | mk r t' =>
    rw [hm] at h
    cases r with
    | ok a' =>
        have ha : a' = a := by simpa using h
        subst ha
        rfl
    | error e => simp at h

theorem noThrow_pyTry {α : Type} {body : PyM α} {h : PyErr → PyM α}
    (hh : ∀ e, NoThrow (h e)) : NoThrow (pyTry body h) := by
  intro t
  unfold pyTry
  cases hb : body t with
  | mk r t' =>
    cases r with
    | ok a => exact ⟨a, rfl⟩
    | error e => exact hh e t'

theorem noThrow_test_connection (key : Option String) (o : ReqOutcome) :
    NoThrow (test_connection key o) := by
  unfold test_connection
  exact noThrow_bind (noThrow_pyPrint _) (fun _ =>
    noThrow_pyTry (fun e => noThrow_printFalse _ e))

theorem noThrow_test_chat_completion (key : Option String) (o : ReqOutcome)
    (e1 : String) : NoThrow (test_chat_completion key o e1) := by
  unfold test_chat_completion
  exact noThrow_bind (noThrow_pyPrint _) (fun _ =>
    noThrow_pyTry (fun e => noThrow_printFalse _ e))

theorem noThrow_test_tts (key : Option String) (o : ReqOutcome) (e2 : String) :
    NoThrow (test_tts key o e2) := by
  unfold test_tts
  exact noThrow_bind (noThrow_pyPrint _) (fun _ =>
    noThrow_pyTry (fun e => noThrow_printFalse _ e))

/-- `test_whisper` always returns `True` (no request can affect it). -/
theorem test_whisper_result (t : List Eff) : (test_whisper t).1 = .ok true := rfl

/-- `test_complete_flow` always returns `True` (no request can affect it). -/
theorem test_complete_flow_result (t : List Eff) :
    (test_complete_flow t).1 = .ok true := rfl

/-- Propagate a trace property through a never-throwing head. -/
theorem trace_prop_bind {α β : Type} {m : PyM α} {k : α → PyM β}
    (P : List Eff → Prop) (hm : NoThrow m)
    (hk : ∀ a t, P ((k a) t).2) : ∀ t, P ((PyM.bind m k) t).2 := by
  intro t
  obtain ⟨a, ha⟩ := hm t
  rw [run_bind_ok ha]
  exact hk a _

/-- Propagate a trace property through a head with a fixed result. -/
theorem trace_prop_bind_const {α β : Type} {m : PyM α} {k : α → PyM β} {a₀ : α}
    (P : List Eff → Prop) (hm : ∀ t, (m t).1 = .ok a₀)
    (hk : ∀ t, P ((k a₀) t).2) : ∀ t, P ((PyM.bind m k) t).2 := by
  intro t
  rw [run_bind_ok (hm t)]
  exact hk _

/-- The summary always prints the total line with the count including the
two unconditional passes. -/
theorem summary_total_mem (r1 r2 r4 : Bool) (t : List Eff) :
    totalLine (bNat r1 + bNat r2 + bNat true + bNat r4 + bNat true) ∈
      outputOf ((test_api_summary r1 r2 true r4 true) t).2 := by
  cases r1 <;> cases r2 <;> cases r4 <;>
    simp [test_api_summary, outputOf, passFail, bNat, List.filterMap_append]

/-- The test suite of `test_api.py` always reports at least 2 of 5 passed. -/
theorem suite_total (key : Option String) (e1 e2 : String) (o1 o2 o3 : ReqOutcome) :
    ∀ t, ∃ n, 2 ≤ n ∧
      totalLine n ∈ outputOf ((test_api_suite key e1 e2 o1 o2 o3) t).2 := by
  unfold test_api_suite
  refine trace_prop_bind (fun tr => ∃ n, 2 ≤ n ∧ totalLine n ∈ outputOf tr)
    (noThrow_pyPrint _) ?_
  intro _
  refine trace_prop_bind (fun tr => ∃ n, 2 ≤ n ∧ totalLine n ∈ outputOf tr)
    (noThrow_test_connection key o1) ?_
  intro r1
  refine trace_prop_bind (fun tr => ∃ n, 2 ≤ n ∧ totalLine n ∈ outputOf tr)
    (noThrow_test_chat_completion key o2 e1) ?_
  intro r2
  refine trace_prop_bind_const (fun tr => ∃ n, 2 ≤ n ∧ totalLine n ∈ outputOf tr)
    test_whisper_result ?_
  refine trace_prop_bind (fun tr => ∃ n, 2 ≤ n ∧ totalLine n ∈ outputOf tr)
    (noThrow_test_tts key o3 e2) ?_
  intro r4
  refine trace_prop_bind_const (fun tr => ∃ n, 2 ≤ n ∧ totalLine n ∈ outputOf tr)
    test_complete_flow_result ?_
  refine trace_prop_bind (fun tr => ∃ n, 2 ≤ n ∧ totalLine n ∈ outputOf tr)
    (noThrow_pyPrintAll costsBlock) ?_
  intro _ t
  refine ⟨bNat r1 + bNat r2 + bNat true + bNat r4 + bNat true, ?_, summary_total_mem r1 r2 r4 t⟩
  cases r1 <;> cases r2 <;> cases r4 <;> decide

/-- The predicate identifying the summary total line in the console output
(the line is the only one beginning with a newline and `   Total: `). -/
def isTotalLine (s : String) : Bool := pyTake s 11 == "\n   Total: "

/-- The first summary total line of an output. -/
def summaryTotal (out : List String) : Option String := out.find? isTotalLine

/-- Claim C10, counterexample: when all three network-dependent tests fail,
the summary reports 2 of 5 passed (40%), not at least 3 of 5 (60%). -/
theorem c10_counterexample :
    summaryTotal (outputOf ((test_api_main envLines "2026-10-12" "0.10" "0.10"
      (.exn "connection refused") (.exn "connection refused")
      (.exn "connection refused")) []).2) = some (totalLine 2) ∧ ¬ (3 : Nat) ≤ 2 := by
  exact ⟨by rfl, by decide⟩

/-- Claim C10 (amended): the Whisper check and the complete-flow check
return `True` unconditionally and issue no network request; consequently,
whenever a key is present, the printed summary reports at least **2** of
the 5 tests as passed (a success rate of at least 40%). -/
theorem c10_amended :
    (∀ t, (test_whisper t).1 = .ok true ∧ httpUrls ((test_whisper t).2) = httpUrls t) ∧
    (∀ t, (test_complete_flow t).1 = .ok true ∧
      httpUrls ((test_complete_flow t).2) = httpUrls t) ∧
    (∀ lines now e1 e2 o1 o2 o3, pyFalsy (keyOpt lines) = false →
      ∃ n, 2 ≤ n ∧
        totalLine n ∈ outputOf ((test_api_main lines now e1 e2 o1 o2 o3) []).2) := by
  refine ⟨?_, ?_, ?_⟩
  · intro t
    refine ⟨rfl, ?_⟩
    simp [test_whisper, httpUrls, httpUrlOf, List.filterMap_append]
  · intro t
    refine ⟨rfl, ?_⟩
    simp [test_complete_flow, flowLoop, flowSteps, httpUrls, httpUrlOf,
      List.filterMap_append]
  · intro lines now e1 e2 o1 o2 o3 hk
    have h0 : (test_api_main lines now e1 e2 o1 o2 o3) [] =
        (if pyFalsy (keyOpt lines) then pyPrint "❌ API key not found in .env file"
         else test_api_suite (keyOpt lines) e1 e2 o1 o2 o3)
          [Eff.fileRead envPath, .print (sepLine 60),
           .print "🚀 EnglishEar API Test Suite", .print ("📅 " ++ now),
           .print (sepLine 60)] := rfl
    rw [h0, if_neg (by simp [hk])]
    exact suite_total (keyOpt lines) e1 e2 o1 o2 o3 _

/-- Witness for `c10_amended` at a concrete run. -/
theorem c10_witness :
    ∃ n, 2 ≤ n ∧
      totalLine n ∈ outputOf ((test_api_main envLines "2026-10-12" "0.10" "0.10"
        (.exn "connection refused") (.exn "connection refused")
        (.exn "connection refused")) []).2 := by
  exact c10_amended.2.2 envLines "2026-10-12" "0.10" "0.10"
    (.exn "connection refused") (.exn "connection refused")
    (.exn "connection refused") (by decide)

/-! ## Claim C7 -/

/-- The three canned validity diagnostics of `check_api_limits`. -/
def isValidityDiag (s : String) : Bool :=
  s == validMsg || s == invalidKeyMsg || s == rateLimitMsg

/-- Projection to validity-diagnostic prints. -/
def vdiagOf : Eff → Option String
  | .print s => if isValidityDiag s then some s else none
  | _ => none

/-- The validity diagnostics printed in a trace, in order. -/
def validityDiags (t : List Eff) : List String := t.filterMap vdiagOf

/-- A string with a fixed prefix differing from `b` at a character position
inside the prefix is not `b`. -/
theorem append_ne_of_getElem (a b s : String) (i : Nat)
    (h : i < a.data.length) (hne : a.data[i]? ≠ b.data[i]?) : a ++ s ≠ b := by
  intro heq
  apply hne
  have hd : (a ++ s).data = b.data := congrArg String.data heq
  rw [String.data_append] at hd
  calc a.data[i]? = (a.data ++ s.data)[i]? := (List.getElem?_append_left h).symm
    _ = b.data[i]? := by rw [hd]

theorem append2_ne_of_getElem (a b s s2 : String) (i : Nat)
    (h : i < a.data.length) (hne : a.data[i]? ≠ b.data[i]?) : a ++ s ++ s2 ≠ b := by
  rw [String.append_assoc]
  exact append_ne_of_getElem a b (s ++ s2) i h hne

theorem not_diag {s : String}
    (h1 : s ≠ validMsg) (h2 : s ≠ invalidKeyMsg) (h3 : s ≠ rateLimitMsg) :
    isValidityDiag s = false := by
  simp [isValidityDiag, h1, h2, h3]

theorem vdiagOf_print_none {s : String} (h : isValidityDiag s = false) :
    vdiagOf (.print s) = none := by
  simp [vdiagOf, h]

theorem vdiagOf_print_some {s : String} (h : isValidityDiag s = true) :
    vdiagOf (.print s) = some s := by
  simp [vdiagOf, h]

theorem statusLine_not_diag (x : String) :
    isValidityDiag ("   Status Code: " ++ x) = false :=
  not_diag (append_ne_of_getElem _ _ _ 3 (by decide) (by decide))
    (append_ne_of_getElem _ _ _ 3 (by decide) (by decide))
    (append_ne_of_getElem _ _ _ 3 (by decide) (by decide))

theorem reqLimitLine_not_diag (x : String) :
    isValidityDiag ("   Request Limit: " ++ x) = false :=
  not_diag (append_ne_of_getElem _ _ _ 3 (by decide) (by decide))
    (append_ne_of_getElem _ _ _ 3 (by decide) (by decide))
    (append_ne_of_getElem _ _ _ 3 (by decide) (by decide))

theorem remReqLine_not_diag (x : String) :
    isValidityDiag ("   Remaining Requests: " ++ x) = false :=
  not_diag (append_ne_of_getElem _ _ _ 3 (by decide) (by decide))
    (append_ne_of_getElem _ _ _ 3 (by decide) (by decide))
    (append_ne_of_getElem _ _ _ 3 (by decide) (by decide))

theorem tokLimitLine_not_diag (x : String) :
    isValidityDiag ("   Token Limit: " ++ x) = false :=
  not_diag (append_ne_of_getElem _ _ _ 3 (by decide) (by decide))
    (append_ne_of_getElem _ _ _ 3 (by decide) (by decide))
    (append_ne_of_getElem _ _ _ 3 (by decide) (by decide))

theorem remTokLine_not_diag (x : String) :
    isValidityDiag ("   Remaining Tokens: " ++ x) = false :=
  not_diag (append_ne_of_getElem _ _ _ 3 (by decide) (by decide))
    (append_ne_of_getElem _ _ _ 3 (by decide) (by decide))
    (append_ne_of_getElem _ _ _ 3 (by decide) (by decide))

theorem canListLine_not_diag (x y : String) :
    isValidityDiag ("   ✅ Can list models (found " ++ x ++ y) = false :=
  not_diag (append2_ne_of_getElem _ _ _ _ 5 (by decide) (by decide))
    (append2_ne_of_getElem _ _ _ _ 3 (by decide) (by decide))
    (append2_ne_of_getElem _ _ _ _ 3 (by decide) (by decide))

theorem cannotListLine_not_diag (x y : String) :
    isValidityDiag ("   ❌ Cannot even list models (Status: " ++ x ++ y) = false :=
  not_diag (append2_ne_of_getElem _ _ _ _ 3 (by decide) (by decide))
    (append2_ne_of_getElem _ _ _ _ 5 (by decide) (by decide))
    (append2_ne_of_getElem _ _ _ _ 3 (by decide) (by decide))

theorem errCheckLine_not_diag (x : String) :
    isValidityDiag ("❌ Error checking API: " ++ x) = false :=
  not_diag (append_ne_of_getElem _ _ _ 0 (by decide) (by decide))
    (append_ne_of_getElem _ _ _ 0 (by decide) (by decide))
    (append_ne_of_getElem _ _ _ 0 (by decide) (by decide))

theorem projSub_vdiag_pyPrint {s : String} (h : isValidityDiag s = false) :
    ProjSub vdiagOf (pyPrint s) [] := by
  have hh := @projSub_emit String vdiagOf (.print s)
  rw [vdiagOf_print_none h] at hh
  exact hh

theorem projSub_vdiag_pyPrintAll {L : List String}
    (h : ∀ s ∈ L, isValidityDiag s = false) : ProjSub vdiagOf (pyPrintAll L) [] := by
  induction L with
  | nil => exact projSub_pure ()
  | cons s rest ih =>
      have hh := projSub_bind (projSub_vdiag_pyPrint (h s (List.mem_cons_self s rest)))
        (fun _ => ih (fun x hx => h x (List.mem_cons_of_mem s hx)))
      simpa using hh

theorem projSub_vdiag_calRateHeaders (r : HttpResponse) :
    ProjSub vdiagOf (calRateHeaders r) [] := by
  unfold calRateHeaders
  exact projSub_ite
    (projSub_bind (projSub_vdiag_pyPrint (by decide)) (fun _ =>
     projSub_bind (projSub_vdiag_pyPrint (reqLimitLine_not_diag _)) (fun _ =>
     projSub_bind (projSub_vdiag_pyPrint (remReqLine_not_diag _)) (fun _ =>
     projSub_bind (projSub_vdiag_pyPrint (tokLimitLine_not_diag _)) (fun _ =>
     projSub_vdiag_pyPrint (remTokLine_not_diag _))))))
    (projSub_pure _)

/-- What the error-details block of the 429 branch would print as its last
line, as a function of the parsed body. -/
def errDetail (jv : Option JVal) : Option String :=
  match jv with
  | some (.obj fs) =>
    match (fs.lookup "error").getD (.obj []) with
    | .obj gs => some ("   " ++ pyStr ((gs.lookup "message").getD (.str "")))
    | _ => none
  | _ => none

theorem projSub_vdiag_calErrDetails (r : HttpResponse)
    (hsafe : ∀ s, errDetail r.jsonVal = some s → isValidityDiag s = false) :
    ProjSub vdiagOf (calErrDetails r) [] := by
  unfold calErrDetails
  refine projSub_ite ?_ (projSub_pure _)
  cases hjv : r.jsonVal with
  | none =>
      intro t
      refine ⟨[], ?_, by simp⟩
      simp [PyM.bind, jsonLoad, hjv]
  | some v =>
      cases v with
      | obj fs =>
          cases hlook : fs.lookup "error" with
          | none =>
              have hd : errDetail r.jsonVal = some ("   " ++ pyStr (.str "")) := by
                simp [errDetail, hjv, hlook]
              intro t
              refine ⟨[.print "\n❌ Error Details:", .print ("   " ++ pyStr (.str ""))], ?_, ?_⟩
              · simp [PyM.bind, jsonLoad, hjv, pyGet, hlook, pyPrint, emit]
              · have hv1 : vdiagOf (.print "\n❌ Error Details:") = none :=
                  vdiagOf_print_none (by decide)
                have hv2 : vdiagOf (.print ("   " ++ pyStr (.str ""))) = none :=
                  vdiagOf_print_none (hsafe _ hd)
                simp [List.filterMap, hv1, hv2]
          | some w =>
              cases w with
              | obj gs =>
                  have hd : errDetail r.jsonVal =
                      some ("   " ++ pyStr ((gs.lookup "message").getD (.str ""))) := by
                    simp [errDetail, hjv, hlook]
                  intro t
                  refine ⟨[.print "\n❌ Error Details:",
                    .print ("   " ++ pyStr ((gs.lookup "message").getD (.str "")))], ?_, ?_⟩
                  · cases hmsg : gs.lookup "message" with
                    | none => simp [PyM.bind, jsonLoad, hjv, pyGet, hlook, hmsg, pyPrint, emit]
                    | some mv => simp [PyM.bind, jsonLoad, hjv, pyGet, hlook, hmsg, pyPrint, emit]
                  · have hv1 : vdiagOf (.print "\n❌ Error Details:") = none :=
                      vdiagOf_print_none (by decide)
                    have hv2 : vdiagOf
                        (.print ("   " ++ pyStr ((gs.lookup "message").getD (.str "")))) = none :=
                      vdiagOf_print_none (hsafe _ hd)
                    simp [List.filterMap, hv1, hv2]
              | arr xs =>
                  intro t
                  refine ⟨[], ?_, by simp⟩
                  simp [PyM.bind, jsonLoad, hjv, pyGet, hlook]
              | str s =>
                  intro t
                  refine ⟨[], ?_, by simp⟩
                  simp [PyM.bind, jsonLoad, hjv, pyGet, hlook]
              | num n =>
                  intro t
                  refine ⟨[], ?_, by simp⟩
                  simp [PyM.bind, jsonLoad, hjv, pyGet, hlook]
              | real q =>
                  intro t
                  refine ⟨[], ?_, by simp⟩
                  simp [PyM.bind, jsonLoad, hjv, pyGet, hlook]
              | null =>
                  intro t
                  refine ⟨[], ?_, by simp⟩
                  simp [PyM.bind, jsonLoad, hjv, pyGet, hlook]
      | arr xs =>
          intro t
          refine ⟨[], ?_, by simp⟩
          simp [PyM.bind, jsonLoad, hjv, pyGet]
      | str s =>
          intro t
          refine ⟨[], ?_, by simp⟩
          simp [PyM.bind, jsonLoad, hjv, pyGet]
      | num n =>
          intro t
          refine ⟨[], ?_, by simp⟩
          simp [PyM.bind, jsonLoad, hjv, pyGet]
      | real q =>
          intro t
          refine ⟨[], ?_, by simp⟩
          simp [PyM.bind, jsonLoad, hjv, pyGet]
      | null =>
          intro t
          refine ⟨[], ?_, by simp⟩
          simp [PyM.bind, jsonLoad, hjv, pyGet]

theorem projSub_vdiag_calTail (key : Option String) (o2 : ReqOutcome) :
    ProjSub vdiagOf (calTail key o2) [] := by
  unfold calTail
  have hq : ∀ s ∈ quotaBlock, isValidityDiag s = false := by decide
  have d1 : isValidityDiag "\n🧪 Testing Minimal API Request..." = false := by decide
  have d2 : isValidityDiag "   → API key works, but may have usage limits" = false := by decide
  have hbr : ∀ tr : HttpResponse, ProjSub vdiagOf
      (if tr.status_code == 200 then
        PyM.bind (jsonLoad tr.jsonVal) (fun models =>
        PyM.bind (pyGet models "data" (.arr [])) (fun dataField =>
        PyM.bind (pyLen dataField) (fun n =>
        PyM.bind (pyPrint ("   ✅ Can list models (found " ++ toString n ++ " models)"))
          (fun _ =>
        pyPrint "   → API key works, but may have usage limits"))))
      else
        pyPrint ("   ❌ Cannot even list models (Status: " ++
          toString tr.status_code ++ ")")) [] := by
    intro tr
    refine projSub_ite ?_ (projSub_vdiag_pyPrint (cannotListLine_not_diag _ _))
    have h := projSub_bind (projSub_silent (silent_jsonLoad tr.jsonVal)) (fun models =>
      projSub_bind (projSub_silent (silent_pyGet models "data" (JVal.arr []))) (fun dataField =>
      projSub_bind (projSub_silent (silent_pyLen dataField)) (fun n =>
      projSub_bind (projSub_vdiag_pyPrint (canListLine_not_diag (toString n) " models)"))
        (fun _ =>
      projSub_vdiag_pyPrint d2))))
    simpa using h
  have h := projSub_bind (projSub_vdiag_pyPrintAll hq) (fun _ =>
    projSub_bind (projSub_vdiag_pyPrint d1) (fun _ =>
    projSub_bind (@projSub_requestGet String vdiagOf o2 modelsUrl (authHeader key))
      (fun tr => hbr tr)))
  simpa using h

/-- The validity diagnostic determined by the status code. -/
def statusDiag (s : Nat) : List String :=
  if s = 200 then [validMsg]
  else if s = 401 then [invalidKeyMsg]
  else if s = 429 then [rateLimitMsg]
  else []

theorem projExact_vdiag_print_diag {s : String} (h : isValidityDiag s = true) :
    ProjExact vdiagOf (pyPrint s) [s] := by
  have hh := @projExact_emit String vdiagOf (.print s)
  rw [vdiagOf_print_some h] at hh
  exact hh

theorem projExact_branch (r : HttpResponse)
    (hsafe : ∀ s, errDetail r.jsonVal = some s → isValidityDiag s = false) :
    ProjExact vdiagOf
      (if r.status_code == 200 then pyPrint validMsg
       else if r.status_code == 401 then pyPrint invalidKeyMsg
       else if r.status_code == 429 then
         PyM.bind (pyPrint rateLimitMsg) (fun _ =>
         PyM.bind (calRateHeaders r) (fun _ =>
         calErrDetails r))
       else PyM.pure ())
      (statusDiag r.status_code) := by
  have dv : isValidityDiag validMsg = true := by decide
  have di : isValidityDiag invalidKeyMsg = true := by decide
  have dr : isValidityDiag rateLimitMsg = true := by decide
  by_cases h200 : r.status_code = 200
  · rw [h200]
    exact projExact_vdiag_print_diag dv
  · have hc1 : (r.status_code == 200) = false := by simp [h200]
    by_cases h401 : r.status_code = 401
    · rw [hc1, h401]
      exact projExact_vdiag_print_diag di
    · have hc2 : (r.status_code == 401) = false := by simp [h401]
      by_cases h429 : r.status_code = 429
      · have hs : statusDiag r.status_code = [rateLimitMsg] := by
          unfold statusDiag
          rw [if_neg h200, if_neg h401, if_pos h429]
        have hc3 : (r.status_code == 429) = true := by simp [h429]
        rw [hc1, hc2, hc3, hs]
        show ProjExact vdiagOf
          (PyM.bind (pyPrint rateLimitMsg) (fun _ =>
           PyM.bind (calRateHeaders r) (fun _ => calErrDetails r))) [rateLimitMsg]
        refine projExact_bind_right0 (projExact_vdiag_print_diag dr) (fun _ => ?_)
        have h := projSub_bind (projSub_vdiag_calRateHeaders r)
          (fun _ => projSub_vdiag_calErrDetails r hsafe)
        simpa using h
      · have hc3 : (r.status_code == 429) = false := by simp [h429]
        have hs : statusDiag r.status_code = [] := by
          unfold statusDiag
          rw [if_neg h200, if_neg h401, if_neg h429]
        rw [hc1, hc2, hc3, hs]
        show ProjExact vdiagOf (PyM.pure ()) []
        exact projExact_of_projSub_nil (projSub_pure ())

theorem projExact_bind_left0_const {α β σ : Type} {g : Eff → Option σ} {m : PyM α}
    {f : α → PyM β} {L : List σ} {a₀ : α} (hm : ProjSub g m [])
    (hret : ∀ t, (m t).1 = .ok a₀) (hf : ProjExact g (f a₀) L) :
    ProjExact g (PyM.bind m f) L := by
  intro t
  obtain ⟨ext, h1, h2⟩ := hm t
  have h2' : ext.filterMap g = [] := List.sublist_nil.mp h2
  have hrun : (PyM.bind m f) t = f a₀ (m t).2 := run_bind_ok (hret t)
  obtain ⟨ext2, h3, h4⟩ := hf (m t).2
  refine ⟨ext ++ ext2, ?_, ?_⟩
  · rw [hrun, h3, h1, List.append_assoc]
  · rw [List.filterMap_append, h2', h4, List.nil_append]

/-- Claim C7 (amended): for every response to the model-retrieval request,
`check_api_limits` prints **at most** one canned validity diagnostic, and
which one is determined by the status code: the valid message exactly when
the status is 200, the invalid-key message exactly when it is 401, the
rate-limit message exactly when it is 429, and none otherwise.  The
hypothesis excludes the degenerate case of a 429 error body whose
`error.message` is itself one of the canned lines. -/
theorem c7_amended (key : Option String) (r : HttpResponse) (o2 : ReqOutcome)
    (hsafe : ∀ s, errDetail r.jsonVal = some s → isValidityDiag s = false) :
    validityDiags ((check_api_limits key (.resp r) o2) []).2 =
      statusDiag r.status_code := by
  have hx : ProjExact vdiagOf (check_api_limits key (.resp r) o2)
      (statusDiag r.status_code) := by
    unfold check_api_limits
    refine projExact_bind_left0 (projSub_vdiag_pyPrint (by decide))
      (noThrow_pyPrint _) (fun _ => ?_)
    refine projExact_bind_left0 (projSub_vdiag_pyPrint (by decide))
      (noThrow_pyPrint _) (fun _ => ?_)
    refine projExact_pyTry ?_ (fun e => projSub_vdiag_pyPrint (errCheckLine_not_diag _))
    refine projExact_bind_left0_const
      (@projSub_requestGet String vdiagOf (.resp r) modelUrl (authHeader key))
      (fun t => rfl) ?_
    refine projExact_bind_left0 (projSub_vdiag_pyPrint (by decide))
      (noThrow_pyPrint _) (fun _ => ?_)
    refine projExact_bind_left0 (projSub_vdiag_pyPrint (statusLine_not_diag _))
      (noThrow_pyPrint _) (fun _ => ?_)
    exact projExact_bind_right0 (projExact_branch r hsafe)
      (fun _ => projSub_vdiag_calTail key o2)
  exact projExact_run hx

/-- A concrete 500 response. -/
def resp500 : HttpResponse := ⟨500, [], "", some (.obj []), 0⟩

/-- Claim C7, counterexample: for status 500 the function prints **zero**
validity diagnostics, not exactly one. -/
theorem c7_counterexample :
    validityDiags ((check_api_limits (some "sk-test") (.resp resp500)
      (.resp resp500)) []).2 = [] ∧ ([] : List String).length ≠ 1 := by
  exact ⟨by rfl, by decide⟩

/-- Witness for `c7_amended` at a concrete 401 response. -/
theorem c7_witness :
    validityDiags ((check_api_limits (some "sk-test")
      (.resp ⟨401, [], "", some (.obj []), 0⟩) (.resp resp500)) []).2 =
      statusDiag 401 := by
  exact c7_amended (some "sk-test") ⟨401, [], "", some (.obj []), 0⟩ (.resp resp500)
    (by intro s hs; simp [errDetail] at hs; rw [← hs]; decide)

/-! ## Claim C4 -/

/-- Effects foreign to the response loop: everything except prints and
10-second WebSocket reads. -/
def loopForeign : Eff → Option Eff
  | .print _ => none
  | .wsRecv n => if n = 10 then none else some (.wsRecv n)
  | e => some e

theorem loopForeign_none {e : Eff} (h : loopForeign e = none) :
    e = .wsRecv 10 ∨ ∃ s, e = .print s := by
  cases e with
  | print s => exact Or.inr ⟨s, rfl⟩
  | wsRecv n =>
      left
      by_cases hn : n = 10
      · rw [hn]
      · simp [loopForeign, hn] at h
  | get u a => simp [loopForeign] at h
  | post u a => simp [loopForeign] at h
  | wsConnect u a => simp [loopForeign] at h
  | wsSend m => simp [loopForeign] at h
  | fileRead p => simp [loopForeign] at h
  | fileWrite p => simp [loopForeign] at h
  | sleep => simp [loopForeign] at h

theorem projSub_wsRecvAct_none10 {σ : Type} {g : Eff → Option σ}
    (h : g (.wsRecv 10) = none) (o : RecvOutcome) :
    ProjSub g (wsRecvAct o 10) [] := by
  unfold wsRecvAct
  refine projSub_bind (projSub_emit_none h) (fun _ => ?_)
  cases o with
  | msg j => exact projSub_pure _
  | timeout => exact projSub_pyThrow _
  | exn m => exact projSub_pyThrow _

theorem projSub_loopForeign_respLoop (f : Nat → RecvOutcome) :
    ∀ fuel idx, ProjSub loopForeign (respLoop f fuel idx) [] := by
  have hpr : ∀ s, loopForeign (.print s) = none := fun _ => rfl
  intro fuel
  induction fuel with
  | zero => intro idx; exact projSub_pyThrow _
  | succ fuel ih =>
      intro idx
      rw [respLoop]
      exact projSub_bind (projSub_wsRecvAct_none10 (by simp [loopForeign]) _) (fun resp =>
        projSub_bind (projSub_silent (silent_jsonLoad _)) (fun event =>
        projSub_bind (projSub_silent (silent_pySubscript _ _)) (fun ty =>
        projSub_ite
          (projSub_bind (projSub_pyPrint hpr _) (fun _ => projSub_pure _))
          (projSub_ite
            (projSub_bind (projSub_silent (silent_pyGet _ _ _)) (fun delta =>
             projSub_bind (projSub_pyPrint hpr _) (fun _ => ih (idx + 1))))
            (ih (idx + 1))))))

theorem wsActs_all_recv10 {ext : List Eff}
    (h : ∀ e ∈ ext, loopForeign e = none) :
    ∀ e ∈ wsActs ext, e = .wsRecv 10 := by
  intro e he
  unfold wsActs at he
  obtain ⟨hmem, hp⟩ := List.mem_filter.mp he
  rcases loopForeign_none (h e hmem) with h1 | ⟨s, h1⟩
  · exact h1
  · rw [h1] at hp
    simp at hp

theorem pyGet_obj (fs : List (String × JVal)) (key : String) (dflt : JVal) :
    pyGet (.obj fs) key dflt = PyM.pure ((fs.lookup key).getD dflt) := by
  cases h : fs.lookup key <;> simp [pyGet, h]

theorem wsActs_append (a b : List Eff) : wsActs (a ++ b) = wsActs a ++ wsActs b := by
  simp [wsActs]

/-- Claim C4 (amended): when the first reply is a `session.created` event
whose `session` payload (defaulting to an empty object) is an object, the
WebSocket actions of the whole run are exactly the connect, the
session-update send, the 5-second first read, then the conversation-item
send followed by the response-creation send — in this order — and every
later WebSocket action is a 10-second read.  If the `session` payload is a
non-object, the branch raises `AttributeError` before sending anything, as
the counterexample shows. -/
theorem c4_amended (k : String) (f : Nat → RecvOutcome) (fuel : Nat)
    (fs gs : List (String × JVal))
    (hk : pyFalsy (some k) = false)
    (hf0 : f 0 = .msg (some (.obj fs)))
    (hty : fs.lookup "type" = some (.str "session.created"))
    (hsess : (fs.lookup "session").getD (.obj []) = .obj gs) :
    ∃ rest, wsActs ((test_realtime_connection (some k) .ok f fuel) []).2 =
      [.wsConnect realtimeUri ("Bearer " ++ k), .wsSend session_update,
       .wsRecv 5, .wsSend test_message, .wsSend create_response] ++ rest ∧
      ∀ e ∈ rest, e = .wsRecv 10 := by
  have t1 : tyEq (.str "session.created") "error" = false := by decide
  have t2 : tyEq (.str "session.created") "session.created" = true := by decide
  obtain ⟨pre, hpre, hws⟩ :
      ∃ pre, rtTryBody k .ok f fuel
          [.print "\n🔍 Testing OpenAI Realtime API Access...",
           .print (sepLine 60),
           .print ("🔑 Using API key: " ++ pyTake k 20 ++ "..." ++ pyTakeLast k 4)] =
          respLoop f fuel 1 pre ∧
        wsActs pre =
          [.wsConnect realtimeUri ("Bearer " ++ k), .wsSend session_update,
           .wsRecv 5, .wsSend test_message, .wsSend create_response] :=
    ⟨[.print "\n🔍 Testing OpenAI Realtime API Access...", .print (sepLine 60),
      .print ("🔑 Using API key: " ++ pyTake k 20 ++ "..." ++ pyTakeLast k 4),
      .print "\n📡 Attempting WebSocket connection...",
      .wsConnect realtimeUri ("Bearer " ++ k),
      .print "✅ WebSocket connected successfully!", .wsSend session_update,
      .print "📤 Sent session configuration", .wsRecv 5,
      .print ("📥 Received event: " ++ pyStr (.str "session.created")),
      .print "\n✅ Session created successfully!",
      .print ("   Session ID: " ++ pyStr ((gs.lookup "id").getD .null)),
      .print ("   Model: " ++ pyStr ((gs.lookup "model").getD .null)),
      .wsSend test_message, .print "\n📤 Sent test message",
      .wsSend create_response, .print "⏳ Waiting for AI response..."],
      by simp [rtTryBody, rtCreatedBranch, wsConnectAct, wsSendAct, wsRecvAct,
        jsonLoad, pySubscript, hf0, hty, pyGet_obj, hsess, t1, t2],
      by simp [wsActs]⟩
  have hmain : test_realtime_connection (some k) .ok f fuel [] =
      pyTry (rtTryBody k .ok f fuel) rtHandler
        [.print "\n🔍 Testing OpenAI Realtime API Access...",
         .print (sepLine 60),
         .print ("🔑 Using API key: " ++ pyTake k 20 ++ "..." ++ pyTakeLast k 4)] := by
    simp [test_realtime_connection, hk]
  obtain ⟨ext, hext, hsub⟩ := projSub_loopForeign_respLoop f fuel 1 pre
  have hall : ∀ e ∈ ext, loopForeign e = none := by
    have h0 : ext.filterMap loopForeign = [] := List.sublist_nil.mp hsub
    intro e he
    cases hg : loopForeign e with
    | none => rfl
    | some c =>
        exfalso
        have hc : c ∈ ext.filterMap loopForeign := List.mem_filterMap.mpr ⟨e, he, hg⟩
        rw [h0] at hc
        simp at hc
  rw [hmain, run_pyTry, hpre]
  cases hres : respLoop f fuel 1 pre with
  | mk r t' =>
      have ht' : t' = pre ++ ext := by rw [← hext, hres]
      cases r with
      | ok b =>
          refine ⟨wsActs ext, ?_, wsActs_all_recv10 hall⟩
          simp only [ht', wsActs_append, hws]
      | error e =>
          obtain ⟨ext2, hext2, hsub2⟩ :=
            @projSub_rtHandler Eff loopForeign (fun _ => rfl) e t'
          have hall2 : ∀ x ∈ ext2, loopForeign x = none := by
            have h0 : ext2.filterMap loopForeign = [] := List.sublist_nil.mp hsub2
            intro x hx
            cases hg : loopForeign x with
            | none => rfl
            | some c =>
                exfalso
                have hc : c ∈ ext2.filterMap loopForeign :=
                  List.mem_filterMap.mpr ⟨x, hx, hg⟩
                rw [h0] at hc
                simp at hc
          refine ⟨wsActs ext ++ wsActs ext2, ?_, ?_⟩
          · rw [ht'] at hext2
            rw [ht', hext2, wsActs_append, wsActs_append, hws, List.append_assoc]
          · intro x hx
            rcases List.mem_append.mp hx with h | h
            · exact wsActs_all_recv10 hall x h
            · exact wsActs_all_recv10 hall2 x h

/-- A server that answers `session.created` with a dictionary session
payload. -/
def c4GoodF : Nat → RecvOutcome := fun _ =>
  .msg (some (.obj [("type", .str "session.created"), ("session", .obj [])]))

/-- A server that answers `session.created` with a **string** session
payload. -/
def c4BadF : Nat → RecvOutcome := fun _ =>
  .msg (some (.obj [("type", .str "session.created"), ("session", .str "x")]))

/-- Claim C4, counterexample: with a `session.created` first reply whose
`session` payload is the string `"x"`, `session.get('id')` raises
`AttributeError` before either follow-up message is sent: the run contains
exactly one send (the session update), not three. -/
theorem c4_counterexample :
    countP isWsSendEff
      ((test_realtime_connection (some "sk-test") .ok c4BadF 5) []).2 = 1 ∧
    (1 : Nat) ≠ 3 := ⟨by rfl, by decide⟩

/-- Witness for `c4_amended` at a concrete run. -/
theorem c4_amended_witness :
    pyFalsy (some "sk-test") = false ∧
    ∃ rest, wsActs ((test_realtime_connection (some "sk-test") .ok c4GoodF 1) []).2 =
      [.wsConnect realtimeUri ("Bearer " ++ "sk-test"), .wsSend session_update,
       .wsRecv 5, .wsSend test_message, .wsSend create_response] ++ rest ∧
      ∀ e ∈ rest, e = .wsRecv 10 :=
  ⟨by decide, c4_amended "sk-test" c4GoodF 1
    [("type", .str "session.created"), ("session", .obj [])] []
    (by decide) (by rfl) (by rfl) (by rfl)⟩

/-! ## Claim C5 -/

/-- A received event that keeps the response loop going: it parses to an
object carrying a `type` key that is not the terminal marker. -/
def benignRO : RecvOutcome → Prop
  | .msg (some (.obj fs)) =>
      ∃ ty, fs.lookup "type" = some ty ∧ tyEq ty "response.done" = false
  | _ => False

/-- A received event that terminates the response loop with success. -/
def doneRO : RecvOutcome → Prop
  | .msg (some (.obj fs)) =>
      ∃ ty, fs.lookup "type" = some ty ∧ tyEq ty "response.done" = true
  | _ => False

/-- The event-reading loop eventually leaves the loop (with any result):
some fuel makes the run end in something other than the still-running
marker. -/
def rtTerminates (f : Nat → RecvOutcome) (idx : Nat) : Prop :=
  ∃ fuel, ((respLoop f fuel idx) []).1 ≠ .error .fuel

/-- A server that forever streams well-formed text deltas. -/
def c5DeltaF : Nat → RecvOutcome := fun _ =>
  .msg (some (.obj [("type", .str "response.text.delta"), ("delta", .str "hi")]))

/-- A server whose first loop event is `response.done`. -/
def c5DoneF : Nat → RecvOutcome := fun _ =>
  .msg (some (.obj [("type", .str "response.done")]))

theorem respLoop_c5DeltaF : ∀ (fuel idx : Nat) (t : List Eff),
    ((respLoop c5DeltaF fuel idx) t).1 = .error .fuel := by
  intro fuel
  induction fuel with
  | zero => intro idx t; rfl
  | succ n ih =>
      intro idx t
      rw [respLoop]
      have h1 : tyEq (.str "response.text.delta") "response.done" = false := by decide
      have h2 : tyEq (.str "response.text.delta") "response.text.delta" = true := by decide
      have hl : List.lookup "type"
          [("type", JVal.str "response.text.delta"), ("delta", JVal.str "hi")] =
          some (.str "response.text.delta") := by rfl
      have hg : pyGet (JVal.obj
          [("type", JVal.str "response.text.delta"), ("delta", JVal.str "hi")])
          "delta" (.str "") = PyM.pure (.str "hi") := by rfl
      simp [wsRecvAct, c5DeltaF, jsonLoad, pySubscript, hl, hg, h1, h2]
      exact ih (idx + 1) _

/-- Claim C5, counterexample: when the server delivers an endless stream of
well-formed `response.text.delta` events, the `while True` loop never
terminates — each read succeeds within its timeout, no event is terminal,
and the loop has no overall deadline. -/
theorem c5_counterexample : ¬ rtTerminates c5DeltaF 1 := by
  rintro ⟨fuel, hf⟩
  exact hf (respLoop_c5DeltaF fuel 1 [])

/-- Claim C5 (amended): after `n` well-formed non-terminal events the loop
is still running, and then a `response.done` event makes it return success,
while a read timeout makes it unwind with `TimeoutError`.  There is no
bound on the overall wait: only each single read is bounded, and an endless
stream of well-formed non-terminal events keeps the loop running forever,
as the counterexample shows. -/
theorem c5_amended (f : Nat → RecvOutcome) :
    ∀ (n idx fuel : Nat),
      (∀ i, i < n → benignRO (f (idx + i))) → n < fuel →
      (doneRO (f (idx + n)) → ∀ t, ((respLoop f fuel idx) t).1 = .ok true) ∧
      (f (idx + n) = .timeout →
        ∀ t, ((respLoop f fuel idx) t).1 = .error .timeoutError) := by
  intro n
  induction n with
  | zero =>
      intro idx fuel hben hfuel
      obtain ⟨m, rfl⟩ : ∃ m, fuel = m + 1 := ⟨fuel - 1, by omega⟩
      constructor
      · intro hdone t
        simp only [Nat.add_zero] at hdone
        rw [respLoop]
        cases hev : f idx with
        | msg j =>
            rw [hev] at hdone
            cases j with
            | none => exact hdone.elim
            | some v =>
                cases v with
                | obj fs =>
                    obtain ⟨ty, hlook, hty⟩ : ∃ ty, fs.lookup "type" = some ty ∧
                        tyEq ty "response.done" = true := hdone
                    simp [wsRecvAct, hev, jsonLoad, pySubscript, hlook, hty]
                | arr xs => exact hdone.elim
                | str s => exact hdone.elim
                | num k => exact hdone.elim
                | real q => exact hdone.elim
                | null => exact hdone.elim
        | timeout => rw [hev] at hdone; exact hdone.elim
        | exn m' => rw [hev] at hdone; exact hdone.elim
      · intro htm t
        simp only [Nat.add_zero] at htm
        rw [respLoop]
        simp [wsRecvAct, htm]
  | succ n ih =>
      intro idx fuel hben hfuel
      obtain ⟨m, rfl⟩ : ∃ m, fuel = m + 1 := ⟨fuel - 1, by omega⟩
      have hb0 := hben 0 (by omega)
      simp only [Nat.add_zero] at hb0
      have hben' : ∀ i, i < n → benignRO (f (idx + 1 + i)) := by
        intro i hi
        have h2 : idx + 1 + i = idx + (i + 1) := by omega
        rw [h2]
        exact hben (i + 1) (by omega)
      have hfuel' : n < m := by omega
      cases hev : f idx with
      | msg j =>
          rw [hev] at hb0
          cases j with
          | none => exact hb0.elim
          | some v =>
              cases v with
              | obj fs =>
                  obtain ⟨ty, hlook, htyne⟩ : ∃ ty, fs.lookup "type" = some ty ∧
                      tyEq ty "response.done" = false := hb0
                  have hrec := ih (idx + 1) m hben' hfuel'
                  have hstep : ∀ t, ∃ t2,
                      (respLoop f (m + 1) idx) t = respLoop f m (idx + 1) t2 := by
                    intro t
                    rw [respLoop]
                    by_cases hd : tyEq ty "response.text.delta" = true
                    · refine ⟨t ++ [.wsRecv 10,
                        .print ("   AI: " ++ pyStr ((fs.lookup "delta").getD (.str "")))],
                        ?_⟩
                      simp [wsRecvAct, hev, jsonLoad, pySubscript, hlook, htyne, hd,
                        pyGet_obj]
                    · refine ⟨t ++ [.wsRecv 10], ?_⟩
                      simp [wsRecvAct, hev, jsonLoad, pySubscript, hlook, htyne, hd]
                  constructor
                  · intro hdone t
                    obtain ⟨t2, h2⟩ := hstep t
                    rw [h2]
                    have hd2 : doneRO (f (idx + 1 + n)) := by
                      have he : idx + 1 + n = idx + (n + 1) := by omega
                      rw [he]; exact hdone
                    exact hrec.1 hd2 t2
                  · intro htm t
                    obtain ⟨t2, h2⟩ := hstep t
                    rw [h2]
                    have ht2 : f (idx + 1 + n) = .timeout := by
                      have he : idx + 1 + n = idx + (n + 1) := by omega
                      rw [he]; exact htm
                    exact hrec.2 ht2 t2
              | arr xs => exact hb0.elim
              | str s => exact hb0.elim
              | num k => exact hb0.elim
              | real q => exact hb0.elim
              | null => exact hb0.elim
      | timeout => rw [hev] at hb0; exact hb0.elim
      | exn m' => rw [hev] at hb0; exact hb0.elim

/-- Witness for `c5_amended`: a `response.done` first event ends the loop
with success. -/
theorem c5_amended_witness :
    (0 : Nat) < 1 ∧ ((respLoop c5DoneF 1 1) []).1 = .ok true :=
  ⟨by decide,
    (c5_amended c5DoneF 0 1 1 (by omega) (by omega)).1
      ⟨.str "response.done", rfl, by decide⟩ []⟩

/-! ## Claim C6 -/

theorem all_none_of_sublist_nil {σ : Type} {g : Eff → Option σ} {ext : List Eff}
    (h : (ext.filterMap g).Sublist []) : ∀ e ∈ ext, g e = none := by
  have h0 : ext.filterMap g = [] := List.sublist_nil.mp h
  intro e he
  cases hg : g e with
  | none => rfl
  | some c =>
      exfalso
      have hc : c ∈ ext.filterMap g := List.mem_filterMap.mpr ⟨e, he, hg⟩
      rw [h0] at hc
      simp at hc

/-- The computation appends a trace whose WebSocket-read timeouts are all
10 seconds. -/
def TmTail {α : Type} (m : PyM α) : Prop :=
  ∀ t, ∃ ext, (m t).2 = t ++ ext ∧
    ∃ j, ext.filterMap recvTmOf = List.replicate j 10

theorem tmTail_of_projSub_nil {α : Type} {m : PyM α}
    (h : ProjSub recvTmOf m []) : TmTail m := by
  intro t
  obtain ⟨ext, h1, h2⟩ := h t
  exact ⟨ext, h1, 0, List.sublist_nil.mp h2⟩

theorem tmTail_bind {α β : Type} {m : PyM α} {f : α → PyM β}
    (hm : TmTail m) (hf : ∀ a, TmTail (f a)) : TmTail (PyM.bind m f) := by
  intro t
  obtain ⟨ext, h1, j1, h2⟩ := hm t
  cases hrun : m t with
  | mk r t' =>
      have ht' : t' = t ++ ext := by rw [← h1, hrun]
      cases r with
      | ok a =>
          have hb : PyM.bind m f t = f a t' := by unfold PyM.bind; rw [hrun]
          obtain ⟨ext2, h3, j2, h4⟩ := hf a t'
          refine ⟨ext ++ ext2, ?_, j1 + j2, ?_⟩
          · rw [hb, h3, ht', List.append_assoc]
          · rw [List.filterMap_append, h2, h4, List.replicate_add]
      | error e =>
          have hb : PyM.bind m f t = (.error e, t') := by unfold PyM.bind; rw [hrun]
          exact ⟨ext, by rw [hb]; exact ht', j1, h2⟩

theorem tmTail_ite {α : Type} {c : Prop} [Decidable c] {m₁ m₂ : PyM α}
    (h1 : TmTail m₁) (h2 : TmTail m₂) : TmTail (if c then m₁ else m₂) := by
  by_cases hc : c
  · rw [if_pos hc]; exact h1
  · rw [if_neg hc]; exact h2

theorem tmTail_respLoop (f : Nat → RecvOutcome) (fuel idx : Nat) :
    TmTail (respLoop f fuel idx) := by
  intro t
  obtain ⟨ext, h1, h2⟩ := projSub_loopForeign_respLoop f fuel idx t
  have hall := all_none_of_sublist_nil h2
  refine ⟨ext, h1, (ext.filterMap recvTmOf).length, ?_⟩
  refine filterMap_const_of_effsOk ext (fun e he => ?_)
  rcases loopForeign_none (hall e he) with h | ⟨s, h⟩
  · rw [h]; exact Or.inr rfl
  · rw [h]; exact Or.inl rfl

theorem tmTail_rtCreatedBranch (event : JVal) (f : Nat → RecvOutcome)
    (fuel : Nat) : TmTail (rtCreatedBranch event f fuel) := by
  have hpr : ∀ s, recvTmOf (Eff.print s) = none := fun _ => rfl
  have hws : ∀ m, recvTmOf (Eff.wsSend m) = none := fun _ => rfl
  unfold rtCreatedBranch
  refine tmTail_bind (tmTail_of_projSub_nil (projSub_silent (silent_pyGet _ _ _)))
    (fun session => ?_)
  refine tmTail_bind (tmTail_of_projSub_nil (projSub_pyPrint hpr _)) (fun _ => ?_)
  refine tmTail_bind (tmTail_of_projSub_nil (projSub_silent (silent_pyGet _ _ _)))
    (fun sid => ?_)
  refine tmTail_bind (tmTail_of_projSub_nil (projSub_pyPrint hpr _)) (fun _ => ?_)
  refine tmTail_bind (tmTail_of_projSub_nil (projSub_silent (silent_pyGet _ _ _)))
    (fun mdl => ?_)
  refine tmTail_bind (tmTail_of_projSub_nil (projSub_pyPrint hpr _)) (fun _ => ?_)
  refine tmTail_bind (tmTail_of_projSub_nil (projSub_wsSendAct_none hws _)) (fun _ => ?_)
  refine tmTail_bind (tmTail_of_projSub_nil (projSub_pyPrint hpr _)) (fun _ => ?_)
  refine tmTail_bind (tmTail_of_projSub_nil (projSub_wsSendAct_none hws _)) (fun _ => ?_)
  refine tmTail_bind (tmTail_of_projSub_nil (projSub_pyPrint hpr _)) (fun _ => ?_)
  exact tmTail_respLoop f fuel 1

/-- The continuation of `rtTryBody` after the first (5-second) read. -/
def rtAfterRecv (f : Nat → RecvOutcome) (fuel : Nat) : Option JVal → PyM Bool :=
  fun resp =>
  PyM.bind (jsonLoad resp) (fun event =>
  PyM.bind (pySubscript event "type") (fun ty =>
  PyM.bind (pyPrint ("📥 Received event: " ++ pyStr ty)) (fun _ =>
  if tyEq ty "error" then rtErrorBranch event
  else if tyEq ty "session.created" then rtCreatedBranch event f fuel
  else PyM.bind (pyPrint ("Unexpected event type: " ++ pyStr ty)) (fun _ =>
       PyM.pure false))))

theorem tmTail_rtAfterRecv (f : Nat → RecvOutcome) (fuel : Nat)
    (resp : Option JVal) : TmTail (rtAfterRecv f fuel resp) := by
  have hpr : ∀ s, recvTmOf (Eff.print s) = none := fun _ => rfl
  unfold rtAfterRecv
  refine tmTail_bind (tmTail_of_projSub_nil (projSub_silent (silent_jsonLoad _)))
    (fun event => ?_)
  refine tmTail_bind (tmTail_of_projSub_nil (projSub_silent (silent_pySubscript _ _)))
    (fun ty => ?_)
  refine tmTail_bind (tmTail_of_projSub_nil (projSub_pyPrint hpr _)) (fun _ => ?_)
  refine tmTail_ite (tmTail_of_projSub_nil (projSub_rtErrorBranch hpr _)) ?_
  refine tmTail_ite (tmTail_rtCreatedBranch _ f fuel) ?_
  exact tmTail_bind (tmTail_of_projSub_nil (projSub_pyPrint hpr _))
    (fun _ => tmTail_of_projSub_nil (projSub_pure _))

theorem tcShape (key : Option String) (co : ConnOutcome) (f : Nat → RecvOutcome)
    (fuel : Nat) : ∀ t, ∃ ext,
      ((test_realtime_connection key co f fuel) t).2 = t ++ ext ∧
      (ext.filterMap recvTmOf = [] ∨
       ∃ j, ext.filterMap recvTmOf = 5 :: List.replicate j 10) := by
  intro t
  have hpr : ∀ s, recvTmOf (Eff.print s) = none := fun _ => rfl
  by_cases hk : pyFalsy key = true
  · refine ⟨[.print "\n🔍 Testing OpenAI Realtime API Access...", .print (sepLine 60),
      .print "❌ No API key found in .env file"], ?_, Or.inl rfl⟩
    simp [test_realtime_connection, hk]
  · cases key with
    | none => simp [pyFalsy] at hk
    | some k =>
        have hk' : pyFalsy (some k) = false := by
          cases h : pyFalsy (some k)
          · rfl
          · exact absurd h hk
        have hmain : (test_realtime_connection (some k) co f fuel) t =
            pyTry (rtTryBody k co f fuel) rtHandler
              (t ++ [.print "\n🔍 Testing OpenAI Realtime API Access...",
                     .print (sepLine 60),
                     .print ("🔑 Using API key: " ++ pyTake k 20 ++ "..." ++
                       pyTakeLast k 4)]) := by
          simp [test_realtime_connection, hk']
        rw [hmain]
        cases co with
        | invalidStatus c =>
            have hbody : rtTryBody k (.invalidStatus c) f fuel
                (t ++ [.print "\n🔍 Testing OpenAI Realtime API Access...",
                       .print (sepLine 60),
                       .print ("🔑 Using API key: " ++ pyTake k 20 ++ "..." ++
                         pyTakeLast k 4)]) =
                (.error (.invalidStatusCode c),
                 t ++ [.print "\n🔍 Testing OpenAI Realtime API Access...",
                       .print (sepLine 60),
                       .print ("🔑 Using API key: " ++ pyTake k 20 ++ "..." ++
                         pyTakeLast k 4),
                       .print "\n📡 Attempting WebSocket connection...",
                       .wsConnect realtimeUri ("Bearer " ++ k)]) := by
              simp [rtTryBody, wsConnectAct]
            rw [run_pyTry, hbody]
            obtain ⟨ext2, h2, hsub2⟩ :=
              @projSub_rtHandler Nat recvTmOf hpr (.invalidStatusCode c)
                (t ++ [.print "\n🔍 Testing OpenAI Realtime API Access...",
                       .print (sepLine 60),
                       .print ("🔑 Using API key: " ++ pyTake k 20 ++ "..." ++
                         pyTakeLast k 4),
                       .print "\n📡 Attempting WebSocket connection...",
                       .wsConnect realtimeUri ("Bearer " ++ k)])
            refine ⟨[.print "\n🔍 Testing OpenAI Realtime API Access...",
                     .print (sepLine 60),
                     .print ("🔑 Using API key: " ++ pyTake k 20 ++ "..." ++
                       pyTakeLast k 4),
                     .print "\n📡 Attempting WebSocket connection...",
                     .wsConnect realtimeUri ("Bearer " ++ k)] ++ ext2, ?_, Or.inl ?_⟩
            · dsimp only
              rw [h2, List.append_assoc]
            · rw [List.filterMap_append, List.sublist_nil.mp hsub2]
              rfl
        | exn msg0 =>
            have hbody : rtTryBody k (.exn msg0) f fuel
                (t ++ [.print "\n🔍 Testing OpenAI Realtime API Access...",
                       .print (sepLine 60),
                       .print ("🔑 Using API key: " ++ pyTake k 20 ++ "..." ++
                         pyTakeLast k 4)]) =
                (.error (.exn msg0),
                 t ++ [.print "\n🔍 Testing OpenAI Realtime API Access...",
                       .print (sepLine 60),
                       .print ("🔑 Using API key: " ++ pyTake k 20 ++ "..." ++
                         pyTakeLast k 4),
                       .print "\n📡 Attempting WebSocket connection...",
                       .wsConnect realtimeUri ("Bearer " ++ k)]) := by
              simp [rtTryBody, wsConnectAct]
            rw [run_pyTry, hbody]
            obtain ⟨ext2, h2, hsub2⟩ :=
              @projSub_rtHandler Nat recvTmOf hpr (.exn msg0)
                (t ++ [.print "\n🔍 Testing OpenAI Realtime API Access...",
                       .print (sepLine 60),
                       .print ("🔑 Using API key: " ++ pyTake k 20 ++ "..." ++
                         pyTakeLast k 4),
                       .print "\n📡 Attempting WebSocket connection...",
                       .wsConnect realtimeUri ("Bearer " ++ k)])
            refine ⟨[.print "\n🔍 Testing OpenAI Realtime API Access...",
                     .print (sepLine 60),
                     .print ("🔑 Using API key: " ++ pyTake k 20 ++ "..." ++
                       pyTakeLast k 4),
                     .print "\n📡 Attempting WebSocket connection...",
                     .wsConnect realtimeUri ("Bearer " ++ k)] ++ ext2, ?_, Or.inl ?_⟩
            · dsimp only
              rw [h2, List.append_assoc]
            · rw [List.filterMap_append, List.sublist_nil.mp hsub2]
              rfl
        | ok =>
            cases hf0 : f 0 with
            | timeout =>
                have hbody : rtTryBody k .ok f fuel
                    (t ++ [.print "\n🔍 Testing OpenAI Realtime API Access...",
                           .print (sepLine 60),
                           .print ("🔑 Using API key: " ++ pyTake k 20 ++ "..." ++
                             pyTakeLast k 4)]) =
                    (.error .timeoutError,
                     t ++ [.print "\n🔍 Testing OpenAI Realtime API Access...",
                           .print (sepLine 60),
                           .print ("🔑 Using API key: " ++ pyTake k 20 ++ "..." ++
                             pyTakeLast k 4),
                           .print "\n📡 Attempting WebSocket connection...",
                           .wsConnect realtimeUri ("Bearer " ++ k),
                           .print "✅ WebSocket connected successfully!",
                           .wsSend session_update,
                           .print "📤 Sent session configuration",
                           .wsRecv 5]) := by
                  simp [rtTryBody, wsConnectAct, wsSendAct, wsRecvAct, hf0]
                rw [run_pyTry, hbody]
                obtain ⟨ext2, h2, hsub2⟩ :=
                  @projSub_rtHandler Nat recvTmOf hpr .timeoutError
                    (t ++ [.print "\n🔍 Testing OpenAI Realtime API Access...",
                           .print (sepLine 60),
                           .print ("🔑 Using API key: " ++ pyTake k 20 ++ "..." ++
                             pyTakeLast k 4),
                           .print "\n📡 Attempting WebSocket connection...",
                           .wsConnect realtimeUri ("Bearer " ++ k),
                           .print "✅ WebSocket connected successfully!",
                           .wsSend session_update,
                           .print "📤 Sent session configuration",
                           .wsRecv 5])
                refine ⟨[.print "\n🔍 Testing OpenAI Realtime API Access...",
                         .print (sepLine 60),
                         .print ("🔑 Using API key: " ++ pyTake k 20 ++ "..." ++
                           pyTakeLast k 4),
                         .print "\n📡 Attempting WebSocket connection...",
                         .wsConnect realtimeUri ("Bearer " ++ k),
                         .print "✅ WebSocket connected successfully!",
                         .wsSend session_update,
                         .print "📤 Sent session configuration",
                         .wsRecv 5] ++ ext2, ?_, Or.inr ⟨0, ?_⟩⟩
                · dsimp only
                  rw [h2, List.append_assoc]
                · rw [List.filterMap_append, List.sublist_nil.mp hsub2]
                  rfl
            | exn m0 =>
                have hbody : rtTryBody k .ok f fuel
                    (t ++ [.print "\n🔍 Testing OpenAI Realtime API Access...",
                           .print (sepLine 60),
                           .print ("🔑 Using API key: " ++ pyTake k 20 ++ "..." ++
                             pyTakeLast k 4)]) =
                    (.error (.exn m0),
                     t ++ [.print "\n🔍 Testing OpenAI Realtime API Access...",
                           .print (sepLine 60),
                           .print ("🔑 Using API key: " ++ pyTake k 20 ++ "..." ++
                             pyTakeLast k 4),
                           .print "\n📡 Attempting WebSocket connection...",
                           .wsConnect realtimeUri ("Bearer " ++ k),
                           .print "✅ WebSocket connected successfully!",
                           .wsSend session_update,
                           .print "📤 Sent session configuration",
                           .wsRecv 5]) := by
                  simp [rtTryBody, wsConnectAct, wsSendAct, wsRecvAct, hf0]
                rw [run_pyTry, hbody]
                obtain ⟨ext2, h2, hsub2⟩ :=
                  @projSub_rtHandler Nat recvTmOf hpr (.exn m0)
                    (t ++ [.print "\n🔍 Testing OpenAI Realtime API Access...",
                           .print (sepLine 60),
                           .print ("🔑 Using API key: " ++ pyTake k 20 ++ "..." ++
                             pyTakeLast k 4),
                           .print "\n📡 Attempting WebSocket connection...",
                           .wsConnect realtimeUri ("Bearer " ++ k),
                           .print "✅ WebSocket connected successfully!",
                           .wsSend session_update,
                           .print "📤 Sent session configuration",
                           .wsRecv 5])
                refine ⟨[.print "\n🔍 Testing OpenAI Realtime API Access...",
                         .print (sepLine 60),
                         .print ("🔑 Using API key: " ++ pyTake k 20 ++ "..." ++
                           pyTakeLast k 4),
                         .print "\n📡 Attempting WebSocket connection...",
                         .wsConnect realtimeUri ("Bearer " ++ k),
                         .print "✅ WebSocket connected successfully!",
                         .wsSend session_update,
                         .print "📤 Sent session configuration",
                         .wsRecv 5] ++ ext2, ?_, Or.inr ⟨0, ?_⟩⟩
                · dsimp only
                  rw [h2, List.append_assoc]
                · rw [List.filterMap_append, List.sublist_nil.mp hsub2]
                  rfl
            | msg j0 =>
                have hbody : rtTryBody k .ok f fuel
                    (t ++ [.print "\n🔍 Testing OpenAI Realtime API Access...",
                           .print (sepLine 60),
                           .print ("🔑 Using API key: " ++ pyTake k 20 ++ "..." ++
                             pyTakeLast k 4)]) =
                    rtAfterRecv f fuel j0
                     (t ++ [.print "\n🔍 Testing OpenAI Realtime API Access...",
                           .print (sepLine 60),
                           .print ("🔑 Using API key: " ++ pyTake k 20 ++ "..." ++
                             pyTakeLast k 4),
                           .print "\n📡 Attempting WebSocket connection...",
                           .wsConnect realtimeUri ("Bearer " ++ k),
                           .print "✅ WebSocket connected successfully!",
                           .wsSend session_update,
                           .print "📤 Sent session configuration",
                           .wsRecv 5]) := by
                  simp [rtTryBody, rtAfterRecv, wsConnectAct, wsSendAct, wsRecvAct, hf0]
                obtain ⟨ext3, h3, j3, hfm3⟩ := tmTail_rtAfterRecv f fuel j0
                    (t ++ [.print "\n🔍 Testing OpenAI Realtime API Access...",
                           .print (sepLine 60),
                           .print ("🔑 Using API key: " ++ pyTake k 20 ++ "..." ++
                             pyTakeLast k 4),
                           .print "\n📡 Attempting WebSocket connection...",
                           .wsConnect realtimeUri ("Bearer " ++ k),
                           .print "✅ WebSocket connected successfully!",
                           .wsSend session_update,
                           .print "📤 Sent session configuration",
                           .wsRecv 5])
                rw [run_pyTry, hbody]
                cases hres : rtAfterRecv f fuel j0
                    (t ++ [.print "\n🔍 Testing OpenAI Realtime API Access...",
                           .print (sepLine 60),
                           .print ("🔑 Using API key: " ++ pyTake k 20 ++ "..." ++
                             pyTakeLast k 4),
                           .print "\n📡 Attempting WebSocket connection...",
                           .wsConnect realtimeUri ("Bearer " ++ k),
                           .print "✅ WebSocket connected successfully!",
                           .wsSend session_update,
                           .print "📤 Sent session configuration",
                           .wsRecv 5]) with
                | mk r t' =>
                    have ht' : t' =
                        (t ++ [.print "\n🔍 Testing OpenAI Realtime API Access...",
                           .print (sepLine 60),
                           .print ("🔑 Using API key: " ++ pyTake k 20 ++ "..." ++
                             pyTakeLast k 4),
                           .print "\n📡 Attempting WebSocket connection...",
                           .wsConnect realtimeUri ("Bearer " ++ k),
                           .print "✅ WebSocket connected successfully!",
                           .wsSend session_update,
                           .print "📤 Sent session configuration",
                           .wsRecv 5]) ++ ext3 := by
                      rw [← h3, hres]
                    cases r with
                    | ok b =>
                        refine ⟨[.print "\n🔍 Testing OpenAI Realtime API Access...",
                           .print (sepLine 60),
                           .print ("🔑 Using API key: " ++ pyTake k 20 ++ "..." ++
                             pyTakeLast k 4),
                           .print "\n📡 Attempting WebSocket connection...",
                           .wsConnect realtimeUri ("Bearer " ++ k),
                           .print "✅ WebSocket connected successfully!",
                           .wsSend session_update,
                           .print "📤 Sent session configuration",
                           .wsRecv 5] ++ ext3, ?_, Or.inr ⟨j3, ?_⟩⟩
                        · dsimp only
                          rw [ht', List.append_assoc]
                        · rw [List.filterMap_append, hfm3]
                          rfl
                    | error e =>
                        obtain ⟨ext4, h4, hsub4⟩ :=
                          @projSub_rtHandler Nat recvTmOf hpr e t'
                        refine ⟨[.print "\n🔍 Testing OpenAI Realtime API Access...",
                           .print (sepLine 60),
                           .print ("🔑 Using API key: " ++ pyTake k 20 ++ "..." ++
                             pyTakeLast k 4),
                           .print "\n📡 Attempting WebSocket connection...",
                           .wsConnect realtimeUri ("Bearer " ++ k),
                           .print "✅ WebSocket connected successfully!",
                           .wsSend session_update,
                           .print "📤 Sent session configuration",
                           .wsRecv 5] ++ (ext3 ++ ext4), ?_, Or.inr ⟨j3, ?_⟩⟩
                        · dsimp only
                          rw [h4, ht']
                          simp [List.append_assoc]
                        · rw [List.filterMap_append, List.filterMap_append, hfm3,
                            List.sublist_nil.mp hsub4, List.append_nil]
                          rfl

/-- Claim C6: in every run of `test_realtime_api.py` the WebSocket reads,
in order, are guarded by a 5-second timeout for the first reply after the
session-update message and a 10-second timeout for every subsequent read
in the response loop — the run either performs no read at all, or its read
timeouts are exactly `5, 10, 10, ...`. -/
theorem c6_recv_timeouts (lines : List (List Char)) (co : ConnOutcome)
    (f : Nat → RecvOutcome) (fuel : Nat) :
    recvTimeouts ((realtime_main lines co f fuel) []).2 = [] ∨
    ∃ j, recvTimeouts ((realtime_main lines co f fuel) []).2 =
      5 :: List.replicate j 10 := by
  have hpr : ∀ s, recvTmOf (Eff.print s) = none := fun _ => rfl
  have hmain : (realtime_main lines co f fuel) [] =
      (PyM.bind (test_realtime_connection (keyOpt lines) co f fuel)
        (fun hasAccess =>
         PyM.bind (analyze_results hasAccess) (fun _ =>
         PyM.bind (pyPrint ("\n" ++ sepLine 70)) (fun _ =>
         PyM.bind
           (if hasAccess then
              pyPrint "✅ Realtime API is ready to use in your Flutter app!"
            else
              pyPrint "⚠️ Using HTTP fallback mode in your Flutter app") (fun _ =>
         pyPrint (sepLine 70))))))
        [.fileRead envPath, .print (sepLine 70),
         .print "🚀 OpenAI Realtime API Access Test", .print (sepLine 70)] := by
    simp [realtime_main, realtime_body]
  obtain ⟨ext, hext, hsh⟩ := tcShape (keyOpt lines) co f fuel
    [.fileRead envPath, .print (sepLine 70),
     .print "🚀 OpenAI Realtime API Access Test", .print (sepLine 70)]
  rw [hmain, run_bind']
  cases hres : (test_realtime_connection (keyOpt lines) co f fuel)
      [.fileRead envPath, .print (sepLine 70),
       .print "🚀 OpenAI Realtime API Access Test", .print (sepLine 70)] with
  | mk r t' =>
      have ht' : t' =
          [.fileRead envPath, .print (sepLine 70),
           .print "🚀 OpenAI Realtime API Access Test", .print (sepLine 70)] ++ ext := by
        rw [← hext, hres]
      cases r with
      | error e =>
          dsimp only
          rw [ht']
          rcases hsh with h | ⟨j, h⟩
          · left
            unfold recvTimeouts
            rw [List.filterMap_append, h]
            rfl
          · right
            refine ⟨j, ?_⟩
            unfold recvTimeouts
            rw [List.filterMap_append, h]
            rfl
      | ok b =>
          have hpost : ProjSub recvTmOf
              (PyM.bind (analyze_results b) (fun _ =>
               PyM.bind (pyPrint ("\n" ++ sepLine 70)) (fun _ =>
               PyM.bind
                 (if b then
                    pyPrint "✅ Realtime API is ready to use in your Flutter app!"
                  else
                    pyPrint "⚠️ Using HTTP fallback mode in your Flutter app") (fun _ =>
               pyPrint (sepLine 70))))) [] := by
            have h : ProjSub recvTmOf
                (PyM.bind (analyze_results b) (fun _ =>
                 PyM.bind (pyPrint ("\n" ++ sepLine 70)) (fun _ =>
                 PyM.bind
                   (if b then
                      pyPrint "✅ Realtime API is ready to use in your Flutter app!"
                    else
                      pyPrint "⚠️ Using HTTP fallback mode in your Flutter app") (fun _ =>
                 pyPrint (sepLine 70))))) ([] ++ ([] ++ ([] ++ []))) := by
              refine projSub_bind (projSub_analyze_results hpr b) (fun _ => ?_)
              refine projSub_bind (projSub_pyPrint hpr _) (fun _ => ?_)
              refine projSub_bind
                (projSub_ite (projSub_pyPrint hpr _) (projSub_pyPrint hpr _))
                (fun _ => projSub_pyPrint hpr _)
            simpa using h
          obtain ⟨ext2, h2, hsub2⟩ := hpost t'
          dsimp only
          rw [h2, ht']
          rcases hsh with h | ⟨j, h⟩
          · left
            unfold recvTimeouts
            rw [List.append_assoc, List.filterMap_append, List.filterMap_append, h,
              List.sublist_nil.mp hsub2]
            rfl
          · right
            refine ⟨j, ?_⟩
            unfold recvTimeouts
            rw [List.append_assoc, List.filterMap_append, List.filterMap_append, h,
              List.sublist_nil.mp hsub2, List.append_nil]
            rfl
